import Mathlib

/-!
Verification of the natural-language intent front end of the Alfred voice
assistant.  The definitions below are a shallow embedding of

  * `src/intents.py`                                  (IntentParser),
  * `src/functions/simple_concatenation_parser.py`    (SimpleConcatenationParser),
  * `src/functions/complex_query_parser.py`           (ComplexQueryParser.is_complex_query),
  * `src/functions/context_manager.py`                (ContextManager),

translated construct by construct from the Python source.  Python strings are
modelled as `List Char` (wrapped into `String` at API boundaries), machine
floats that only ever hold the constants 0.9 / 0.5 / 0.7 are modelled as `ℚ`,
`time.time()` is modelled by an explicit integer `now` argument, and the
regular expressions of the rule table are embedded as an explicit AST (`RE`)
together with a backtracking matcher that implements the Python `re`
semantics (leftmost match, ordered alternation, greedy/lazy quantifiers,
last-capture-wins groups) for the regex subset the source uses.
-/

namespace Alfred

/-! ### Python string primitives -/

/-- The apostrophe character (kept out of literals for hygiene). -/
def apos : Char := Char.ofNat 39

/-- Python `\s` / `str.strip()` whitespace: space, tab, newline, carriage
return, vertical tab, form feed (the source only ever handles ASCII text). -/
def isPySpace (c : Char) : Bool :=
  c == ' ' || c == '\t' || c == '\n' || c == '\r' || c == '\x0b' || c == '\x0c'

/-- Python `str.strip()` with no arguments. -/
def pyStrip (s : List Char) : List Char :=
  ((s.dropWhile isPySpace).reverse.dropWhile isPySpace).reverse

/-- Python `str.rstrip(chars)`. -/
def rstripChars (cs : List Char) (s : List Char) : List Char :=
  (s.reverse.dropWhile (fun c => cs.contains c)).reverse

/-- Python `str.lower()` (the texts handled by the source are ASCII). -/
def lowerChars (s : List Char) : List Char := s.map Char.toLower

/-- Python substring containment `needle in hay`. -/
def containsSub (needle : List Char) : List Char → Bool
  | [] => needle.isEmpty
  | c :: t => needle.isPrefixOf (c :: t) || containsSub needle t

/-- Python `str.replace(pat, rep)` (all non-overlapping occurrences, left to
right); `fuel` is initialised with the length of the string. -/
def replaceAllGo (pat rep : List Char) : Nat → List Char → List Char
  | _, [] => []
  | 0, s => s
  | f + 1, c :: t =>
      if !pat.isEmpty && pat.isPrefixOf (c :: t) then
        rep ++ replaceAllGo pat rep f ((c :: t).drop pat.length)
      else
        c :: replaceAllGo pat rep f t

/-- Python `str.replace(pat, rep)` for a non-empty `pat`. -/
def replaceAll (pat rep s : List Char) : List Char :=
  replaceAllGo pat rep s.length s

/-- Python `str.capitalize()`: first character upper-cased, rest lower-cased. -/
def pyCapitalize : List Char → List Char
  | [] => []
  | c :: t => c.toUpper :: lowerChars t

/-- Digit run to a number, `none` on a non-digit or the empty string. -/
def decDigits? (l : List Char) : Option Nat :=
  if l.isEmpty then none
  else l.foldl
    (fun acc c =>
      match acc with
      | none => none
      | some n => if c.isDigit then some (n * 10 + (c.toNat - 48)) else none)
    (some 0)

/-- Python `int(str)` on the strings the source feeds it (optional sign and
surrounding whitespace, decimal digits); `none` models the `ValueError`. -/
def pyInt (s : List Char) : Option Int :=
  match pyStrip s with
  | '+' :: r => (decDigits? r).map Int.ofNat
  | '-' :: r => (decDigits? r).map (fun n => -(n : Int))
  | r => (decDigits? r).map Int.ofNat

/-- Python regex `\w` (ASCII alphanumerics, underscore; non-ASCII code points
count as word characters, as in Python 3 unicode mode). -/
def isWordChar (c : Char) : Bool := c.isAlphanum || c == '_' || c.toNat ≥ 128

/-! ### A regex AST for the subset of Python `re` used by the source -/

/-- One item of a character class. -/
inductive CItem where
  | ch : Char → CItem
  | range : Char → Char → CItem
  | dcls : CItem
  | scls : CItem
  | wcls : CItem
deriving DecidableEq

/-- Regex AST: literals, classes, `.`, concatenation, ordered alternation,
greedy/lazy `*` and `?`, capturing groups, `$`.  `+` and counted repetitions
are expanded structurally when the source patterns are translated. -/
inductive RE where
  | eps : RE
  | lit : Char → RE
  | cls : Bool → List CItem → RE
  | dot : RE
  | seq : RE → RE → RE
  | alt : RE → RE → RE
  | star : Bool → RE → RE
  | opt : Bool → RE → RE
  | grp : Nat → RE → RE
  | eol : RE
deriving DecidableEq

/-- Concatenation of a list of regexes. -/
def RE.cat (l : List RE) : RE := l.foldr RE.seq RE.eps

/-- A compiled pattern: whether it was anchored with `^`, its number of
capturing groups, and its body. -/
structure Pat where
  anchored : Bool
  ngroups : Nat
  re : RE
deriving DecidableEq

def itemMatch : CItem → Char → Bool
  | .ch a, c => a == c
  | .range lo hi, c => lo ≤ c && c ≤ hi
  | .dcls, c => c.isDigit
  | .scls, c => isPySpace c
  | .wcls, c => isWordChar c

/-- Character-class match; with `ci` (IGNORECASE) a character also matches
through its other case, as in Python. -/
def clsMatch (ci : Bool) (neg : Bool) (items : List CItem) (c : Char) : Bool :=
  let raw := fun (x : Char) => items.any (fun it => itemMatch it x)
  let m := if ci then raw c || raw c.toLower || raw c.toUpper else raw c
  if neg then !m else m

def litMatch (ci : Bool) (p c : Char) : Bool :=
  if ci then p.toLower == c.toLower else p == c

/-- Captured groups: group index to captured characters, most recent first. -/
abbrev Caps := List (Nat × List Char)

def capLookup (i : Nat) (caps : Caps) : Option (List Char) := caps.lookup i

/-- A successful match: the recorded captures and the remaining input. -/
structure MRes where
  caps : Caps
  rest : List Char
deriving DecidableEq

/-- Backtracking matcher in continuation style.  Priorities follow Python
`re`: alternation is ordered, greedy quantifiers try the longer way first,
lazy ones the shorter way first; a star body must consume input to iterate.
`$` is modelled as end of input (the texts matched by the source are stripped,
so they never end in a newline).  `fuel` only bounds recursion depth; it is
chosen large enough (`matchFuel`) that it never cuts a real search short. -/
def matchRE (ci : Bool) : Nat → RE → List Char → Caps →
    (List Char → Caps → Option MRes) → Option MRes
  | 0, _, _, _, _ => none
  | fuel + 1, re, s, caps, k =>
    match re with
    | .eps => k s caps
    | .lit c =>
      match s with
      | [] => none
      | x :: xs => if litMatch ci c x then k xs caps else none
    | .cls neg items =>
      match s with
      | [] => none
      | x :: xs => if clsMatch ci neg items x then k xs caps else none
    | .dot =>
      match s with
      | [] => none
      | x :: xs => if x == '\n' then none else k xs caps
    | .seq a b => matchRE ci fuel a s caps (fun s1 c1 => matchRE ci fuel b s1 c1 k)
    | .alt a b =>
      (matchRE ci fuel a s caps k).orElse (fun _ => matchRE ci fuel b s caps k)
    | .opt g a =>
      if g then (matchRE ci fuel a s caps k).orElse (fun _ => k s caps)
      else (k s caps).orElse (fun _ => matchRE ci fuel a s caps k)
    | .star g a =>
      let again := fun s1 c1 =>
        if s1.length < s.length then matchRE ci fuel (.star g a) s1 c1 k else none
      if g then (matchRE ci fuel a s caps again).orElse (fun _ => k s caps)
      else (k s caps).orElse (fun _ => matchRE ci fuel a s caps again)
    | .grp i a =>
      matchRE ci fuel a s caps
        (fun s1 c1 => k s1 ((i, s.take (s.length - s1.length)) :: c1))
    | .eol => if s.isEmpty then k s caps else none

def sizeRE : RE → Nat
  | .eps | .lit _ | .cls _ _ | .dot | .eol => 1
  | .seq a b | .alt a b => sizeRE a + sizeRE b + 1
  | .star _ a | .opt _ a | .grp _ a => sizeRE a + 1

/-- Recursion-depth budget: along any single search path the matcher descends
at most once per AST node per consumed character, so this is never exhausted
(star bodies of the translated patterns always consume input). -/
def matchFuel (r : RE) (s : List Char) : Nat :=
  (sizeRE r + 2) * (s.length + 2)

/-- Try to match `r` at the very start of `s`. -/
def tryMatch (ci : Bool) (r : RE) (s : List Char) : Option MRes :=
  matchRE ci (matchFuel r s) r s [] (fun rest caps => some ⟨caps, rest⟩)

/-- Scan for the leftmost match, returning the text before the match and the
match itself (Python `re.search` tries each start position left to right). -/
def searchAux (ci : Bool) (r : RE) (acc s : List Char) :
    Option (List Char × MRes) :=
  match tryMatch ci r s with
  | some m => some (acc.reverse, m)
  | none =>
    match s with
    | [] => none
    | c :: cs => searchAux ci r (c :: acc) cs

/-- Python `re.search(p, s)` returning `match.groups()`: one entry per
capturing group, `none` for a group that did not participate. -/
def reSearch (ci : Bool) (p : Pat) (s : List Char) :
    Option (List (Option (List Char))) :=
  let res :=
    if p.anchored then (tryMatch ci p.re s).map (fun m => (([] : List Char), m))
    else searchAux ci p.re [] s
  res.map (fun pm => (List.range p.ngroups).map (fun j => capLookup (j + 1) pm.2.caps))

/-- Leftmost match as a span: text before the match and text after it. -/
def reSearchSpan (ci : Bool) (r : RE) (s : List Char) :
    Option (List Char × List Char) :=
  (searchAux ci r [] s).map (fun pm => (pm.1, pm.2.rest))

/-- Python `re.split` for a group-free pattern whose matches are non-empty. -/
def reSplitGo (ci : Bool) (r : RE) : Nat → List Char → List (List Char)
  | 0, s => [s]
  | f + 1, s =>
    match reSearchSpan ci r s with
    | none => [s]
    | some (pre, post) => pre :: reSplitGo ci r f post

def reSplit (ci : Bool) (r : RE) (s : List Char) : List (List Char) :=
  reSplitGo ci r (s.length + 1) s

/-! ### `src/intents.py`: languages, intent kinds, language detection -/

/-- Embeds `class Language(Enum)`. -/
inductive Language where
  | english
  | italian
deriving DecidableEq

def Language.value : Language → String
  | .english => "en"
  | .italian => "it"

/-- Embeds `class IntentType(Enum)` (all members, in source order). -/
inductive IntentType where
  | weather | time | date
  | email_check | email_list | email_read | email_send | email_search
  | calendar_today | calendar_yesterday | calendar_tomorrow | calendar_specific
  | calendar_week | calendar_next | calendar_create
  | system_status | system_shutdown | volume_up | volume_down | volume_set
  | mac_open_app | mac_close_app | mac_volume | mac_sleep | mac_lock
  | telegram_send | telegram_check | telegram_read
  | whatsapp_send | whatsapp_check | whatsapp_read
  | joke | translate | calculate | general_chat
  | news | finance | finance_watchlist | recipe_search | recipe_random
  | transport_car | transport_public
  | unknown
deriving DecidableEq

def IntentType.value : IntentType → String
  | .weather => "weather"
  | .time => "time"
  | .date => "date"
  | .email_check => "email_check"
  | .email_list => "email_list"
  | .email_read => "email_read"
  | .email_send => "email_send"
  | .email_search => "email_search"
  | .calendar_today => "calendar_today"
  | .calendar_yesterday => "calendar_yesterday"
  | .calendar_tomorrow => "calendar_tomorrow"
  | .calendar_specific => "calendar_specific"
  | .calendar_week => "calendar_week"
  | .calendar_next => "calendar_next"
  | .calendar_create => "calendar_create"
  | .system_status => "system_status"
  | .system_shutdown => "system_shutdown"
  | .volume_up => "volume_up"
  | .volume_down => "volume_down"
  | .volume_set => "volume_set"
  | .mac_open_app => "mac_open_app"
  | .mac_close_app => "mac_close_app"
  | .mac_volume => "mac_volume"
  | .mac_sleep => "mac_sleep"
  | .mac_lock => "mac_lock"
  | .telegram_send => "telegram_send"
  | .telegram_check => "telegram_check"
  | .telegram_read => "telegram_read"
  | .whatsapp_send => "whatsapp_send"
  | .whatsapp_check => "whatsapp_check"
  | .whatsapp_read => "whatsapp_read"
  | .joke => "joke"
  | .translate => "translate"
  | .calculate => "calculate"
  | .general_chat => "general_chat"
  | .news => "news"
  | .finance => "finance"
  | .finance_watchlist => "finance_watchlist"
  | .recipe_search => "recipe_search"
  | .recipe_random => "recipe_random"
  | .transport_car => "transport_car"
  | .transport_public => "transport_public"
  | .unknown => "unknown"

/-- Embeds `IntentParser.ITALIAN_KEYWORDS` (a Python set literal; the duplicated
entry `dimmi` of the literal collapses in the set). -/
def ITALIAN_KEYWORDS : List String :=
  ["che", "tempo", "fa", "ora", "è", "sono", "oggi", "domani",
   "email", "posta", "manda", "invia", "apri", "chiudi", "dimmi",
   "quanto", "come", "dove", "quando", "perché", "calendario",
   "appuntamento", "sveglia", "promemoria", "battuta", "scherzo",
   "cerca", "trova", "settimana", "spegni", "blocca", "volume",
   "traduci", "calcola", "leggi", "messaggi", "mostrami", "digli",
   "dille", "controlla", "ultimi", "nuovi"]

/-- Embeds `IntentParser.ENGLISH_KEYWORDS`. -/
def ENGLISH_KEYWORDS : List String :=
  ["what", "weather", "time", "is", "are", "today", "tomorrow",
   "email", "mail", "send", "open", "close", "tell", "me",
   "how", "where", "when", "why", "calendar", "appointment",
   "alarm", "reminder", "joke", "funny", "search", "find",
   "week", "shutdown", "lock", "volume", "translate", "calculate"]

/-- Worker for `wordTokens`; `run` is the current word-character run,
reversed. -/
def wordTokensGo : List Char → List Char → List (List Char)
  | run, [] => if run.isEmpty then [] else [run.reverse]
  | run, c :: t =>
    if isWordChar c then wordTokensGo (c :: run) t
    else if run.isEmpty then wordTokensGo [] t
    else run.reverse :: wordTokensGo [] t

/-- Embeds `re.findall(r"\b\w+\b", text)`: the maximal runs of word characters. -/
def wordTokens (s : List Char) : List (List Char) := wordTokensGo [] s

/-- Decisive Italian markers of `IntentParser.detect_language`. -/
def italianMarkers : List String := ["è", "sono", "perché", "più", "già"]

/-- Embeds `IntentParser.detect_language`: keyword-set overlap scores, overridden by
the decisive Italian markers.  `words` is a set in the source, so distinct
tokens are counted once. -/
def detect_language (text : List Char) : Language :=
  let text_lower := lowerChars text
  let words := (wordTokens text_lower).dedup
  let italian_score :=
    ((ITALIAN_KEYWORDS.map String.data).filter (fun k => words.contains k)).length
  let english_score :=
    ((ENGLISH_KEYWORDS.map String.data).filter (fun k => words.contains k)).length
  if italianMarkers.any (fun w => containsSub w.data text_lower) then
    Language.italian
  else if italian_score > english_score then
    Language.italian
  else
    Language.english

/-! ### The rule table of `IntentParser._compile_patterns` -/

/- pattern source: what time is it -/
def reP_time_0 : Pat := { anchored := false, ngroups := 0, re := RE.cat [RE.lit 'w', RE.lit 'h', RE.lit 'a', RE.lit 't', RE.lit ' ', RE.lit 't', RE.lit 'i', RE.lit 'm', RE.lit 'e', RE.lit ' ', RE.lit 'i', RE.lit 's', RE.lit ' ', RE.lit 'i', RE.lit 't'] }

/- pattern source: what'?s? the time -/
def reP_time_1 : Pat := { anchored := false, ngroups := 0, re := RE.cat [RE.lit 'w', RE.lit 'h', RE.lit 'a', RE.lit 't', RE.opt true (RE.lit apos), RE.opt true (RE.lit 's'), RE.lit ' ', RE.lit 't', RE.lit 'h', RE.lit 'e', RE.lit ' ', RE.lit 't', RE.lit 'i', RE.lit 'm', RE.lit 'e'] }

/- pattern source: tell me the time -/
def reP_time_2 : Pat := { anchored := false, ngroups := 0, re := RE.cat [RE.lit 't', RE.lit 'e', RE.lit 'l', RE.lit 'l', RE.lit ' ', RE.lit 'm', RE.lit 'e', RE.lit ' ', RE.lit 't', RE.lit 'h', RE.lit 'e', RE.lit ' ', RE.lit 't', RE.lit 'i', RE.lit 'm', RE.lit 'e'] }

/- pattern source: che or[ae] (?:è|sono) -/
def reP_time_3 : Pat := { anchored := false, ngroups := 0, re := RE.cat [RE.lit 'c', RE.lit 'h', RE.lit 'e', RE.lit ' ', RE.lit 'o', RE.lit 'r', RE.cls false [CItem.ch 'a', CItem.ch 'e'], RE.lit ' ', RE.alt (RE.lit 'è') (RE.cat [RE.lit 's', RE.lit 'o', RE.lit 'n', RE.lit 'o'])] }

/- pattern source: (?:mi )?di[ci]? (?:che ore sono|l'ora) (?:che ora è) -/
def reP_time_4 : Pat := { anchored := false, ngroups := 0, re := RE.cat [RE.opt true (RE.cat [RE.lit 'm', RE.lit 'i', RE.lit ' ']), RE.lit 'd', RE.lit 'i', RE.opt true (RE.cls false [CItem.ch 'c', CItem.ch 'i']), RE.lit ' ', RE.alt (RE.cat [RE.lit 'c', RE.lit 'h', RE.lit 'e', RE.lit ' ', RE.lit 'o', RE.lit 'r', RE.lit 'e', RE.lit ' ', RE.lit 's', RE.lit 'o', RE.lit 'n', RE.lit 'o']) (RE.cat [RE.lit 'l', RE.lit apos, RE.lit 'o', RE.lit 'r', RE.lit 'a']), RE.lit ' ', RE.cat [RE.lit 'c', RE.lit 'h', RE.lit 'e', RE.lit ' ', RE.lit 'o', RE.lit 'r', RE.lit 'a', RE.lit ' ', RE.lit 'è']] }

/- pattern source: what'?s? (?:the )?date -/
def reP_date_0 : Pat := { anchored := false, ngroups := 0, re := RE.cat [RE.lit 'w', RE.lit 'h', RE.lit 'a', RE.lit 't', RE.opt true (RE.lit apos), RE.opt true (RE.lit 's'), RE.lit ' ', RE.opt true (RE.cat [RE.lit 't', RE.lit 'h', RE.lit 'e', RE.lit ' ']), RE.lit 'd', RE.lit 'a', RE.lit 't', RE.lit 'e'] }

/- pattern source: what day is it -/
def reP_date_1 : Pat := { anchored := false, ngroups := 0, re := RE.cat [RE.lit 'w', RE.lit 'h', RE.lit 'a', RE.lit 't', RE.lit ' ', RE.lit 'd', RE.lit 'a', RE.lit 'y', RE.lit ' ', RE.lit 'i', RE.lit 's', RE.lit ' ', RE.lit 'i', RE.lit 't'] }

/- pattern source: che giorno (?:è|e)(?: oggi)? -/
def reP_date_2 : Pat := { anchored := false, ngroups := 0, re := RE.cat [RE.lit 'c', RE.lit 'h', RE.lit 'e', RE.lit ' ', RE.lit 'g', RE.lit 'i', RE.lit 'o', RE.lit 'r', RE.lit 'n', RE.lit 'o', RE.lit ' ', RE.alt (RE.lit 'è') (RE.lit 'e'), RE.opt true (RE.cat [RE.lit ' ', RE.lit 'o', RE.lit 'g', RE.lit 'g', RE.lit 'i'])] }

/- pattern source: (?:mi )?di[ci]? la data -/
def reP_date_3 : Pat := { anchored := false, ngroups := 0, re := RE.cat [RE.opt true (RE.cat [RE.lit 'm', RE.lit 'i', RE.lit ' ']), RE.lit 'd', RE.lit 'i', RE.opt true (RE.cls false [CItem.ch 'c', CItem.ch 'i']), RE.lit ' ', RE.lit 'l', RE.lit 'a', RE.lit ' ', RE.lit 'd', RE.lit 'a', RE.lit 't', RE.lit 'a'] }

/- pattern source: what'?s? (?:the )?weather(?: like)?(?: today)?(?: in (.+))? -/
def reP_weather_0 : Pat := { anchored := false, ngroups := 1, re := RE.cat [RE.lit 'w', RE.lit 'h', RE.lit 'a', RE.lit 't', RE.opt true (RE.lit apos), RE.opt true (RE.lit 's'), RE.lit ' ', RE.opt true (RE.cat [RE.lit 't', RE.lit 'h', RE.lit 'e', RE.lit ' ']), RE.lit 'w', RE.lit 'e', RE.lit 'a', RE.lit 't', RE.lit 'h', RE.lit 'e', RE.lit 'r', RE.opt true (RE.cat [RE.lit ' ', RE.lit 'l', RE.lit 'i', RE.lit 'k', RE.lit 'e']), RE.opt true (RE.cat [RE.lit ' ', RE.lit 't', RE.lit 'o', RE.lit 'd', RE.lit 'a', RE.lit 'y']), RE.opt true (RE.cat [RE.lit ' ', RE.lit 'i', RE.lit 'n', RE.lit ' ', RE.grp 1 (RE.cat [RE.dot, RE.star true (RE.dot)])])] }

/- pattern source: how'?s? (?:the )?weather(?: today)?(?: in (.+))? -/
def reP_weather_1 : Pat := { anchored := false, ngroups := 1, re := RE.cat [RE.lit 'h', RE.lit 'o', RE.lit 'w', RE.opt true (RE.lit apos), RE.opt true (RE.lit 's'), RE.lit ' ', RE.opt true (RE.cat [RE.lit 't', RE.lit 'h', RE.lit 'e', RE.lit ' ']), RE.lit 'w', RE.lit 'e', RE.lit 'a', RE.lit 't', RE.lit 'h', RE.lit 'e', RE.lit 'r', RE.opt true (RE.cat [RE.lit ' ', RE.lit 't', RE.lit 'o', RE.lit 'd', RE.lit 'a', RE.lit 'y']), RE.opt true (RE.cat [RE.lit ' ', RE.lit 'i', RE.lit 'n', RE.lit ' ', RE.grp 1 (RE.cat [RE.dot, RE.star true (RE.dot)])])] }

/- pattern source: is it (?:going to )?rain(?: today)?(?: in (.+))? -/
def reP_weather_2 : Pat := { anchored := false, ngroups := 1, re := RE.cat [RE.lit 'i', RE.lit 's', RE.lit ' ', RE.lit 'i', RE.lit 't', RE.lit ' ', RE.opt true (RE.cat [RE.lit 'g', RE.lit 'o', RE.lit 'i', RE.lit 'n', RE.lit 'g', RE.lit ' ', RE.lit 't', RE.lit 'o', RE.lit ' ']), RE.lit 'r', RE.lit 'a', RE.lit 'i', RE.lit 'n', RE.opt true (RE.cat [RE.lit ' ', RE.lit 't', RE.lit 'o', RE.lit 'd', RE.lit 'a', RE.lit 'y']), RE.opt true (RE.cat [RE.lit ' ', RE.lit 'i', RE.lit 'n', RE.lit ' ', RE.grp 1 (RE.cat [RE.dot, RE.star true (RE.dot)])])] }

/- pattern source: weather (?:forecast )?(in |for )?(.+)? -/
def reP_weather_3 : Pat := { anchored := false, ngroups := 2, re := RE.cat [RE.lit 'w', RE.lit 'e', RE.lit 'a', RE.lit 't', RE.lit 'h', RE.lit 'e', RE.lit 'r', RE.lit ' ', RE.opt true (RE.cat [RE.lit 'f', RE.lit 'o', RE.lit 'r', RE.lit 'e', RE.lit 'c', RE.lit 'a', RE.lit 's', RE.lit 't', RE.lit ' ']), RE.opt true (RE.grp 1 (RE.alt (RE.cat [RE.lit 'i', RE.lit 'n', RE.lit ' ']) (RE.cat [RE.lit 'f', RE.lit 'o', RE.lit 'r', RE.lit ' ']))), RE.opt true (RE.grp 2 (RE.cat [RE.dot, RE.star true (RE.dot)]))] }

/- pattern source: che tempo fa(?: oggi)?(?: a (.+))? -/
def reP_weather_4 : Pat := { anchored := false, ngroups := 1, re := RE.cat [RE.lit 'c', RE.lit 'h', RE.lit 'e', RE.lit ' ', RE.lit 't', RE.lit 'e', RE.lit 'm', RE.lit 'p', RE.lit 'o', RE.lit ' ', RE.lit 'f', RE.lit 'a', RE.opt true (RE.cat [RE.lit ' ', RE.lit 'o', RE.lit 'g', RE.lit 'g', RE.lit 'i']), RE.opt true (RE.cat [RE.lit ' ', RE.lit 'a', RE.lit ' ', RE.grp 1 (RE.cat [RE.dot, RE.star true (RE.dot)])])] }

/- pattern source: com'?è il tempo(?: oggi)?(?: a (.+))? -/
def reP_weather_5 : Pat := { anchored := false, ngroups := 1, re := RE.cat [RE.lit 'c', RE.lit 'o', RE.lit 'm', RE.opt true (RE.lit apos), RE.lit 'è', RE.lit ' ', RE.lit 'i', RE.lit 'l', RE.lit ' ', RE.lit 't', RE.lit 'e', RE.lit 'm', RE.lit 'p', RE.lit 'o', RE.opt true (RE.cat [RE.lit ' ', RE.lit 'o', RE.lit 'g', RE.lit 'g', RE.lit 'i']), RE.opt true (RE.cat [RE.lit ' ', RE.lit 'a', RE.lit ' ', RE.grp 1 (RE.cat [RE.dot, RE.star true (RE.dot)])])] }

/- pattern source: piove(?: oggi)?(?: a (.+))? -/
def reP_weather_6 : Pat := { anchored := false, ngroups := 1, re := RE.cat [RE.lit 'p', RE.lit 'i', RE.lit 'o', RE.lit 'v', RE.lit 'e', RE.opt true (RE.cat [RE.lit ' ', RE.lit 'o', RE.lit 'g', RE.lit 'g', RE.lit 'i']), RE.opt true (RE.cat [RE.lit ' ', RE.lit 'a', RE.lit ' ', RE.grp 1 (RE.cat [RE.dot, RE.star true (RE.dot)])])] }

/- pattern source: (?:il )?meteo(?: oggi)?(?: (?:a|di) (.+))? -/
def reP_weather_7 : Pat := { anchored := false, ngroups := 1, re := RE.cat [RE.opt true (RE.cat [RE.lit 'i', RE.lit 'l', RE.lit ' ']), RE.lit 'm', RE.lit 'e', RE.lit 't', RE.lit 'e', RE.lit 'o', RE.opt true (RE.cat [RE.lit ' ', RE.lit 'o', RE.lit 'g', RE.lit 'g', RE.lit 'i']), RE.opt true (RE.cat [RE.lit ' ', RE.alt (RE.lit 'a') (RE.cat [RE.lit 'd', RE.lit 'i']), RE.lit ' ', RE.grp 1 (RE.cat [RE.dot, RE.star true (RE.dot)])])] }

/- pattern source: send (?:an )?email to (.+?) (?:saying|says?|and says?|that|to say) (.+) -/
def reP_email_send_0 : Pat := { anchored := false, ngroups := 2, re := RE.cat [RE.lit 's', RE.lit 'e', RE.lit 'n', RE.lit 'd', RE.lit ' ', RE.opt true (RE.cat [RE.lit 'a', RE.lit 'n', RE.lit ' ']), RE.lit 'e', RE.lit 'm', RE.lit 'a', RE.lit 'i', RE.lit 'l', RE.lit ' ', RE.lit 't', RE.lit 'o', RE.lit ' ', RE.grp 1 (RE.cat [RE.dot, RE.star false (RE.dot)]), RE.lit ' ', RE.alt (RE.cat [RE.lit 's', RE.lit 'a', RE.lit 'y', RE.lit 'i', RE.lit 'n', RE.lit 'g']) (RE.alt (RE.cat [RE.lit 's', RE.lit 'a', RE.lit 'y', RE.opt true (RE.lit 's')]) (RE.alt (RE.cat [RE.lit 'a', RE.lit 'n', RE.lit 'd', RE.lit ' ', RE.lit 's', RE.lit 'a', RE.lit 'y', RE.opt true (RE.lit 's')]) (RE.alt (RE.cat [RE.lit 't', RE.lit 'h', RE.lit 'a', RE.lit 't']) (RE.cat [RE.lit 't', RE.lit 'o', RE.lit ' ', RE.lit 's', RE.lit 'a', RE.lit 'y'])))), RE.lit ' ', RE.grp 2 (RE.cat [RE.dot, RE.star true (RE.dot)])] }

/- pattern source: email (.+?) (?:and say|saying|says|that) (.+) -/
def reP_email_send_1 : Pat := { anchored := false, ngroups := 2, re := RE.cat [RE.lit 'e', RE.lit 'm', RE.lit 'a', RE.lit 'i', RE.lit 'l', RE.lit ' ', RE.grp 1 (RE.cat [RE.dot, RE.star false (RE.dot)]), RE.lit ' ', RE.alt (RE.cat [RE.lit 'a', RE.lit 'n', RE.lit 'd', RE.lit ' ', RE.lit 's', RE.lit 'a', RE.lit 'y']) (RE.alt (RE.cat [RE.lit 's', RE.lit 'a', RE.lit 'y', RE.lit 'i', RE.lit 'n', RE.lit 'g']) (RE.alt (RE.cat [RE.lit 's', RE.lit 'a', RE.lit 'y', RE.lit 's']) (RE.cat [RE.lit 't', RE.lit 'h', RE.lit 'a', RE.lit 't']))), RE.lit ' ', RE.grp 2 (RE.cat [RE.dot, RE.star true (RE.dot)])] }

/- pattern source: (?:write|compose) (?:an )?email to (.+) -/
def reP_email_send_2 : Pat := { anchored := false, ngroups := 1, re := RE.cat [RE.alt (RE.cat [RE.lit 'w', RE.lit 'r', RE.lit 'i', RE.lit 't', RE.lit 'e']) (RE.cat [RE.lit 'c', RE.lit 'o', RE.lit 'm', RE.lit 'p', RE.lit 'o', RE.lit 's', RE.lit 'e']), RE.lit ' ', RE.opt true (RE.cat [RE.lit 'a', RE.lit 'n', RE.lit ' ']), RE.lit 'e', RE.lit 'm', RE.lit 'a', RE.lit 'i', RE.lit 'l', RE.lit ' ', RE.lit 't', RE.lit 'o', RE.lit ' ', RE.grp 1 (RE.cat [RE.dot, RE.star true (RE.dot)])] }

/- pattern source: manda (?:un'?)?email a (.+?) (?:e )?(?:dic[iae](?:ndo)?|che dice|di(?:gli|lle|mmi|ci|vi)) (.+) -/
def reP_email_send_3 : Pat := { anchored := false, ngroups := 2, re := RE.cat [RE.lit 'm', RE.lit 'a', RE.lit 'n', RE.lit 'd', RE.lit 'a', RE.lit ' ', RE.opt true (RE.cat [RE.lit 'u', RE.lit 'n', RE.opt true (RE.lit apos)]), RE.lit 'e', RE.lit 'm', RE.lit 'a', RE.lit 'i', RE.lit 'l', RE.lit ' ', RE.lit 'a', RE.lit ' ', RE.grp 1 (RE.cat [RE.dot, RE.star false (RE.dot)]), RE.lit ' ', RE.opt true (RE.cat [RE.lit 'e', RE.lit ' ']), RE.alt (RE.cat [RE.lit 'd', RE.lit 'i', RE.lit 'c', RE.cls false [CItem.ch 'i', CItem.ch 'a', CItem.ch 'e'], RE.opt true (RE.cat [RE.lit 'n', RE.lit 'd', RE.lit 'o'])]) (RE.alt (RE.cat [RE.lit 'c', RE.lit 'h', RE.lit 'e', RE.lit ' ', RE.lit 'd', RE.lit 'i', RE.lit 'c', RE.lit 'e']) (RE.cat [RE.lit 'd', RE.lit 'i', RE.alt (RE.cat [RE.lit 'g', RE.lit 'l', RE.lit 'i']) (RE.alt (RE.cat [RE.lit 'l', RE.lit 'l', RE.lit 'e']) (RE.alt (RE.cat [RE.lit 'm', RE.lit 'm', RE.lit 'i']) (RE.alt (RE.cat [RE.lit 'c', RE.lit 'i']) (RE.cat [RE.lit 'v', RE.lit 'i']))))])), RE.lit ' ', RE.grp 2 (RE.cat [RE.dot, RE.star true (RE.dot)])] }

/- pattern source: invia (?:un'?)?email a (.+?) (?:e )?(?:dic[iae](?:ndo)?|di(?:gli|lle|mmi|ci|vi)|con )?(?:il testo )?(.+) -/
def reP_email_send_4 : Pat := { anchored := false, ngroups := 2, re := RE.cat [RE.lit 'i', RE.lit 'n', RE.lit 'v', RE.lit 'i', RE.lit 'a', RE.lit ' ', RE.opt true (RE.cat [RE.lit 'u', RE.lit 'n', RE.opt true (RE.lit apos)]), RE.lit 'e', RE.lit 'm', RE.lit 'a', RE.lit 'i', RE.lit 'l', RE.lit ' ', RE.lit 'a', RE.lit ' ', RE.grp 1 (RE.cat [RE.dot, RE.star false (RE.dot)]), RE.lit ' ', RE.opt true (RE.cat [RE.lit 'e', RE.lit ' ']), RE.opt true (RE.alt (RE.cat [RE.lit 'd', RE.lit 'i', RE.lit 'c', RE.cls false [CItem.ch 'i', CItem.ch 'a', CItem.ch 'e'], RE.opt true (RE.cat [RE.lit 'n', RE.lit 'd', RE.lit 'o'])]) (RE.alt (RE.cat [RE.lit 'd', RE.lit 'i', RE.alt (RE.cat [RE.lit 'g', RE.lit 'l', RE.lit 'i']) (RE.alt (RE.cat [RE.lit 'l', RE.lit 'l', RE.lit 'e']) (RE.alt (RE.cat [RE.lit 'm', RE.lit 'm', RE.lit 'i']) (RE.alt (RE.cat [RE.lit 'c', RE.lit 'i']) (RE.cat [RE.lit 'v', RE.lit 'i']))))]) (RE.cat [RE.lit 'c', RE.lit 'o', RE.lit 'n', RE.lit ' ']))), RE.opt true (RE.cat [RE.lit 'i', RE.lit 'l', RE.lit ' ', RE.lit 't', RE.lit 'e', RE.lit 's', RE.lit 't', RE.lit 'o', RE.lit ' ']), RE.grp 2 (RE.cat [RE.dot, RE.star true (RE.dot)])] }

/- pattern source: search (?:my )?emails? (?:for |about )(.+) -/
def reP_email_search_0 : Pat := { anchored := false, ngroups := 1, re := RE.cat [RE.lit 's', RE.lit 'e', RE.lit 'a', RE.lit 'r', RE.lit 'c', RE.lit 'h', RE.lit ' ', RE.opt true (RE.cat [RE.lit 'm', RE.lit 'y', RE.lit ' ']), RE.lit 'e', RE.lit 'm', RE.lit 'a', RE.lit 'i', RE.lit 'l', RE.opt true (RE.lit 's'), RE.lit ' ', RE.alt (RE.cat [RE.lit 'f', RE.lit 'o', RE.lit 'r', RE.lit ' ']) (RE.cat [RE.lit 'a', RE.lit 'b', RE.lit 'o', RE.lit 'u', RE.lit 't', RE.lit ' ']), RE.grp 1 (RE.cat [RE.dot, RE.star true (RE.dot)])] }

/- pattern source: find emails? (?:about |with |containing )(.+) -/
def reP_email_search_1 : Pat := { anchored := false, ngroups := 1, re := RE.cat [RE.lit 'f', RE.lit 'i', RE.lit 'n', RE.lit 'd', RE.lit ' ', RE.lit 'e', RE.lit 'm', RE.lit 'a', RE.lit 'i', RE.lit 'l', RE.opt true (RE.lit 's'), RE.lit ' ', RE.alt (RE.cat [RE.lit 'a', RE.lit 'b', RE.lit 'o', RE.lit 'u', RE.lit 't', RE.lit ' ']) (RE.alt (RE.cat [RE.lit 'w', RE.lit 'i', RE.lit 't', RE.lit 'h', RE.lit ' ']) (RE.cat [RE.lit 'c', RE.lit 'o', RE.lit 'n', RE.lit 't', RE.lit 'a', RE.lit 'i', RE.lit 'n', RE.lit 'i', RE.lit 'n', RE.lit 'g', RE.lit ' '])), RE.grp 1 (RE.cat [RE.dot, RE.star true (RE.dot)])] }

/- pattern source: cerca (?:nelle )?email (.+) -/
def reP_email_search_2 : Pat := { anchored := false, ngroups := 1, re := RE.cat [RE.lit 'c', RE.lit 'e', RE.lit 'r', RE.lit 'c', RE.lit 'a', RE.lit ' ', RE.opt true (RE.cat [RE.lit 'n', RE.lit 'e', RE.lit 'l', RE.lit 'l', RE.lit 'e', RE.lit ' ']), RE.lit 'e', RE.lit 'm', RE.lit 'a', RE.lit 'i', RE.lit 'l', RE.lit ' ', RE.grp 1 (RE.cat [RE.dot, RE.star true (RE.dot)])] }

/- pattern source: trova email (?:su |con |riguardo )(.+) -/
def reP_email_search_3 : Pat := { anchored := false, ngroups := 1, re := RE.cat [RE.lit 't', RE.lit 'r', RE.lit 'o', RE.lit 'v', RE.lit 'a', RE.lit ' ', RE.lit 'e', RE.lit 'm', RE.lit 'a', RE.lit 'i', RE.lit 'l', RE.lit ' ', RE.alt (RE.cat [RE.lit 's', RE.lit 'u', RE.lit ' ']) (RE.alt (RE.cat [RE.lit 'c', RE.lit 'o', RE.lit 'n', RE.lit ' ']) (RE.cat [RE.lit 'r', RE.lit 'i', RE.lit 'g', RE.lit 'u', RE.lit 'a', RE.lit 'r', RE.lit 'd', RE.lit 'o', RE.lit ' '])), RE.grp 1 (RE.cat [RE.dot, RE.star true (RE.dot)])] }

/- pattern source: read (?:my )?(?:latest |last |recent )?emails?(?: from (.+))? -/
def reP_email_read_0 : Pat := { anchored := false, ngroups := 1, re := RE.cat [RE.lit 'r', RE.lit 'e', RE.lit 'a', RE.lit 'd', RE.lit ' ', RE.opt true (RE.cat [RE.lit 'm', RE.lit 'y', RE.lit ' ']), RE.opt true (RE.alt (RE.cat [RE.lit 'l', RE.lit 'a', RE.lit 't', RE.lit 'e', RE.lit 's', RE.lit 't', RE.lit ' ']) (RE.alt (RE.cat [RE.lit 'l', RE.lit 'a', RE.lit 's', RE.lit 't', RE.lit ' ']) (RE.cat [RE.lit 'r', RE.lit 'e', RE.lit 'c', RE.lit 'e', RE.lit 'n', RE.lit 't', RE.lit ' ']))), RE.lit 'e', RE.lit 'm', RE.lit 'a', RE.lit 'i', RE.lit 'l', RE.opt true (RE.lit 's'), RE.opt true (RE.cat [RE.lit ' ', RE.lit 'f', RE.lit 'r', RE.lit 'o', RE.lit 'm', RE.lit ' ', RE.grp 1 (RE.cat [RE.dot, RE.star true (RE.dot)])])] }

/- pattern source: show me emails? from (.+) -/
def reP_email_read_1 : Pat := { anchored := false, ngroups := 1, re := RE.cat [RE.lit 's', RE.lit 'h', RE.lit 'o', RE.lit 'w', RE.lit ' ', RE.lit 'm', RE.lit 'e', RE.lit ' ', RE.lit 'e', RE.lit 'm', RE.lit 'a', RE.lit 'i', RE.lit 'l', RE.opt true (RE.lit 's'), RE.lit ' ', RE.lit 'f', RE.lit 'r', RE.lit 'o', RE.lit 'm', RE.lit ' ', RE.grp 1 (RE.cat [RE.dot, RE.star true (RE.dot)])] }

/- pattern source: leggi (?:le )?(?:ultime )?email(?: di (.+))? -/
def reP_email_read_2 : Pat := { anchored := false, ngroups := 1, re := RE.cat [RE.lit 'l', RE.lit 'e', RE.lit 'g', RE.lit 'g', RE.lit 'i', RE.lit ' ', RE.opt true (RE.cat [RE.lit 'l', RE.lit 'e', RE.lit ' ']), RE.opt true (RE.cat [RE.lit 'u', RE.lit 'l', RE.lit 't', RE.lit 'i', RE.lit 'm', RE.lit 'e', RE.lit ' ']), RE.lit 'e', RE.lit 'm', RE.lit 'a', RE.lit 'i', RE.lit 'l', RE.opt true (RE.cat [RE.lit ' ', RE.lit 'd', RE.lit 'i', RE.lit ' ', RE.grp 1 (RE.cat [RE.dot, RE.star true (RE.dot)])])] }

/- pattern source: mostrami (?:le )?email di (.+) -/
def reP_email_read_3 : Pat := { anchored := false, ngroups := 1, re := RE.cat [RE.lit 'm', RE.lit 'o', RE.lit 's', RE.lit 't', RE.lit 'r', RE.lit 'a', RE.lit 'm', RE.lit 'i', RE.lit ' ', RE.opt true (RE.cat [RE.lit 'l', RE.lit 'e', RE.lit ' ']), RE.lit 'e', RE.lit 'm', RE.lit 'a', RE.lit 'i', RE.lit 'l', RE.lit ' ', RE.lit 'd', RE.lit 'i', RE.lit ' ', RE.grp 1 (RE.cat [RE.dot, RE.star true (RE.dot)])] }

/- pattern source: check (?:my )?(?:emails?|mail|inbox) -/
def reP_email_check_0 : Pat := { anchored := false, ngroups := 0, re := RE.cat [RE.lit 'c', RE.lit 'h', RE.lit 'e', RE.lit 'c', RE.lit 'k', RE.lit ' ', RE.opt true (RE.cat [RE.lit 'm', RE.lit 'y', RE.lit ' ']), RE.alt (RE.cat [RE.lit 'e', RE.lit 'm', RE.lit 'a', RE.lit 'i', RE.lit 'l', RE.opt true (RE.lit 's')]) (RE.alt (RE.cat [RE.lit 'm', RE.lit 'a', RE.lit 'i', RE.lit 'l']) (RE.cat [RE.lit 'i', RE.lit 'n', RE.lit 'b', RE.lit 'o', RE.lit 'x']))] }

/- pattern source: (?:do i have |any )(?:new )?(?:unread )?emails? -/
def reP_email_check_1 : Pat := { anchored := false, ngroups := 0, re := RE.cat [RE.alt (RE.cat [RE.lit 'd', RE.lit 'o', RE.lit ' ', RE.lit 'i', RE.lit ' ', RE.lit 'h', RE.lit 'a', RE.lit 'v', RE.lit 'e', RE.lit ' ']) (RE.cat [RE.lit 'a', RE.lit 'n', RE.lit 'y', RE.lit ' ']), RE.opt true (RE.cat [RE.lit 'n', RE.lit 'e', RE.lit 'w', RE.lit ' ']), RE.opt true (RE.cat [RE.lit 'u', RE.lit 'n', RE.lit 'r', RE.lit 'e', RE.lit 'a', RE.lit 'd', RE.lit ' ']), RE.lit 'e', RE.lit 'm', RE.lit 'a', RE.lit 'i', RE.lit 'l', RE.opt true (RE.lit 's')] }

/- pattern source: controlla (?:la )?(?:posta|email) -/
def reP_email_check_2 : Pat := { anchored := false, ngroups := 0, re := RE.cat [RE.lit 'c', RE.lit 'o', RE.lit 'n', RE.lit 't', RE.lit 'r', RE.lit 'o', RE.lit 'l', RE.lit 'l', RE.lit 'a', RE.lit ' ', RE.opt true (RE.cat [RE.lit 'l', RE.lit 'a', RE.lit ' ']), RE.alt (RE.cat [RE.lit 'p', RE.lit 'o', RE.lit 's', RE.lit 't', RE.lit 'a']) (RE.cat [RE.lit 'e', RE.lit 'm', RE.lit 'a', RE.lit 'i', RE.lit 'l'])] }

/- pattern source: (?:ho )?(?:nuove )?email -/
def reP_email_check_3 : Pat := { anchored := false, ngroups := 0, re := RE.cat [RE.opt true (RE.cat [RE.lit 'h', RE.lit 'o', RE.lit ' ']), RE.opt true (RE.cat [RE.lit 'n', RE.lit 'u', RE.lit 'o', RE.lit 'v', RE.lit 'e', RE.lit ' ']), RE.lit 'e', RE.lit 'm', RE.lit 'a', RE.lit 'i', RE.lit 'l'] }

/- pattern source: (?:show|list|get)(?: me)?(?: my)? (?:recent |last |latest )?emails? -/
def reP_email_list_0 : Pat := { anchored := false, ngroups := 0, re := RE.cat [RE.alt (RE.cat [RE.lit 's', RE.lit 'h', RE.lit 'o', RE.lit 'w']) (RE.alt (RE.cat [RE.lit 'l', RE.lit 'i', RE.lit 's', RE.lit 't']) (RE.cat [RE.lit 'g', RE.lit 'e', RE.lit 't'])), RE.opt true (RE.cat [RE.lit ' ', RE.lit 'm', RE.lit 'e']), RE.opt true (RE.cat [RE.lit ' ', RE.lit 'm', RE.lit 'y']), RE.lit ' ', RE.opt true (RE.alt (RE.cat [RE.lit 'r', RE.lit 'e', RE.lit 'c', RE.lit 'e', RE.lit 'n', RE.lit 't', RE.lit ' ']) (RE.alt (RE.cat [RE.lit 'l', RE.lit 'a', RE.lit 's', RE.lit 't', RE.lit ' ']) (RE.cat [RE.lit 'l', RE.lit 'a', RE.lit 't', RE.lit 'e', RE.lit 's', RE.lit 't', RE.lit ' ']))), RE.lit 'e', RE.lit 'm', RE.lit 'a', RE.lit 'i', RE.lit 'l', RE.opt true (RE.lit 's')] }

/- pattern source: what are (?:my )?(?:recent |last |latest )?emails? -/
def reP_email_list_1 : Pat := { anchored := false, ngroups := 0, re := RE.cat [RE.lit 'w', RE.lit 'h', RE.lit 'a', RE.lit 't', RE.lit ' ', RE.lit 'a', RE.lit 'r', RE.lit 'e', RE.lit ' ', RE.opt true (RE.cat [RE.lit 'm', RE.lit 'y', RE.lit ' ']), RE.opt true (RE.alt (RE.cat [RE.lit 'r', RE.lit 'e', RE.lit 'c', RE.lit 'e', RE.lit 'n', RE.lit 't', RE.lit ' ']) (RE.alt (RE.cat [RE.lit 'l', RE.lit 'a', RE.lit 's', RE.lit 't', RE.lit ' ']) (RE.cat [RE.lit 'l', RE.lit 'a', RE.lit 't', RE.lit 'e', RE.lit 's', RE.lit 't', RE.lit ' ']))), RE.lit 'e', RE.lit 'm', RE.lit 'a', RE.lit 'i', RE.lit 'l', RE.opt true (RE.lit 's')] }

/- pattern source: read (?:my )?(?:recent |last )?emails? -/
def reP_email_list_2 : Pat := { anchored := false, ngroups := 0, re := RE.cat [RE.lit 'r', RE.lit 'e', RE.lit 'a', RE.lit 'd', RE.lit ' ', RE.opt true (RE.cat [RE.lit 'm', RE.lit 'y', RE.lit ' ']), RE.opt true (RE.alt (RE.cat [RE.lit 'r', RE.lit 'e', RE.lit 'c', RE.lit 'e', RE.lit 'n', RE.lit 't', RE.lit ' ']) (RE.cat [RE.lit 'l', RE.lit 'a', RE.lit 's', RE.lit 't', RE.lit ' '])), RE.lit 'e', RE.lit 'm', RE.lit 'a', RE.lit 'i', RE.lit 'l', RE.opt true (RE.lit 's')] }

/- pattern source: (?:mostrami|dammi|elenca)(?: le)? (?:ultime |recenti )?email -/
def reP_email_list_3 : Pat := { anchored := false, ngroups := 0, re := RE.cat [RE.alt (RE.cat [RE.lit 'm', RE.lit 'o', RE.lit 's', RE.lit 't', RE.lit 'r', RE.lit 'a', RE.lit 'm', RE.lit 'i']) (RE.alt (RE.cat [RE.lit 'd', RE.lit 'a', RE.lit 'm', RE.lit 'm', RE.lit 'i']) (RE.cat [RE.lit 'e', RE.lit 'l', RE.lit 'e', RE.lit 'n', RE.lit 'c', RE.lit 'a'])), RE.opt true (RE.cat [RE.lit ' ', RE.lit 'l', RE.lit 'e']), RE.lit ' ', RE.opt true (RE.alt (RE.cat [RE.lit 'u', RE.lit 'l', RE.lit 't', RE.lit 'i', RE.lit 'm', RE.lit 'e', RE.lit ' ']) (RE.cat [RE.lit 'r', RE.lit 'e', RE.lit 'c', RE.lit 'e', RE.lit 'n', RE.lit 't', RE.lit 'i', RE.lit ' '])), RE.lit 'e', RE.lit 'm', RE.lit 'a', RE.lit 'i', RE.lit 'l'] }

/- pattern source: quali sono le (?:ultime |recenti )?email -/
def reP_email_list_4 : Pat := { anchored := false, ngroups := 0, re := RE.cat [RE.lit 'q', RE.lit 'u', RE.lit 'a', RE.lit 'l', RE.lit 'i', RE.lit ' ', RE.lit 's', RE.lit 'o', RE.lit 'n', RE.lit 'o', RE.lit ' ', RE.lit 'l', RE.lit 'e', RE.lit ' ', RE.opt true (RE.alt (RE.cat [RE.lit 'u', RE.lit 'l', RE.lit 't', RE.lit 'i', RE.lit 'm', RE.lit 'e', RE.lit ' ']) (RE.cat [RE.lit 'r', RE.lit 'e', RE.lit 'c', RE.lit 'e', RE.lit 'n', RE.lit 't', RE.lit 'i', RE.lit ' '])), RE.lit 'e', RE.lit 'm', RE.lit 'a', RE.lit 'i', RE.lit 'l'] }

/- pattern source: leggi (?:le )?(?:ultime |recenti )?email -/
def reP_email_list_5 : Pat := { anchored := false, ngroups := 0, re := RE.cat [RE.lit 'l', RE.lit 'e', RE.lit 'g', RE.lit 'g', RE.lit 'i', RE.lit ' ', RE.opt true (RE.cat [RE.lit 'l', RE.lit 'e', RE.lit ' ']), RE.opt true (RE.alt (RE.cat [RE.lit 'u', RE.lit 'l', RE.lit 't', RE.lit 'i', RE.lit 'm', RE.lit 'e', RE.lit ' ']) (RE.cat [RE.lit 'r', RE.lit 'e', RE.lit 'c', RE.lit 'e', RE.lit 'n', RE.lit 't', RE.lit 'i', RE.lit ' '])), RE.lit 'e', RE.lit 'm', RE.lit 'a', RE.lit 'i', RE.lit 'l'] }

/- pattern source: what'?s? (?:on )?(?:my )?(?:calendar|schedule) (?:this |for (?:the )?)?week -/
def reP_calendar_week_0 : Pat := { anchored := false, ngroups := 0, re := RE.cat [RE.lit 'w', RE.lit 'h', RE.lit 'a', RE.lit 't', RE.opt true (RE.lit apos), RE.opt true (RE.lit 's'), RE.lit ' ', RE.opt true (RE.cat [RE.lit 'o', RE.lit 'n', RE.lit ' ']), RE.opt true (RE.cat [RE.lit 'm', RE.lit 'y', RE.lit ' ']), RE.alt (RE.cat [RE.lit 'c', RE.lit 'a', RE.lit 'l', RE.lit 'e', RE.lit 'n', RE.lit 'd', RE.lit 'a', RE.lit 'r']) (RE.cat [RE.lit 's', RE.lit 'c', RE.lit 'h', RE.lit 'e', RE.lit 'd', RE.lit 'u', RE.lit 'l', RE.lit 'e']), RE.lit ' ', RE.opt true (RE.alt (RE.cat [RE.lit 't', RE.lit 'h', RE.lit 'i', RE.lit 's', RE.lit ' ']) (RE.cat [RE.lit 'f', RE.lit 'o', RE.lit 'r', RE.lit ' ', RE.opt true (RE.cat [RE.lit 't', RE.lit 'h', RE.lit 'e', RE.lit ' '])])), RE.lit 'w', RE.lit 'e', RE.lit 'e', RE.lit 'k'] }

/- pattern source: (?:show me )?(?:my )?(?:events|appointments) (?:for )?(?:this |the )?week -/
def reP_calendar_week_1 : Pat := { anchored := false, ngroups := 0, re := RE.cat [RE.opt true (RE.cat [RE.lit 's', RE.lit 'h', RE.lit 'o', RE.lit 'w', RE.lit ' ', RE.lit 'm', RE.lit 'e', RE.lit ' ']), RE.opt true (RE.cat [RE.lit 'm', RE.lit 'y', RE.lit ' ']), RE.alt (RE.cat [RE.lit 'e', RE.lit 'v', RE.lit 'e', RE.lit 'n', RE.lit 't', RE.lit 's']) (RE.cat [RE.lit 'a', RE.lit 'p', RE.lit 'p', RE.lit 'o', RE.lit 'i', RE.lit 'n', RE.lit 't', RE.lit 'm', RE.lit 'e', RE.lit 'n', RE.lit 't', RE.lit 's']), RE.lit ' ', RE.opt true (RE.cat [RE.lit 'f', RE.lit 'o', RE.lit 'r', RE.lit ' ']), RE.opt true (RE.alt (RE.cat [RE.lit 't', RE.lit 'h', RE.lit 'i', RE.lit 's', RE.lit ' ']) (RE.cat [RE.lit 't', RE.lit 'h', RE.lit 'e', RE.lit ' '])), RE.lit 'w', RE.lit 'e', RE.lit 'e', RE.lit 'k'] }

/- pattern source: (?:cosa ho in )?calendario (?:questa |della )?settimana -/
def reP_calendar_week_2 : Pat := { anchored := false, ngroups := 0, re := RE.cat [RE.opt true (RE.cat [RE.lit 'c', RE.lit 'o', RE.lit 's', RE.lit 'a', RE.lit ' ', RE.lit 'h', RE.lit 'o', RE.lit ' ', RE.lit 'i', RE.lit 'n', RE.lit ' ']), RE.lit 'c', RE.lit 'a', RE.lit 'l', RE.lit 'e', RE.lit 'n', RE.lit 'd', RE.lit 'a', RE.lit 'r', RE.lit 'i', RE.lit 'o', RE.lit ' ', RE.opt true (RE.alt (RE.cat [RE.lit 'q', RE.lit 'u', RE.lit 'e', RE.lit 's', RE.lit 't', RE.lit 'a', RE.lit ' ']) (RE.cat [RE.lit 'd', RE.lit 'e', RE.lit 'l', RE.lit 'l', RE.lit 'a', RE.lit ' '])), RE.lit 's', RE.lit 'e', RE.lit 't', RE.lit 't', RE.lit 'i', RE.lit 'm', RE.lit 'a', RE.lit 'n', RE.lit 'a'] }

/- pattern source: (?:mostrami )?(?:gli )?appuntamenti (?:di |della )?(?:questa )?settimana -/
def reP_calendar_week_3 : Pat := { anchored := false, ngroups := 0, re := RE.cat [RE.opt true (RE.cat [RE.lit 'm', RE.lit 'o', RE.lit 's', RE.lit 't', RE.lit 'r', RE.lit 'a', RE.lit 'm', RE.lit 'i', RE.lit ' ']), RE.opt true (RE.cat [RE.lit 'g', RE.lit 'l', RE.lit 'i', RE.lit ' ']), RE.lit 'a', RE.lit 'p', RE.lit 'p', RE.lit 'u', RE.lit 'n', RE.lit 't', RE.lit 'a', RE.lit 'm', RE.lit 'e', RE.lit 'n', RE.lit 't', RE.lit 'i', RE.lit ' ', RE.opt true (RE.alt (RE.cat [RE.lit 'd', RE.lit 'i', RE.lit ' ']) (RE.cat [RE.lit 'd', RE.lit 'e', RE.lit 'l', RE.lit 'l', RE.lit 'a', RE.lit ' '])), RE.opt true (RE.cat [RE.lit 'q', RE.lit 'u', RE.lit 'e', RE.lit 's', RE.lit 't', RE.lit 'a', RE.lit ' ']), RE.lit 's', RE.lit 'e', RE.lit 't', RE.lit 't', RE.lit 'i', RE.lit 'm', RE.lit 'a', RE.lit 'n', RE.lit 'a'] }

/- pattern source: create (?:an? )?(?:event|appointment|meeting) (.+) -/
def reP_calendar_create_0 : Pat := { anchored := false, ngroups := 1, re := RE.cat [RE.lit 'c', RE.lit 'r', RE.lit 'e', RE.lit 'a', RE.lit 't', RE.lit 'e', RE.lit ' ', RE.opt true (RE.cat [RE.lit 'a', RE.opt true (RE.lit 'n'), RE.lit ' ']), RE.alt (RE.cat [RE.lit 'e', RE.lit 'v', RE.lit 'e', RE.lit 'n', RE.lit 't']) (RE.alt (RE.cat [RE.lit 'a', RE.lit 'p', RE.lit 'p', RE.lit 'o', RE.lit 'i', RE.lit 'n', RE.lit 't', RE.lit 'm', RE.lit 'e', RE.lit 'n', RE.lit 't']) (RE.cat [RE.lit 'm', RE.lit 'e', RE.lit 'e', RE.lit 't', RE.lit 'i', RE.lit 'n', RE.lit 'g'])), RE.lit ' ', RE.grp 1 (RE.cat [RE.dot, RE.star true (RE.dot)])] }

/- pattern source: add (?:to calendar|event) (.+) -/
def reP_calendar_create_1 : Pat := { anchored := false, ngroups := 1, re := RE.cat [RE.lit 'a', RE.lit 'd', RE.lit 'd', RE.lit ' ', RE.alt (RE.cat [RE.lit 't', RE.lit 'o', RE.lit ' ', RE.lit 'c', RE.lit 'a', RE.lit 'l', RE.lit 'e', RE.lit 'n', RE.lit 'd', RE.lit 'a', RE.lit 'r']) (RE.cat [RE.lit 'e', RE.lit 'v', RE.lit 'e', RE.lit 'n', RE.lit 't']), RE.lit ' ', RE.grp 1 (RE.cat [RE.dot, RE.star true (RE.dot)])] }

/- pattern source: schedule (?:an? )?(?:event|appointment|meeting) (.+) -/
def reP_calendar_create_2 : Pat := { anchored := false, ngroups := 1, re := RE.cat [RE.lit 's', RE.lit 'c', RE.lit 'h', RE.lit 'e', RE.lit 'd', RE.lit 'u', RE.lit 'l', RE.lit 'e', RE.lit ' ', RE.opt true (RE.cat [RE.lit 'a', RE.opt true (RE.lit 'n'), RE.lit ' ']), RE.alt (RE.cat [RE.lit 'e', RE.lit 'v', RE.lit 'e', RE.lit 'n', RE.lit 't']) (RE.alt (RE.cat [RE.lit 'a', RE.lit 'p', RE.lit 'p', RE.lit 'o', RE.lit 'i', RE.lit 'n', RE.lit 't', RE.lit 'm', RE.lit 'e', RE.lit 'n', RE.lit 't']) (RE.cat [RE.lit 'm', RE.lit 'e', RE.lit 'e', RE.lit 't', RE.lit 'i', RE.lit 'n', RE.lit 'g'])), RE.lit ' ', RE.grp 1 (RE.cat [RE.dot, RE.star true (RE.dot)])] }

/- pattern source: crea (?:un )?(?:evento|appuntamento) (.+) -/
def reP_calendar_create_3 : Pat := { anchored := false, ngroups := 1, re := RE.cat [RE.lit 'c', RE.lit 'r', RE.lit 'e', RE.lit 'a', RE.lit ' ', RE.opt true (RE.cat [RE.lit 'u', RE.lit 'n', RE.lit ' ']), RE.alt (RE.cat [RE.lit 'e', RE.lit 'v', RE.lit 'e', RE.lit 'n', RE.lit 't', RE.lit 'o']) (RE.cat [RE.lit 'a', RE.lit 'p', RE.lit 'p', RE.lit 'u', RE.lit 'n', RE.lit 't', RE.lit 'a', RE.lit 'm', RE.lit 'e', RE.lit 'n', RE.lit 't', RE.lit 'o']), RE.lit ' ', RE.grp 1 (RE.cat [RE.dot, RE.star true (RE.dot)])] }

/- pattern source: aggiungi (?:al calendario|evento) (.+) -/
def reP_calendar_create_4 : Pat := { anchored := false, ngroups := 1, re := RE.cat [RE.lit 'a', RE.lit 'g', RE.lit 'g', RE.lit 'i', RE.lit 'u', RE.lit 'n', RE.lit 'g', RE.lit 'i', RE.lit ' ', RE.alt (RE.cat [RE.lit 'a', RE.lit 'l', RE.lit ' ', RE.lit 'c', RE.lit 'a', RE.lit 'l', RE.lit 'e', RE.lit 'n', RE.lit 'd', RE.lit 'a', RE.lit 'r', RE.lit 'i', RE.lit 'o']) (RE.cat [RE.lit 'e', RE.lit 'v', RE.lit 'e', RE.lit 'n', RE.lit 't', RE.lit 'o']), RE.lit ' ', RE.grp 1 (RE.cat [RE.dot, RE.star true (RE.dot)])] }

/- pattern source: what'?s? (?:my )?next (?:event|appointment|meeting) -/
def reP_calendar_next_0 : Pat := { anchored := false, ngroups := 0, re := RE.cat [RE.lit 'w', RE.lit 'h', RE.lit 'a', RE.lit 't', RE.opt true (RE.lit apos), RE.opt true (RE.lit 's'), RE.lit ' ', RE.opt true (RE.cat [RE.lit 'm', RE.lit 'y', RE.lit ' ']), RE.lit 'n', RE.lit 'e', RE.lit 'x', RE.lit 't', RE.lit ' ', RE.alt (RE.cat [RE.lit 'e', RE.lit 'v', RE.lit 'e', RE.lit 'n', RE.lit 't']) (RE.alt (RE.cat [RE.lit 'a', RE.lit 'p', RE.lit 'p', RE.lit 'o', RE.lit 'i', RE.lit 'n', RE.lit 't', RE.lit 'm', RE.lit 'e', RE.lit 'n', RE.lit 't']) (RE.cat [RE.lit 'm', RE.lit 'e', RE.lit 'e', RE.lit 't', RE.lit 'i', RE.lit 'n', RE.lit 'g']))] }

/- pattern source: when is (?:my )?next (?:event|appointment|meeting) -/
def reP_calendar_next_1 : Pat := { anchored := false, ngroups := 0, re := RE.cat [RE.lit 'w', RE.lit 'h', RE.lit 'e', RE.lit 'n', RE.lit ' ', RE.lit 'i', RE.lit 's', RE.lit ' ', RE.opt true (RE.cat [RE.lit 'm', RE.lit 'y', RE.lit ' ']), RE.lit 'n', RE.lit 'e', RE.lit 'x', RE.lit 't', RE.lit ' ', RE.alt (RE.cat [RE.lit 'e', RE.lit 'v', RE.lit 'e', RE.lit 'n', RE.lit 't']) (RE.alt (RE.cat [RE.lit 'a', RE.lit 'p', RE.lit 'p', RE.lit 'o', RE.lit 'i', RE.lit 'n', RE.lit 't', RE.lit 'm', RE.lit 'e', RE.lit 'n', RE.lit 't']) (RE.cat [RE.lit 'm', RE.lit 'e', RE.lit 'e', RE.lit 't', RE.lit 'i', RE.lit 'n', RE.lit 'g']))] }

/- pattern source: (?:qual è il|quando è) (?:mio )?prossimo (?:evento|appuntamento) -/
def reP_calendar_next_2 : Pat := { anchored := false, ngroups := 0, re := RE.cat [RE.alt (RE.cat [RE.lit 'q', RE.lit 'u', RE.lit 'a', RE.lit 'l', RE.lit ' ', RE.lit 'è', RE.lit ' ', RE.lit 'i', RE.lit 'l']) (RE.cat [RE.lit 'q', RE.lit 'u', RE.lit 'a', RE.lit 'n', RE.lit 'd', RE.lit 'o', RE.lit ' ', RE.lit 'è']), RE.lit ' ', RE.opt true (RE.cat [RE.lit 'm', RE.lit 'i', RE.lit 'o', RE.lit ' ']), RE.lit 'p', RE.lit 'r', RE.lit 'o', RE.lit 's', RE.lit 's', RE.lit 'i', RE.lit 'm', RE.lit 'o', RE.lit ' ', RE.alt (RE.cat [RE.lit 'e', RE.lit 'v', RE.lit 'e', RE.lit 'n', RE.lit 't', RE.lit 'o']) (RE.cat [RE.lit 'a', RE.lit 'p', RE.lit 'p', RE.lit 'u', RE.lit 'n', RE.lit 't', RE.lit 'a', RE.lit 'm', RE.lit 'e', RE.lit 'n', RE.lit 't', RE.lit 'o'])] }

/- pattern source: what'?s? (?:on )?(?:my )?(?:calendar|schedule) today -/
def reP_calendar_today_0 : Pat := { anchored := false, ngroups := 0, re := RE.cat [RE.lit 'w', RE.lit 'h', RE.lit 'a', RE.lit 't', RE.opt true (RE.lit apos), RE.opt true (RE.lit 's'), RE.lit ' ', RE.opt true (RE.cat [RE.lit 'o', RE.lit 'n', RE.lit ' ']), RE.opt true (RE.cat [RE.lit 'm', RE.lit 'y', RE.lit ' ']), RE.alt (RE.cat [RE.lit 'c', RE.lit 'a', RE.lit 'l', RE.lit 'e', RE.lit 'n', RE.lit 'd', RE.lit 'a', RE.lit 'r']) (RE.cat [RE.lit 's', RE.lit 'c', RE.lit 'h', RE.lit 'e', RE.lit 'd', RE.lit 'u', RE.lit 'l', RE.lit 'e']), RE.lit ' ', RE.lit 't', RE.lit 'o', RE.lit 'd', RE.lit 'a', RE.lit 'y'] }

/- pattern source: (?:do i have )?(?:any )?(?:events|appointments|meetings) today -/
def reP_calendar_today_1 : Pat := { anchored := false, ngroups := 0, re := RE.cat [RE.opt true (RE.cat [RE.lit 'd', RE.lit 'o', RE.lit ' ', RE.lit 'i', RE.lit ' ', RE.lit 'h', RE.lit 'a', RE.lit 'v', RE.lit 'e', RE.lit ' ']), RE.opt true (RE.cat [RE.lit 'a', RE.lit 'n', RE.lit 'y', RE.lit ' ']), RE.alt (RE.cat [RE.lit 'e', RE.lit 'v', RE.lit 'e', RE.lit 'n', RE.lit 't', RE.lit 's']) (RE.alt (RE.cat [RE.lit 'a', RE.lit 'p', RE.lit 'p', RE.lit 'o', RE.lit 'i', RE.lit 'n', RE.lit 't', RE.lit 'm', RE.lit 'e', RE.lit 'n', RE.lit 't', RE.lit 's']) (RE.cat [RE.lit 'm', RE.lit 'e', RE.lit 'e', RE.lit 't', RE.lit 'i', RE.lit 'n', RE.lit 'g', RE.lit 's'])), RE.lit ' ', RE.lit 't', RE.lit 'o', RE.lit 'd', RE.lit 'a', RE.lit 'y'] }

/- pattern source: what'?s? (?:on )?(?:my )?(?:calendar|schedule)(?:\?)?$ -/
def reP_calendar_today_2 : Pat := { anchored := false, ngroups := 0, re := RE.cat [RE.lit 'w', RE.lit 'h', RE.lit 'a', RE.lit 't', RE.opt true (RE.lit apos), RE.opt true (RE.lit 's'), RE.lit ' ', RE.opt true (RE.cat [RE.lit 'o', RE.lit 'n', RE.lit ' ']), RE.opt true (RE.cat [RE.lit 'm', RE.lit 'y', RE.lit ' ']), RE.alt (RE.cat [RE.lit 'c', RE.lit 'a', RE.lit 'l', RE.lit 'e', RE.lit 'n', RE.lit 'd', RE.lit 'a', RE.lit 'r']) (RE.cat [RE.lit 's', RE.lit 'c', RE.lit 'h', RE.lit 'e', RE.lit 'd', RE.lit 'u', RE.lit 'l', RE.lit 'e']), RE.opt true (RE.lit '?'), RE.eol] }

/- pattern source: check (?:my |the )?(?:calendar|schedule)(?:\?)?$ -/
def reP_calendar_today_3 : Pat := { anchored := false, ngroups := 0, re := RE.cat [RE.lit 'c', RE.lit 'h', RE.lit 'e', RE.lit 'c', RE.lit 'k', RE.lit ' ', RE.opt true (RE.alt (RE.cat [RE.lit 'm', RE.lit 'y', RE.lit ' ']) (RE.cat [RE.lit 't', RE.lit 'h', RE.lit 'e', RE.lit ' '])), RE.alt (RE.cat [RE.lit 'c', RE.lit 'a', RE.lit 'l', RE.lit 'e', RE.lit 'n', RE.lit 'd', RE.lit 'a', RE.lit 'r']) (RE.cat [RE.lit 's', RE.lit 'c', RE.lit 'h', RE.lit 'e', RE.lit 'd', RE.lit 'u', RE.lit 'l', RE.lit 'e']), RE.opt true (RE.lit '?'), RE.eol] }

/- pattern source: (?:cosa|che cosa) (?:ho |c'è )?(?:in )?(?:calendario|programma)(?: oggi)? -/
def reP_calendar_today_4 : Pat := { anchored := false, ngroups := 0, re := RE.cat [RE.alt (RE.cat [RE.lit 'c', RE.lit 'o', RE.lit 's', RE.lit 'a']) (RE.cat [RE.lit 'c', RE.lit 'h', RE.lit 'e', RE.lit ' ', RE.lit 'c', RE.lit 'o', RE.lit 's', RE.lit 'a']), RE.lit ' ', RE.opt true (RE.alt (RE.cat [RE.lit 'h', RE.lit 'o', RE.lit ' ']) (RE.cat [RE.lit 'c', RE.lit apos, RE.lit 'è', RE.lit ' '])), RE.opt true (RE.cat [RE.lit 'i', RE.lit 'n', RE.lit ' ']), RE.alt (RE.cat [RE.lit 'c', RE.lit 'a', RE.lit 'l', RE.lit 'e', RE.lit 'n', RE.lit 'd', RE.lit 'a', RE.lit 'r', RE.lit 'i', RE.lit 'o']) (RE.cat [RE.lit 'p', RE.lit 'r', RE.lit 'o', RE.lit 'g', RE.lit 'r', RE.lit 'a', RE.lit 'm', RE.lit 'm', RE.lit 'a']), RE.opt true (RE.cat [RE.lit ' ', RE.lit 'o', RE.lit 'g', RE.lit 'g', RE.lit 'i'])] }

/- pattern source: (?:ho )?appuntamenti oggi -/
def reP_calendar_today_5 : Pat := { anchored := false, ngroups := 0, re := RE.cat [RE.opt true (RE.cat [RE.lit 'h', RE.lit 'o', RE.lit ' ']), RE.lit 'a', RE.lit 'p', RE.lit 'p', RE.lit 'u', RE.lit 'n', RE.lit 't', RE.lit 'a', RE.lit 'm', RE.lit 'e', RE.lit 'n', RE.lit 't', RE.lit 'i', RE.lit ' ', RE.lit 'o', RE.lit 'g', RE.lit 'g', RE.lit 'i'] }

/- pattern source: controlla (?:il )?calendario(?:\?)?$ -/
def reP_calendar_today_6 : Pat := { anchored := false, ngroups := 0, re := RE.cat [RE.lit 'c', RE.lit 'o', RE.lit 'n', RE.lit 't', RE.lit 'r', RE.lit 'o', RE.lit 'l', RE.lit 'l', RE.lit 'a', RE.lit ' ', RE.opt true (RE.cat [RE.lit 'i', RE.lit 'l', RE.lit ' ']), RE.lit 'c', RE.lit 'a', RE.lit 'l', RE.lit 'e', RE.lit 'n', RE.lit 'd', RE.lit 'a', RE.lit 'r', RE.lit 'i', RE.lit 'o', RE.opt true (RE.lit '?'), RE.eol] }

/- pattern source: what'?s? (?:was )?(?:on )?(?:my )?(?:calendar|schedule) yesterday -/
def reP_calendar_yesterday_0 : Pat := { anchored := false, ngroups := 0, re := RE.cat [RE.lit 'w', RE.lit 'h', RE.lit 'a', RE.lit 't', RE.opt true (RE.lit apos), RE.opt true (RE.lit 's'), RE.lit ' ', RE.opt true (RE.cat [RE.lit 'w', RE.lit 'a', RE.lit 's', RE.lit ' ']), RE.opt true (RE.cat [RE.lit 'o', RE.lit 'n', RE.lit ' ']), RE.opt true (RE.cat [RE.lit 'm', RE.lit 'y', RE.lit ' ']), RE.alt (RE.cat [RE.lit 'c', RE.lit 'a', RE.lit 'l', RE.lit 'e', RE.lit 'n', RE.lit 'd', RE.lit 'a', RE.lit 'r']) (RE.cat [RE.lit 's', RE.lit 'c', RE.lit 'h', RE.lit 'e', RE.lit 'd', RE.lit 'u', RE.lit 'l', RE.lit 'e']), RE.lit ' ', RE.lit 'y', RE.lit 'e', RE.lit 's', RE.lit 't', RE.lit 'e', RE.lit 'r', RE.lit 'd', RE.lit 'a', RE.lit 'y'] }

/- pattern source: (?:did i have )?(?:any )?(?:events|appointments|meetings) yesterday -/
def reP_calendar_yesterday_1 : Pat := { anchored := false, ngroups := 0, re := RE.cat [RE.opt true (RE.cat [RE.lit 'd', RE.lit 'i', RE.lit 'd', RE.lit ' ', RE.lit 'i', RE.lit ' ', RE.lit 'h', RE.lit 'a', RE.lit 'v', RE.lit 'e', RE.lit ' ']), RE.opt true (RE.cat [RE.lit 'a', RE.lit 'n', RE.lit 'y', RE.lit ' ']), RE.alt (RE.cat [RE.lit 'e', RE.lit 'v', RE.lit 'e', RE.lit 'n', RE.lit 't', RE.lit 's']) (RE.alt (RE.cat [RE.lit 'a', RE.lit 'p', RE.lit 'p', RE.lit 'o', RE.lit 'i', RE.lit 'n', RE.lit 't', RE.lit 'm', RE.lit 'e', RE.lit 'n', RE.lit 't', RE.lit 's']) (RE.cat [RE.lit 'm', RE.lit 'e', RE.lit 'e', RE.lit 't', RE.lit 'i', RE.lit 'n', RE.lit 'g', RE.lit 's'])), RE.lit ' ', RE.lit 'y', RE.lit 'e', RE.lit 's', RE.lit 't', RE.lit 'e', RE.lit 'r', RE.lit 'd', RE.lit 'a', RE.lit 'y'] }

/- pattern source: what (?:was|were) (?:my )?(?:events|appointments) yesterday -/
def reP_calendar_yesterday_2 : Pat := { anchored := false, ngroups := 0, re := RE.cat [RE.lit 'w', RE.lit 'h', RE.lit 'a', RE.lit 't', RE.lit ' ', RE.alt (RE.cat [RE.lit 'w', RE.lit 'a', RE.lit 's']) (RE.cat [RE.lit 'w', RE.lit 'e', RE.lit 'r', RE.lit 'e']), RE.lit ' ', RE.opt true (RE.cat [RE.lit 'm', RE.lit 'y', RE.lit ' ']), RE.alt (RE.cat [RE.lit 'e', RE.lit 'v', RE.lit 'e', RE.lit 'n', RE.lit 't', RE.lit 's']) (RE.cat [RE.lit 'a', RE.lit 'p', RE.lit 'p', RE.lit 'o', RE.lit 'i', RE.lit 'n', RE.lit 't', RE.lit 'm', RE.lit 'e', RE.lit 'n', RE.lit 't', RE.lit 's']), RE.lit ' ', RE.lit 'y', RE.lit 'e', RE.lit 's', RE.lit 't', RE.lit 'e', RE.lit 'r', RE.lit 'd', RE.lit 'a', RE.lit 'y'] }

/- pattern source: check (?:my |the )?(?:calendar|schedule) yesterday -/
def reP_calendar_yesterday_3 : Pat := { anchored := false, ngroups := 0, re := RE.cat [RE.lit 'c', RE.lit 'h', RE.lit 'e', RE.lit 'c', RE.lit 'k', RE.lit ' ', RE.opt true (RE.alt (RE.cat [RE.lit 'm', RE.lit 'y', RE.lit ' ']) (RE.cat [RE.lit 't', RE.lit 'h', RE.lit 'e', RE.lit ' '])), RE.alt (RE.cat [RE.lit 'c', RE.lit 'a', RE.lit 'l', RE.lit 'e', RE.lit 'n', RE.lit 'd', RE.lit 'a', RE.lit 'r']) (RE.cat [RE.lit 's', RE.lit 'c', RE.lit 'h', RE.lit 'e', RE.lit 'd', RE.lit 'u', RE.lit 'l', RE.lit 'e']), RE.lit ' ', RE.lit 'y', RE.lit 'e', RE.lit 's', RE.lit 't', RE.lit 'e', RE.lit 'r', RE.lit 'd', RE.lit 'a', RE.lit 'y'] }

/- pattern source: (?:cosa|che cosa) (?:ho avuto|c'era) (?:in )?(?:calendario|programma) ieri -/
def reP_calendar_yesterday_4 : Pat := { anchored := false, ngroups := 0, re := RE.cat [RE.alt (RE.cat [RE.lit 'c', RE.lit 'o', RE.lit 's', RE.lit 'a']) (RE.cat [RE.lit 'c', RE.lit 'h', RE.lit 'e', RE.lit ' ', RE.lit 'c', RE.lit 'o', RE.lit 's', RE.lit 'a']), RE.lit ' ', RE.alt (RE.cat [RE.lit 'h', RE.lit 'o', RE.lit ' ', RE.lit 'a', RE.lit 'v', RE.lit 'u', RE.lit 't', RE.lit 'o']) (RE.cat [RE.lit 'c', RE.lit apos, RE.lit 'e', RE.lit 'r', RE.lit 'a']), RE.lit ' ', RE.opt true (RE.cat [RE.lit 'i', RE.lit 'n', RE.lit ' ']), RE.alt (RE.cat [RE.lit 'c', RE.lit 'a', RE.lit 'l', RE.lit 'e', RE.lit 'n', RE.lit 'd', RE.lit 'a', RE.lit 'r', RE.lit 'i', RE.lit 'o']) (RE.cat [RE.lit 'p', RE.lit 'r', RE.lit 'o', RE.lit 'g', RE.lit 'r', RE.lit 'a', RE.lit 'm', RE.lit 'm', RE.lit 'a']), RE.lit ' ', RE.lit 'i', RE.lit 'e', RE.lit 'r', RE.lit 'i'] }

/- pattern source: (?:avevo )?appuntamenti ieri -/
def reP_calendar_yesterday_5 : Pat := { anchored := false, ngroups := 0, re := RE.cat [RE.opt true (RE.cat [RE.lit 'a', RE.lit 'v', RE.lit 'e', RE.lit 'v', RE.lit 'o', RE.lit ' ']), RE.lit 'a', RE.lit 'p', RE.lit 'p', RE.lit 'u', RE.lit 'n', RE.lit 't', RE.lit 'a', RE.lit 'm', RE.lit 'e', RE.lit 'n', RE.lit 't', RE.lit 'i', RE.lit ' ', RE.lit 'i', RE.lit 'e', RE.lit 'r', RE.lit 'i'] }

/- pattern source: controlla (?:il )?calendario ieri -/
def reP_calendar_yesterday_6 : Pat := { anchored := false, ngroups := 0, re := RE.cat [RE.lit 'c', RE.lit 'o', RE.lit 'n', RE.lit 't', RE.lit 'r', RE.lit 'o', RE.lit 'l', RE.lit 'l', RE.lit 'a', RE.lit ' ', RE.opt true (RE.cat [RE.lit 'i', RE.lit 'l', RE.lit ' ']), RE.lit 'c', RE.lit 'a', RE.lit 'l', RE.lit 'e', RE.lit 'n', RE.lit 'd', RE.lit 'a', RE.lit 'r', RE.lit 'i', RE.lit 'o', RE.lit ' ', RE.lit 'i', RE.lit 'e', RE.lit 'r', RE.lit 'i'] }

/- pattern source: what'?s? (?:on )?(?:my )?(?:calendar|schedule) tomorrow -/
def reP_calendar_tomorrow_0 : Pat := { anchored := false, ngroups := 0, re := RE.cat [RE.lit 'w', RE.lit 'h', RE.lit 'a', RE.lit 't', RE.opt true (RE.lit apos), RE.opt true (RE.lit 's'), RE.lit ' ', RE.opt true (RE.cat [RE.lit 'o', RE.lit 'n', RE.lit ' ']), RE.opt true (RE.cat [RE.lit 'm', RE.lit 'y', RE.lit ' ']), RE.alt (RE.cat [RE.lit 'c', RE.lit 'a', RE.lit 'l', RE.lit 'e', RE.lit 'n', RE.lit 'd', RE.lit 'a', RE.lit 'r']) (RE.cat [RE.lit 's', RE.lit 'c', RE.lit 'h', RE.lit 'e', RE.lit 'd', RE.lit 'u', RE.lit 'l', RE.lit 'e']), RE.lit ' ', RE.lit 't', RE.lit 'o', RE.lit 'm', RE.lit 'o', RE.lit 'r', RE.lit 'r', RE.lit 'o', RE.lit 'w'] }

/- pattern source: (?:do i have )?(?:any )?(?:events|appointments|meetings) tomorrow -/
def reP_calendar_tomorrow_1 : Pat := { anchored := false, ngroups := 0, re := RE.cat [RE.opt true (RE.cat [RE.lit 'd', RE.lit 'o', RE.lit ' ', RE.lit 'i', RE.lit ' ', RE.lit 'h', RE.lit 'a', RE.lit 'v', RE.lit 'e', RE.lit ' ']), RE.opt true (RE.cat [RE.lit 'a', RE.lit 'n', RE.lit 'y', RE.lit ' ']), RE.alt (RE.cat [RE.lit 'e', RE.lit 'v', RE.lit 'e', RE.lit 'n', RE.lit 't', RE.lit 's']) (RE.alt (RE.cat [RE.lit 'a', RE.lit 'p', RE.lit 'p', RE.lit 'o', RE.lit 'i', RE.lit 'n', RE.lit 't', RE.lit 'm', RE.lit 'e', RE.lit 'n', RE.lit 't', RE.lit 's']) (RE.cat [RE.lit 'm', RE.lit 'e', RE.lit 'e', RE.lit 't', RE.lit 'i', RE.lit 'n', RE.lit 'g', RE.lit 's'])), RE.lit ' ', RE.lit 't', RE.lit 'o', RE.lit 'm', RE.lit 'o', RE.lit 'r', RE.lit 'r', RE.lit 'o', RE.lit 'w'] }

/- pattern source: what'?s? tomorrow'?s? (?:schedule|calendar|events?) -/
def reP_calendar_tomorrow_2 : Pat := { anchored := false, ngroups := 0, re := RE.cat [RE.lit 'w', RE.lit 'h', RE.lit 'a', RE.lit 't', RE.opt true (RE.lit apos), RE.opt true (RE.lit 's'), RE.lit ' ', RE.lit 't', RE.lit 'o', RE.lit 'm', RE.lit 'o', RE.lit 'r', RE.lit 'r', RE.lit 'o', RE.lit 'w', RE.opt true (RE.lit apos), RE.opt true (RE.lit 's'), RE.lit ' ', RE.alt (RE.cat [RE.lit 's', RE.lit 'c', RE.lit 'h', RE.lit 'e', RE.lit 'd', RE.lit 'u', RE.lit 'l', RE.lit 'e']) (RE.alt (RE.cat [RE.lit 'c', RE.lit 'a', RE.lit 'l', RE.lit 'e', RE.lit 'n', RE.lit 'd', RE.lit 'a', RE.lit 'r']) (RE.cat [RE.lit 'e', RE.lit 'v', RE.lit 'e', RE.lit 'n', RE.lit 't', RE.opt true (RE.lit 's')]))] }

/- pattern source: check (?:my |the )?(?:calendar|schedule) tomorrow -/
def reP_calendar_tomorrow_3 : Pat := { anchored := false, ngroups := 0, re := RE.cat [RE.lit 'c', RE.lit 'h', RE.lit 'e', RE.lit 'c', RE.lit 'k', RE.lit ' ', RE.opt true (RE.alt (RE.cat [RE.lit 'm', RE.lit 'y', RE.lit ' ']) (RE.cat [RE.lit 't', RE.lit 'h', RE.lit 'e', RE.lit ' '])), RE.alt (RE.cat [RE.lit 'c', RE.lit 'a', RE.lit 'l', RE.lit 'e', RE.lit 'n', RE.lit 'd', RE.lit 'a', RE.lit 'r']) (RE.cat [RE.lit 's', RE.lit 'c', RE.lit 'h', RE.lit 'e', RE.lit 'd', RE.lit 'u', RE.lit 'l', RE.lit 'e']), RE.lit ' ', RE.lit 't', RE.lit 'o', RE.lit 'm', RE.lit 'o', RE.lit 'r', RE.lit 'r', RE.lit 'o', RE.lit 'w'] }

/- pattern source: (?:cosa|che cosa) (?:ho |c'è )?(?:in )?(?:calendario|programma) domani -/
def reP_calendar_tomorrow_4 : Pat := { anchored := false, ngroups := 0, re := RE.cat [RE.alt (RE.cat [RE.lit 'c', RE.lit 'o', RE.lit 's', RE.lit 'a']) (RE.cat [RE.lit 'c', RE.lit 'h', RE.lit 'e', RE.lit ' ', RE.lit 'c', RE.lit 'o', RE.lit 's', RE.lit 'a']), RE.lit ' ', RE.opt true (RE.alt (RE.cat [RE.lit 'h', RE.lit 'o', RE.lit ' ']) (RE.cat [RE.lit 'c', RE.lit apos, RE.lit 'è', RE.lit ' '])), RE.opt true (RE.cat [RE.lit 'i', RE.lit 'n', RE.lit ' ']), RE.alt (RE.cat [RE.lit 'c', RE.lit 'a', RE.lit 'l', RE.lit 'e', RE.lit 'n', RE.lit 'd', RE.lit 'a', RE.lit 'r', RE.lit 'i', RE.lit 'o']) (RE.cat [RE.lit 'p', RE.lit 'r', RE.lit 'o', RE.lit 'g', RE.lit 'r', RE.lit 'a', RE.lit 'm', RE.lit 'm', RE.lit 'a']), RE.lit ' ', RE.lit 'd', RE.lit 'o', RE.lit 'm', RE.lit 'a', RE.lit 'n', RE.lit 'i'] }

/- pattern source: (?:ho )?appuntamenti domani -/
def reP_calendar_tomorrow_5 : Pat := { anchored := false, ngroups := 0, re := RE.cat [RE.opt true (RE.cat [RE.lit 'h', RE.lit 'o', RE.lit ' ']), RE.lit 'a', RE.lit 'p', RE.lit 'p', RE.lit 'u', RE.lit 'n', RE.lit 't', RE.lit 'a', RE.lit 'm', RE.lit 'e', RE.lit 'n', RE.lit 't', RE.lit 'i', RE.lit ' ', RE.lit 'd', RE.lit 'o', RE.lit 'm', RE.lit 'a', RE.lit 'n', RE.lit 'i'] }

/- pattern source: controlla (?:il )?calendario domani -/
def reP_calendar_tomorrow_6 : Pat := { anchored := false, ngroups := 0, re := RE.cat [RE.lit 'c', RE.lit 'o', RE.lit 'n', RE.lit 't', RE.lit 'r', RE.lit 'o', RE.lit 'l', RE.lit 'l', RE.lit 'a', RE.lit ' ', RE.opt true (RE.cat [RE.lit 'i', RE.lit 'l', RE.lit ' ']), RE.lit 'c', RE.lit 'a', RE.lit 'l', RE.lit 'e', RE.lit 'n', RE.lit 'd', RE.lit 'a', RE.lit 'r', RE.lit 'i', RE.lit 'o', RE.lit ' ', RE.lit 'd', RE.lit 'o', RE.lit 'm', RE.lit 'a', RE.lit 'n', RE.lit 'i'] }

/- pattern source: check (?:my |the )?([A-Z]\w+) calendar -/
def reP_calendar_specific_0 : Pat := { anchored := false, ngroups := 1, re := RE.cat [RE.lit 'c', RE.lit 'h', RE.lit 'e', RE.lit 'c', RE.lit 'k', RE.lit ' ', RE.opt true (RE.alt (RE.cat [RE.lit 'm', RE.lit 'y', RE.lit ' ']) (RE.cat [RE.lit 't', RE.lit 'h', RE.lit 'e', RE.lit ' '])), RE.grp 1 (RE.cat [RE.cls false [CItem.range 'A' 'Z'], RE.cat [RE.cls false [CItem.wcls], RE.star true (RE.cls false [CItem.wcls])]]), RE.lit ' ', RE.lit 'c', RE.lit 'a', RE.lit 'l', RE.lit 'e', RE.lit 'n', RE.lit 'd', RE.lit 'a', RE.lit 'r'] }

/- pattern source: (?:what'?s?|what is) (?:on|in) (?:my |the )?([A-Z]\w+) calendar -/
def reP_calendar_specific_1 : Pat := { anchored := false, ngroups := 1, re := RE.cat [RE.alt (RE.cat [RE.lit 'w', RE.lit 'h', RE.lit 'a', RE.lit 't', RE.opt true (RE.lit apos), RE.opt true (RE.lit 's')]) (RE.cat [RE.lit 'w', RE.lit 'h', RE.lit 'a', RE.lit 't', RE.lit ' ', RE.lit 'i', RE.lit 's']), RE.lit ' ', RE.alt (RE.cat [RE.lit 'o', RE.lit 'n']) (RE.cat [RE.lit 'i', RE.lit 'n']), RE.lit ' ', RE.opt true (RE.alt (RE.cat [RE.lit 'm', RE.lit 'y', RE.lit ' ']) (RE.cat [RE.lit 't', RE.lit 'h', RE.lit 'e', RE.lit ' '])), RE.grp 1 (RE.cat [RE.cls false [CItem.range 'A' 'Z'], RE.cat [RE.cls false [CItem.wcls], RE.star true (RE.cls false [CItem.wcls])]]), RE.lit ' ', RE.lit 'c', RE.lit 'a', RE.lit 'l', RE.lit 'e', RE.lit 'n', RE.lit 'd', RE.lit 'a', RE.lit 'r'] }

/- pattern source: (?:do i have )?(?:any )?(?:events|appointments) (?:on|in) (?:my |the )?([A-Z]\w+) calendar -/
def reP_calendar_specific_2 : Pat := { anchored := false, ngroups := 1, re := RE.cat [RE.opt true (RE.cat [RE.lit 'd', RE.lit 'o', RE.lit ' ', RE.lit 'i', RE.lit ' ', RE.lit 'h', RE.lit 'a', RE.lit 'v', RE.lit 'e', RE.lit ' ']), RE.opt true (RE.cat [RE.lit 'a', RE.lit 'n', RE.lit 'y', RE.lit ' ']), RE.alt (RE.cat [RE.lit 'e', RE.lit 'v', RE.lit 'e', RE.lit 'n', RE.lit 't', RE.lit 's']) (RE.cat [RE.lit 'a', RE.lit 'p', RE.lit 'p', RE.lit 'o', RE.lit 'i', RE.lit 'n', RE.lit 't', RE.lit 'm', RE.lit 'e', RE.lit 'n', RE.lit 't', RE.lit 's']), RE.lit ' ', RE.alt (RE.cat [RE.lit 'o', RE.lit 'n']) (RE.cat [RE.lit 'i', RE.lit 'n']), RE.lit ' ', RE.opt true (RE.alt (RE.cat [RE.lit 'm', RE.lit 'y', RE.lit ' ']) (RE.cat [RE.lit 't', RE.lit 'h', RE.lit 'e', RE.lit ' '])), RE.grp 1 (RE.cat [RE.cls false [CItem.range 'A' 'Z'], RE.cat [RE.cls false [CItem.wcls], RE.star true (RE.cls false [CItem.wcls])]]), RE.lit ' ', RE.lit 'c', RE.lit 'a', RE.lit 'l', RE.lit 'e', RE.lit 'n', RE.lit 'd', RE.lit 'a', RE.lit 'r'] }

/- pattern source: show (?:me )?(?:my |the )?([A-Z]\w+) calendar -/
def reP_calendar_specific_3 : Pat := { anchored := false, ngroups := 1, re := RE.cat [RE.lit 's', RE.lit 'h', RE.lit 'o', RE.lit 'w', RE.lit ' ', RE.opt true (RE.cat [RE.lit 'm', RE.lit 'e', RE.lit ' ']), RE.opt true (RE.alt (RE.cat [RE.lit 'm', RE.lit 'y', RE.lit ' ']) (RE.cat [RE.lit 't', RE.lit 'h', RE.lit 'e', RE.lit ' '])), RE.grp 1 (RE.cat [RE.cls false [CItem.range 'A' 'Z'], RE.cat [RE.cls false [CItem.wcls], RE.star true (RE.cls false [CItem.wcls])]]), RE.lit ' ', RE.lit 'c', RE.lit 'a', RE.lit 'l', RE.lit 'e', RE.lit 'n', RE.lit 'd', RE.lit 'a', RE.lit 'r'] }

/- pattern source: controlla (?:il )?calendario ([A-Z]\w+) -/
def reP_calendar_specific_4 : Pat := { anchored := false, ngroups := 1, re := RE.cat [RE.lit 'c', RE.lit 'o', RE.lit 'n', RE.lit 't', RE.lit 'r', RE.lit 'o', RE.lit 'l', RE.lit 'l', RE.lit 'a', RE.lit ' ', RE.opt true (RE.cat [RE.lit 'i', RE.lit 'l', RE.lit ' ']), RE.lit 'c', RE.lit 'a', RE.lit 'l', RE.lit 'e', RE.lit 'n', RE.lit 'd', RE.lit 'a', RE.lit 'r', RE.lit 'i', RE.lit 'o', RE.lit ' ', RE.grp 1 (RE.cat [RE.cls false [CItem.range 'A' 'Z'], RE.cat [RE.cls false [CItem.wcls], RE.star true (RE.cls false [CItem.wcls])]])] }

/- pattern source: (?:cosa|che cosa) (?:ho |c'è )?(?:nel|in) calendario ([A-Z]\w+) -/
def reP_calendar_specific_5 : Pat := { anchored := false, ngroups := 1, re := RE.cat [RE.alt (RE.cat [RE.lit 'c', RE.lit 'o', RE.lit 's', RE.lit 'a']) (RE.cat [RE.lit 'c', RE.lit 'h', RE.lit 'e', RE.lit ' ', RE.lit 'c', RE.lit 'o', RE.lit 's', RE.lit 'a']), RE.lit ' ', RE.opt true (RE.alt (RE.cat [RE.lit 'h', RE.lit 'o', RE.lit ' ']) (RE.cat [RE.lit 'c', RE.lit apos, RE.lit 'è', RE.lit ' '])), RE.alt (RE.cat [RE.lit 'n', RE.lit 'e', RE.lit 'l']) (RE.cat [RE.lit 'i', RE.lit 'n']), RE.lit ' ', RE.lit 'c', RE.lit 'a', RE.lit 'l', RE.lit 'e', RE.lit 'n', RE.lit 'd', RE.lit 'a', RE.lit 'r', RE.lit 'i', RE.lit 'o', RE.lit ' ', RE.grp 1 (RE.cat [RE.cls false [CItem.range 'A' 'Z'], RE.cat [RE.cls false [CItem.wcls], RE.star true (RE.cls false [CItem.wcls])]])] }

/- pattern source: (?:ho )?appuntamenti (?:nel|in|sul) calendario ([A-Z]\w+) -/
def reP_calendar_specific_6 : Pat := { anchored := false, ngroups := 1, re := RE.cat [RE.opt true (RE.cat [RE.lit 'h', RE.lit 'o', RE.lit ' ']), RE.lit 'a', RE.lit 'p', RE.lit 'p', RE.lit 'u', RE.lit 'n', RE.lit 't', RE.lit 'a', RE.lit 'm', RE.lit 'e', RE.lit 'n', RE.lit 't', RE.lit 'i', RE.lit ' ', RE.alt (RE.cat [RE.lit 'n', RE.lit 'e', RE.lit 'l']) (RE.alt (RE.cat [RE.lit 'i', RE.lit 'n']) (RE.cat [RE.lit 's', RE.lit 'u', RE.lit 'l'])), RE.lit ' ', RE.lit 'c', RE.lit 'a', RE.lit 'l', RE.lit 'e', RE.lit 'n', RE.lit 'd', RE.lit 'a', RE.lit 'r', RE.lit 'i', RE.lit 'o', RE.lit ' ', RE.grp 1 (RE.cat [RE.cls false [CItem.range 'A' 'Z'], RE.cat [RE.cls false [CItem.wcls], RE.star true (RE.cls false [CItem.wcls])]])] }

/- pattern source: mostra(?:mi)? (?:il )?calendario ([A-Z]\w+) -/
def reP_calendar_specific_7 : Pat := { anchored := false, ngroups := 1, re := RE.cat [RE.lit 'm', RE.lit 'o', RE.lit 's', RE.lit 't', RE.lit 'r', RE.lit 'a', RE.opt true (RE.cat [RE.lit 'm', RE.lit 'i']), RE.lit ' ', RE.opt true (RE.cat [RE.lit 'i', RE.lit 'l', RE.lit ' ']), RE.lit 'c', RE.lit 'a', RE.lit 'l', RE.lit 'e', RE.lit 'n', RE.lit 'd', RE.lit 'a', RE.lit 'r', RE.lit 'i', RE.lit 'o', RE.lit ' ', RE.grp 1 (RE.cat [RE.cls false [CItem.range 'A' 'Z'], RE.cat [RE.cls false [CItem.wcls], RE.star true (RE.cls false [CItem.wcls])]])] }

/- pattern source: shutdown (?:the )?(?:mac|computer|system) -/
def reP_system_shutdown_0 : Pat := { anchored := false, ngroups := 0, re := RE.cat [RE.lit 's', RE.lit 'h', RE.lit 'u', RE.lit 't', RE.lit 'd', RE.lit 'o', RE.lit 'w', RE.lit 'n', RE.lit ' ', RE.opt true (RE.cat [RE.lit 't', RE.lit 'h', RE.lit 'e', RE.lit ' ']), RE.alt (RE.cat [RE.lit 'm', RE.lit 'a', RE.lit 'c']) (RE.alt (RE.cat [RE.lit 'c', RE.lit 'o', RE.lit 'm', RE.lit 'p', RE.lit 'u', RE.lit 't', RE.lit 'e', RE.lit 'r']) (RE.cat [RE.lit 's', RE.lit 'y', RE.lit 's', RE.lit 't', RE.lit 'e', RE.lit 'm']))] }

/- pattern source: turn off (?:the )?(?:mac|computer) -/
def reP_system_shutdown_1 : Pat := { anchored := false, ngroups := 0, re := RE.cat [RE.lit 't', RE.lit 'u', RE.lit 'r', RE.lit 'n', RE.lit ' ', RE.lit 'o', RE.lit 'f', RE.lit 'f', RE.lit ' ', RE.opt true (RE.cat [RE.lit 't', RE.lit 'h', RE.lit 'e', RE.lit ' ']), RE.alt (RE.cat [RE.lit 'm', RE.lit 'a', RE.lit 'c']) (RE.cat [RE.lit 'c', RE.lit 'o', RE.lit 'm', RE.lit 'p', RE.lit 'u', RE.lit 't', RE.lit 'e', RE.lit 'r'])] }

/- pattern source: power off (?:the )?mac -/
def reP_system_shutdown_2 : Pat := { anchored := false, ngroups := 0, re := RE.cat [RE.lit 'p', RE.lit 'o', RE.lit 'w', RE.lit 'e', RE.lit 'r', RE.lit ' ', RE.lit 'o', RE.lit 'f', RE.lit 'f', RE.lit ' ', RE.opt true (RE.cat [RE.lit 't', RE.lit 'h', RE.lit 'e', RE.lit ' ']), RE.lit 'm', RE.lit 'a', RE.lit 'c'] }

/- pattern source: spegni (?:il )?(?:mac|computer) -/
def reP_system_shutdown_3 : Pat := { anchored := false, ngroups := 0, re := RE.cat [RE.lit 's', RE.lit 'p', RE.lit 'e', RE.lit 'g', RE.lit 'n', RE.lit 'i', RE.lit ' ', RE.opt true (RE.cat [RE.lit 'i', RE.lit 'l', RE.lit ' ']), RE.alt (RE.cat [RE.lit 'm', RE.lit 'a', RE.lit 'c']) (RE.cat [RE.lit 'c', RE.lit 'o', RE.lit 'm', RE.lit 'p', RE.lit 'u', RE.lit 't', RE.lit 'e', RE.lit 'r'])] }

/- pattern source: arresta (?:il )?sistema -/
def reP_system_shutdown_4 : Pat := { anchored := false, ngroups := 0, re := RE.cat [RE.lit 'a', RE.lit 'r', RE.lit 'r', RE.lit 'e', RE.lit 's', RE.lit 't', RE.lit 'a', RE.lit ' ', RE.opt true (RE.cat [RE.lit 'i', RE.lit 'l', RE.lit ' ']), RE.lit 's', RE.lit 'i', RE.lit 's', RE.lit 't', RE.lit 'e', RE.lit 'm', RE.lit 'a'] }

/- pattern source: how'?s? (?:the )?(?:pi|raspberry|system)(?: doing)? -/
def reP_system_status_0 : Pat := { anchored := false, ngroups := 0, re := RE.cat [RE.lit 'h', RE.lit 'o', RE.lit 'w', RE.opt true (RE.lit apos), RE.opt true (RE.lit 's'), RE.lit ' ', RE.opt true (RE.cat [RE.lit 't', RE.lit 'h', RE.lit 'e', RE.lit ' ']), RE.alt (RE.cat [RE.lit 'p', RE.lit 'i']) (RE.alt (RE.cat [RE.lit 'r', RE.lit 'a', RE.lit 's', RE.lit 'p', RE.lit 'b', RE.lit 'e', RE.lit 'r', RE.lit 'r', RE.lit 'y']) (RE.cat [RE.lit 's', RE.lit 'y', RE.lit 's', RE.lit 't', RE.lit 'e', RE.lit 'm'])), RE.opt true (RE.cat [RE.lit ' ', RE.lit 'd', RE.lit 'o', RE.lit 'i', RE.lit 'n', RE.lit 'g'])] }

/- pattern source: (?:system|pi) status -/
def reP_system_status_1 : Pat := { anchored := false, ngroups := 0, re := RE.cat [RE.alt (RE.cat [RE.lit 's', RE.lit 'y', RE.lit 's', RE.lit 't', RE.lit 'e', RE.lit 'm']) (RE.cat [RE.lit 'p', RE.lit 'i']), RE.lit ' ', RE.lit 's', RE.lit 't', RE.lit 'a', RE.lit 't', RE.lit 'u', RE.lit 's'] }

/- pattern source: check (?:the )?(?:system|pi) -/
def reP_system_status_2 : Pat := { anchored := false, ngroups := 0, re := RE.cat [RE.lit 'c', RE.lit 'h', RE.lit 'e', RE.lit 'c', RE.lit 'k', RE.lit ' ', RE.opt true (RE.cat [RE.lit 't', RE.lit 'h', RE.lit 'e', RE.lit ' ']), RE.alt (RE.cat [RE.lit 's', RE.lit 'y', RE.lit 's', RE.lit 't', RE.lit 'e', RE.lit 'm']) (RE.cat [RE.lit 'p', RE.lit 'i'])] }

/- pattern source: come sta (?:il )?(?:pi|sistema) -/
def reP_system_status_3 : Pat := { anchored := false, ngroups := 0, re := RE.cat [RE.lit 'c', RE.lit 'o', RE.lit 'm', RE.lit 'e', RE.lit ' ', RE.lit 's', RE.lit 't', RE.lit 'a', RE.lit ' ', RE.opt true (RE.cat [RE.lit 'i', RE.lit 'l', RE.lit ' ']), RE.alt (RE.cat [RE.lit 'p', RE.lit 'i']) (RE.cat [RE.lit 's', RE.lit 'i', RE.lit 's', RE.lit 't', RE.lit 'e', RE.lit 'm', RE.lit 'a'])] }

/- pattern source: stato (?:del )?sistema -/
def reP_system_status_4 : Pat := { anchored := false, ngroups := 0, re := RE.cat [RE.lit 's', RE.lit 't', RE.lit 'a', RE.lit 't', RE.lit 'o', RE.lit ' ', RE.opt true (RE.cat [RE.lit 'd', RE.lit 'e', RE.lit 'l', RE.lit ' ']), RE.lit 's', RE.lit 'i', RE.lit 's', RE.lit 't', RE.lit 'e', RE.lit 'm', RE.lit 'a'] }

/- pattern source: set (?:the )?volume (?:to |at )?(\d+) -/
def reP_volume_set_0 : Pat := { anchored := false, ngroups := 1, re := RE.cat [RE.lit 's', RE.lit 'e', RE.lit 't', RE.lit ' ', RE.opt true (RE.cat [RE.lit 't', RE.lit 'h', RE.lit 'e', RE.lit ' ']), RE.lit 'v', RE.lit 'o', RE.lit 'l', RE.lit 'u', RE.lit 'm', RE.lit 'e', RE.lit ' ', RE.opt true (RE.alt (RE.cat [RE.lit 't', RE.lit 'o', RE.lit ' ']) (RE.cat [RE.lit 'a', RE.lit 't', RE.lit ' '])), RE.grp 1 (RE.cat [RE.cls false [CItem.dcls], RE.star true (RE.cls false [CItem.dcls])])] }

/- pattern source: volume (?:to |at )?(\d+) -/
def reP_volume_set_1 : Pat := { anchored := false, ngroups := 1, re := RE.cat [RE.lit 'v', RE.lit 'o', RE.lit 'l', RE.lit 'u', RE.lit 'm', RE.lit 'e', RE.lit ' ', RE.opt true (RE.alt (RE.cat [RE.lit 't', RE.lit 'o', RE.lit ' ']) (RE.cat [RE.lit 'a', RE.lit 't', RE.lit ' '])), RE.grp 1 (RE.cat [RE.cls false [CItem.dcls], RE.star true (RE.cls false [CItem.dcls])])] }

/- pattern source: (?:imposta|metti) (?:il )?volume a (\d+) -/
def reP_volume_set_2 : Pat := { anchored := false, ngroups := 1, re := RE.cat [RE.alt (RE.cat [RE.lit 'i', RE.lit 'm', RE.lit 'p', RE.lit 'o', RE.lit 's', RE.lit 't', RE.lit 'a']) (RE.cat [RE.lit 'm', RE.lit 'e', RE.lit 't', RE.lit 't', RE.lit 'i']), RE.lit ' ', RE.opt true (RE.cat [RE.lit 'i', RE.lit 'l', RE.lit ' ']), RE.lit 'v', RE.lit 'o', RE.lit 'l', RE.lit 'u', RE.lit 'm', RE.lit 'e', RE.lit ' ', RE.lit 'a', RE.lit ' ', RE.grp 1 (RE.cat [RE.cls false [CItem.dcls], RE.star true (RE.cls false [CItem.dcls])])] }

/- pattern source: volume a (\d+) -/
def reP_volume_set_3 : Pat := { anchored := false, ngroups := 1, re := RE.cat [RE.lit 'v', RE.lit 'o', RE.lit 'l', RE.lit 'u', RE.lit 'm', RE.lit 'e', RE.lit ' ', RE.lit 'a', RE.lit ' ', RE.grp 1 (RE.cat [RE.cls false [CItem.dcls], RE.star true (RE.cls false [CItem.dcls])])] }

/- pattern source: volume up(?: (\d+))? -/
def reP_volume_up_0 : Pat := { anchored := false, ngroups := 1, re := RE.cat [RE.lit 'v', RE.lit 'o', RE.lit 'l', RE.lit 'u', RE.lit 'm', RE.lit 'e', RE.lit ' ', RE.lit 'u', RE.lit 'p', RE.opt true (RE.cat [RE.lit ' ', RE.grp 1 (RE.cat [RE.cls false [CItem.dcls], RE.star true (RE.cls false [CItem.dcls])])])] }

/- pattern source: (?:turn|crank) (?:the )?volume up(?: (\d+))? -/
def reP_volume_up_1 : Pat := { anchored := false, ngroups := 1, re := RE.cat [RE.alt (RE.cat [RE.lit 't', RE.lit 'u', RE.lit 'r', RE.lit 'n']) (RE.cat [RE.lit 'c', RE.lit 'r', RE.lit 'a', RE.lit 'n', RE.lit 'k']), RE.lit ' ', RE.opt true (RE.cat [RE.lit 't', RE.lit 'h', RE.lit 'e', RE.lit ' ']), RE.lit 'v', RE.lit 'o', RE.lit 'l', RE.lit 'u', RE.lit 'm', RE.lit 'e', RE.lit ' ', RE.lit 'u', RE.lit 'p', RE.opt true (RE.cat [RE.lit ' ', RE.grp 1 (RE.cat [RE.cls false [CItem.dcls], RE.star true (RE.cls false [CItem.dcls])])])] }

/- pattern source: (?:make it )?louder(?: (\d+))? -/
def reP_volume_up_2 : Pat := { anchored := false, ngroups := 1, re := RE.cat [RE.opt true (RE.cat [RE.lit 'm', RE.lit 'a', RE.lit 'k', RE.lit 'e', RE.lit ' ', RE.lit 'i', RE.lit 't', RE.lit ' ']), RE.lit 'l', RE.lit 'o', RE.lit 'u', RE.lit 'd', RE.lit 'e', RE.lit 'r', RE.opt true (RE.cat [RE.lit ' ', RE.grp 1 (RE.cat [RE.cls false [CItem.dcls], RE.star true (RE.cls false [CItem.dcls])])])] }

/- pattern source: increase (?:the )?volume(?: by )?(\d+)? -/
def reP_volume_up_3 : Pat := { anchored := false, ngroups := 1, re := RE.cat [RE.lit 'i', RE.lit 'n', RE.lit 'c', RE.lit 'r', RE.lit 'e', RE.lit 'a', RE.lit 's', RE.lit 'e', RE.lit ' ', RE.opt true (RE.cat [RE.lit 't', RE.lit 'h', RE.lit 'e', RE.lit ' ']), RE.lit 'v', RE.lit 'o', RE.lit 'l', RE.lit 'u', RE.lit 'm', RE.lit 'e', RE.opt true (RE.cat [RE.lit ' ', RE.lit 'b', RE.lit 'y', RE.lit ' ']), RE.opt true (RE.grp 1 (RE.cat [RE.cls false [CItem.dcls], RE.star true (RE.cls false [CItem.dcls])]))] }

/- pattern source: alza (?:il )?volume(?: di )?(\d+)? -/
def reP_volume_up_4 : Pat := { anchored := false, ngroups := 1, re := RE.cat [RE.lit 'a', RE.lit 'l', RE.lit 'z', RE.lit 'a', RE.lit ' ', RE.opt true (RE.cat [RE.lit 'i', RE.lit 'l', RE.lit ' ']), RE.lit 'v', RE.lit 'o', RE.lit 'l', RE.lit 'u', RE.lit 'm', RE.lit 'e', RE.opt true (RE.cat [RE.lit ' ', RE.lit 'd', RE.lit 'i', RE.lit ' ']), RE.opt true (RE.grp 1 (RE.cat [RE.cls false [CItem.dcls], RE.star true (RE.cls false [CItem.dcls])]))] }

/- pattern source: aumenta (?:il )?volume(?: di )?(\d+)? -/
def reP_volume_up_5 : Pat := { anchored := false, ngroups := 1, re := RE.cat [RE.lit 'a', RE.lit 'u', RE.lit 'm', RE.lit 'e', RE.lit 'n', RE.lit 't', RE.lit 'a', RE.lit ' ', RE.opt true (RE.cat [RE.lit 'i', RE.lit 'l', RE.lit ' ']), RE.lit 'v', RE.lit 'o', RE.lit 'l', RE.lit 'u', RE.lit 'm', RE.lit 'e', RE.opt true (RE.cat [RE.lit ' ', RE.lit 'd', RE.lit 'i', RE.lit ' ']), RE.opt true (RE.grp 1 (RE.cat [RE.cls false [CItem.dcls], RE.star true (RE.cls false [CItem.dcls])]))] }

/- pattern source: più forte(?: di )?(\d+)? -/
def reP_volume_up_6 : Pat := { anchored := false, ngroups := 1, re := RE.cat [RE.lit 'p', RE.lit 'i', RE.lit 'ù', RE.lit ' ', RE.lit 'f', RE.lit 'o', RE.lit 'r', RE.lit 't', RE.lit 'e', RE.opt true (RE.cat [RE.lit ' ', RE.lit 'd', RE.lit 'i', RE.lit ' ']), RE.opt true (RE.grp 1 (RE.cat [RE.cls false [CItem.dcls], RE.star true (RE.cls false [CItem.dcls])]))] }

/- pattern source: volume down(?: (\d+))? -/
def reP_volume_down_0 : Pat := { anchored := false, ngroups := 1, re := RE.cat [RE.lit 'v', RE.lit 'o', RE.lit 'l', RE.lit 'u', RE.lit 'm', RE.lit 'e', RE.lit ' ', RE.lit 'd', RE.lit 'o', RE.lit 'w', RE.lit 'n', RE.opt true (RE.cat [RE.lit ' ', RE.grp 1 (RE.cat [RE.cls false [CItem.dcls], RE.star true (RE.cls false [CItem.dcls])])])] }

/- pattern source: (?:turn|lower) (?:the )?volume down(?: (\d+))? -/
def reP_volume_down_1 : Pat := { anchored := false, ngroups := 1, re := RE.cat [RE.alt (RE.cat [RE.lit 't', RE.lit 'u', RE.lit 'r', RE.lit 'n']) (RE.cat [RE.lit 'l', RE.lit 'o', RE.lit 'w', RE.lit 'e', RE.lit 'r']), RE.lit ' ', RE.opt true (RE.cat [RE.lit 't', RE.lit 'h', RE.lit 'e', RE.lit ' ']), RE.lit 'v', RE.lit 'o', RE.lit 'l', RE.lit 'u', RE.lit 'm', RE.lit 'e', RE.lit ' ', RE.lit 'd', RE.lit 'o', RE.lit 'w', RE.lit 'n', RE.opt true (RE.cat [RE.lit ' ', RE.grp 1 (RE.cat [RE.cls false [CItem.dcls], RE.star true (RE.cls false [CItem.dcls])])])] }

/- pattern source: (?:make it )?quieter(?: (\d+))? -/
def reP_volume_down_2 : Pat := { anchored := false, ngroups := 1, re := RE.cat [RE.opt true (RE.cat [RE.lit 'm', RE.lit 'a', RE.lit 'k', RE.lit 'e', RE.lit ' ', RE.lit 'i', RE.lit 't', RE.lit ' ']), RE.lit 'q', RE.lit 'u', RE.lit 'i', RE.lit 'e', RE.lit 't', RE.lit 'e', RE.lit 'r', RE.opt true (RE.cat [RE.lit ' ', RE.grp 1 (RE.cat [RE.cls false [CItem.dcls], RE.star true (RE.cls false [CItem.dcls])])])] }

/- pattern source: decrease (?:the )?volume(?: by )?(\d+)? -/
def reP_volume_down_3 : Pat := { anchored := false, ngroups := 1, re := RE.cat [RE.lit 'd', RE.lit 'e', RE.lit 'c', RE.lit 'r', RE.lit 'e', RE.lit 'a', RE.lit 's', RE.lit 'e', RE.lit ' ', RE.opt true (RE.cat [RE.lit 't', RE.lit 'h', RE.lit 'e', RE.lit ' ']), RE.lit 'v', RE.lit 'o', RE.lit 'l', RE.lit 'u', RE.lit 'm', RE.lit 'e', RE.opt true (RE.cat [RE.lit ' ', RE.lit 'b', RE.lit 'y', RE.lit ' ']), RE.opt true (RE.grp 1 (RE.cat [RE.cls false [CItem.dcls], RE.star true (RE.cls false [CItem.dcls])]))] }

/- pattern source: abbassa (?:il )?volume(?: di )?(\d+)? -/
def reP_volume_down_4 : Pat := { anchored := false, ngroups := 1, re := RE.cat [RE.lit 'a', RE.lit 'b', RE.lit 'b', RE.lit 'a', RE.lit 's', RE.lit 's', RE.lit 'a', RE.lit ' ', RE.opt true (RE.cat [RE.lit 'i', RE.lit 'l', RE.lit ' ']), RE.lit 'v', RE.lit 'o', RE.lit 'l', RE.lit 'u', RE.lit 'm', RE.lit 'e', RE.opt true (RE.cat [RE.lit ' ', RE.lit 'd', RE.lit 'i', RE.lit ' ']), RE.opt true (RE.grp 1 (RE.cat [RE.cls false [CItem.dcls], RE.star true (RE.cls false [CItem.dcls])]))] }

/- pattern source: diminuisci (?:il )?volume(?: di )?(\d+)? -/
def reP_volume_down_5 : Pat := { anchored := false, ngroups := 1, re := RE.cat [RE.lit 'd', RE.lit 'i', RE.lit 'm', RE.lit 'i', RE.lit 'n', RE.lit 'u', RE.lit 'i', RE.lit 's', RE.lit 'c', RE.lit 'i', RE.lit ' ', RE.opt true (RE.cat [RE.lit 'i', RE.lit 'l', RE.lit ' ']), RE.lit 'v', RE.lit 'o', RE.lit 'l', RE.lit 'u', RE.lit 'm', RE.lit 'e', RE.opt true (RE.cat [RE.lit ' ', RE.lit 'd', RE.lit 'i', RE.lit ' ']), RE.opt true (RE.grp 1 (RE.cat [RE.cls false [CItem.dcls], RE.star true (RE.cls false [CItem.dcls])]))] }

/- pattern source: più piano(?: di )?(\d+)? -/
def reP_volume_down_6 : Pat := { anchored := false, ngroups := 1, re := RE.cat [RE.lit 'p', RE.lit 'i', RE.lit 'ù', RE.lit ' ', RE.lit 'p', RE.lit 'i', RE.lit 'a', RE.lit 'n', RE.lit 'o', RE.opt true (RE.cat [RE.lit ' ', RE.lit 'd', RE.lit 'i', RE.lit ' ']), RE.opt true (RE.grp 1 (RE.cat [RE.cls false [CItem.dcls], RE.star true (RE.cls false [CItem.dcls])]))] }

/- pattern source: close (.+?)$ -/
def reP_mac_close_app_0 : Pat := { anchored := false, ngroups := 1, re := RE.cat [RE.lit 'c', RE.lit 'l', RE.lit 'o', RE.lit 's', RE.lit 'e', RE.lit ' ', RE.grp 1 (RE.cat [RE.dot, RE.star false (RE.dot)]), RE.eol] }

/- pattern source: quit (.+?)$ -/
def reP_mac_close_app_1 : Pat := { anchored := false, ngroups := 1, re := RE.cat [RE.lit 'q', RE.lit 'u', RE.lit 'i', RE.lit 't', RE.lit ' ', RE.grp 1 (RE.cat [RE.dot, RE.star false (RE.dot)]), RE.eol] }

/- pattern source: exit (.+?)$ -/
def reP_mac_close_app_2 : Pat := { anchored := false, ngroups := 1, re := RE.cat [RE.lit 'e', RE.lit 'x', RE.lit 'i', RE.lit 't', RE.lit ' ', RE.grp 1 (RE.cat [RE.dot, RE.star false (RE.dot)]), RE.eol] }

/- pattern source: chiudi (.+?)$ -/
def reP_mac_close_app_3 : Pat := { anchored := false, ngroups := 1, re := RE.cat [RE.lit 'c', RE.lit 'h', RE.lit 'i', RE.lit 'u', RE.lit 'd', RE.lit 'i', RE.lit ' ', RE.grp 1 (RE.cat [RE.dot, RE.star false (RE.dot)]), RE.eol] }

/- pattern source: esci da (.+?)$ -/
def reP_mac_close_app_4 : Pat := { anchored := false, ngroups := 1, re := RE.cat [RE.lit 'e', RE.lit 's', RE.lit 'c', RE.lit 'i', RE.lit ' ', RE.lit 'd', RE.lit 'a', RE.lit ' ', RE.grp 1 (RE.cat [RE.dot, RE.star false (RE.dot)]), RE.eol] }

/- pattern source: open (.+?)(?:\s+on.*)?$ -/
def reP_mac_open_app_0 : Pat := { anchored := false, ngroups := 1, re := RE.cat [RE.lit 'o', RE.lit 'p', RE.lit 'e', RE.lit 'n', RE.lit ' ', RE.grp 1 (RE.cat [RE.dot, RE.star false (RE.dot)]), RE.opt true (RE.cat [RE.cat [RE.cls false [CItem.scls], RE.star true (RE.cls false [CItem.scls])], RE.lit 'o', RE.lit 'n', RE.star true (RE.dot)]), RE.eol] }

/- pattern source: launch (.+?)$ -/
def reP_mac_open_app_1 : Pat := { anchored := false, ngroups := 1, re := RE.cat [RE.lit 'l', RE.lit 'a', RE.lit 'u', RE.lit 'n', RE.lit 'c', RE.lit 'h', RE.lit ' ', RE.grp 1 (RE.cat [RE.dot, RE.star false (RE.dot)]), RE.eol] }

/- pattern source: start (.+?)$ -/
def reP_mac_open_app_2 : Pat := { anchored := false, ngroups := 1, re := RE.cat [RE.lit 's', RE.lit 't', RE.lit 'a', RE.lit 'r', RE.lit 't', RE.lit ' ', RE.grp 1 (RE.cat [RE.dot, RE.star false (RE.dot)]), RE.eol] }

/- pattern source: apri (.+?)(?:\s+sul.*)?$ -/
def reP_mac_open_app_3 : Pat := { anchored := false, ngroups := 1, re := RE.cat [RE.lit 'a', RE.lit 'p', RE.lit 'r', RE.lit 'i', RE.lit ' ', RE.grp 1 (RE.cat [RE.dot, RE.star false (RE.dot)]), RE.opt true (RE.cat [RE.cat [RE.cls false [CItem.scls], RE.star true (RE.cls false [CItem.scls])], RE.lit 's', RE.lit 'u', RE.lit 'l', RE.star true (RE.dot)]), RE.eol] }

/- pattern source: avvia (.+?)$ -/
def reP_mac_open_app_4 : Pat := { anchored := false, ngroups := 1, re := RE.cat [RE.lit 'a', RE.lit 'v', RE.lit 'v', RE.lit 'i', RE.lit 'a', RE.lit ' ', RE.grp 1 (RE.cat [RE.dot, RE.star false (RE.dot)]), RE.eol] }

/- pattern source: set volume to (\d+) -/
def reP_mac_volume_0 : Pat := { anchored := false, ngroups := 1, re := RE.cat [RE.lit 's', RE.lit 'e', RE.lit 't', RE.lit ' ', RE.lit 'v', RE.lit 'o', RE.lit 'l', RE.lit 'u', RE.lit 'm', RE.lit 'e', RE.lit ' ', RE.lit 't', RE.lit 'o', RE.lit ' ', RE.grp 1 (RE.cat [RE.cls false [CItem.dcls], RE.star true (RE.cls false [CItem.dcls])])] }

/- pattern source: (?:turn )?volume (?:to |at )?(\d+) -/
def reP_mac_volume_1 : Pat := { anchored := false, ngroups := 1, re := RE.cat [RE.opt true (RE.cat [RE.lit 't', RE.lit 'u', RE.lit 'r', RE.lit 'n', RE.lit ' ']), RE.lit 'v', RE.lit 'o', RE.lit 'l', RE.lit 'u', RE.lit 'm', RE.lit 'e', RE.lit ' ', RE.opt true (RE.alt (RE.cat [RE.lit 't', RE.lit 'o', RE.lit ' ']) (RE.cat [RE.lit 'a', RE.lit 't', RE.lit ' '])), RE.grp 1 (RE.cat [RE.cls false [CItem.dcls], RE.star true (RE.cls false [CItem.dcls])])] }

/- pattern source: (?:make it |set )?(?:louder|quieter|mute) -/
def reP_mac_volume_2 : Pat := { anchored := false, ngroups := 0, re := RE.cat [RE.opt true (RE.alt (RE.cat [RE.lit 'm', RE.lit 'a', RE.lit 'k', RE.lit 'e', RE.lit ' ', RE.lit 'i', RE.lit 't', RE.lit ' ']) (RE.cat [RE.lit 's', RE.lit 'e', RE.lit 't', RE.lit ' '])), RE.alt (RE.cat [RE.lit 'l', RE.lit 'o', RE.lit 'u', RE.lit 'd', RE.lit 'e', RE.lit 'r']) (RE.alt (RE.cat [RE.lit 'q', RE.lit 'u', RE.lit 'i', RE.lit 'e', RE.lit 't', RE.lit 'e', RE.lit 'r']) (RE.cat [RE.lit 'm', RE.lit 'u', RE.lit 't', RE.lit 'e']))] }

/- pattern source: (?:imposta |metti )?volume a (\d+) -/
def reP_mac_volume_3 : Pat := { anchored := false, ngroups := 1, re := RE.cat [RE.opt true (RE.alt (RE.cat [RE.lit 'i', RE.lit 'm', RE.lit 'p', RE.lit 'o', RE.lit 's', RE.lit 't', RE.lit 'a', RE.lit ' ']) (RE.cat [RE.lit 'm', RE.lit 'e', RE.lit 't', RE.lit 't', RE.lit 'i', RE.lit ' '])), RE.lit 'v', RE.lit 'o', RE.lit 'l', RE.lit 'u', RE.lit 'm', RE.lit 'e', RE.lit ' ', RE.lit 'a', RE.lit ' ', RE.grp 1 (RE.cat [RE.cls false [CItem.dcls], RE.star true (RE.cls false [CItem.dcls])])] }

/- pattern source: (?:alza|abbassa|silenzia) (?:il )?volume -/
def reP_mac_volume_4 : Pat := { anchored := false, ngroups := 0, re := RE.cat [RE.alt (RE.cat [RE.lit 'a', RE.lit 'l', RE.lit 'z', RE.lit 'a']) (RE.alt (RE.cat [RE.lit 'a', RE.lit 'b', RE.lit 'b', RE.lit 'a', RE.lit 's', RE.lit 's', RE.lit 'a']) (RE.cat [RE.lit 's', RE.lit 'i', RE.lit 'l', RE.lit 'e', RE.lit 'n', RE.lit 'z', RE.lit 'i', RE.lit 'a'])), RE.lit ' ', RE.opt true (RE.cat [RE.lit 'i', RE.lit 'l', RE.lit ' ']), RE.lit 'v', RE.lit 'o', RE.lit 'l', RE.lit 'u', RE.lit 'm', RE.lit 'e'] }

/- pattern source: (?:put )?(?:the )?mac to sleep -/
def reP_mac_sleep_0 : Pat := { anchored := false, ngroups := 0, re := RE.cat [RE.opt true (RE.cat [RE.lit 'p', RE.lit 'u', RE.lit 't', RE.lit ' ']), RE.opt true (RE.cat [RE.lit 't', RE.lit 'h', RE.lit 'e', RE.lit ' ']), RE.lit 'm', RE.lit 'a', RE.lit 'c', RE.lit ' ', RE.lit 't', RE.lit 'o', RE.lit ' ', RE.lit 's', RE.lit 'l', RE.lit 'e', RE.lit 'e', RE.lit 'p'] }

/- pattern source: sleep (?:the )?(?:mac|computer) -/
def reP_mac_sleep_1 : Pat := { anchored := false, ngroups := 0, re := RE.cat [RE.lit 's', RE.lit 'l', RE.lit 'e', RE.lit 'e', RE.lit 'p', RE.lit ' ', RE.opt true (RE.cat [RE.lit 't', RE.lit 'h', RE.lit 'e', RE.lit ' ']), RE.alt (RE.cat [RE.lit 'm', RE.lit 'a', RE.lit 'c']) (RE.cat [RE.lit 'c', RE.lit 'o', RE.lit 'm', RE.lit 'p', RE.lit 'u', RE.lit 't', RE.lit 'e', RE.lit 'r'])] }

/- pattern source: metti (?:il )?mac in (?:sleep|stop|pausa) -/
def reP_mac_sleep_2 : Pat := { anchored := false, ngroups := 0, re := RE.cat [RE.lit 'm', RE.lit 'e', RE.lit 't', RE.lit 't', RE.lit 'i', RE.lit ' ', RE.opt true (RE.cat [RE.lit 'i', RE.lit 'l', RE.lit ' ']), RE.lit 'm', RE.lit 'a', RE.lit 'c', RE.lit ' ', RE.lit 'i', RE.lit 'n', RE.lit ' ', RE.alt (RE.cat [RE.lit 's', RE.lit 'l', RE.lit 'e', RE.lit 'e', RE.lit 'p']) (RE.alt (RE.cat [RE.lit 's', RE.lit 't', RE.lit 'o', RE.lit 'p']) (RE.cat [RE.lit 'p', RE.lit 'a', RE.lit 'u', RE.lit 's', RE.lit 'a']))] }

/- pattern source: sospendi (?:il )?(?:mac|computer) -/
def reP_mac_sleep_3 : Pat := { anchored := false, ngroups := 0, re := RE.cat [RE.lit 's', RE.lit 'o', RE.lit 's', RE.lit 'p', RE.lit 'e', RE.lit 'n', RE.lit 'd', RE.lit 'i', RE.lit ' ', RE.opt true (RE.cat [RE.lit 'i', RE.lit 'l', RE.lit ' ']), RE.alt (RE.cat [RE.lit 'm', RE.lit 'a', RE.lit 'c']) (RE.cat [RE.lit 'c', RE.lit 'o', RE.lit 'm', RE.lit 'p', RE.lit 'u', RE.lit 't', RE.lit 'e', RE.lit 'r'])] }

/- pattern source: lock (?:the )?(?:screen|mac|computer) -/
def reP_mac_lock_0 : Pat := { anchored := false, ngroups := 0, re := RE.cat [RE.lit 'l', RE.lit 'o', RE.lit 'c', RE.lit 'k', RE.lit ' ', RE.opt true (RE.cat [RE.lit 't', RE.lit 'h', RE.lit 'e', RE.lit ' ']), RE.alt (RE.cat [RE.lit 's', RE.lit 'c', RE.lit 'r', RE.lit 'e', RE.lit 'e', RE.lit 'n']) (RE.alt (RE.cat [RE.lit 'm', RE.lit 'a', RE.lit 'c']) (RE.cat [RE.lit 'c', RE.lit 'o', RE.lit 'm', RE.lit 'p', RE.lit 'u', RE.lit 't', RE.lit 'e', RE.lit 'r']))] }

/- pattern source: lock it -/
def reP_mac_lock_1 : Pat := { anchored := false, ngroups := 0, re := RE.cat [RE.lit 'l', RE.lit 'o', RE.lit 'c', RE.lit 'k', RE.lit ' ', RE.lit 'i', RE.lit 't'] }

/- pattern source: blocca (?:lo )?schermo -/
def reP_mac_lock_2 : Pat := { anchored := false, ngroups := 0, re := RE.cat [RE.lit 'b', RE.lit 'l', RE.lit 'o', RE.lit 'c', RE.lit 'c', RE.lit 'a', RE.lit ' ', RE.opt true (RE.cat [RE.lit 'l', RE.lit 'o', RE.lit ' ']), RE.lit 's', RE.lit 'c', RE.lit 'h', RE.lit 'e', RE.lit 'r', RE.lit 'm', RE.lit 'o'] }

/- pattern source: blocca (?:il )?mac -/
def reP_mac_lock_3 : Pat := { anchored := false, ngroups := 0, re := RE.cat [RE.lit 'b', RE.lit 'l', RE.lit 'o', RE.lit 'c', RE.lit 'c', RE.lit 'a', RE.lit ' ', RE.opt true (RE.cat [RE.lit 'i', RE.lit 'l', RE.lit ' ']), RE.lit 'm', RE.lit 'a', RE.lit 'c'] }

/- pattern source: send (?:a )?telegram (?:message )?to (.+?) saying (.+) -/
def reP_telegram_send_0 : Pat := { anchored := false, ngroups := 2, re := RE.cat [RE.lit 's', RE.lit 'e', RE.lit 'n', RE.lit 'd', RE.lit ' ', RE.opt true (RE.cat [RE.lit 'a', RE.lit ' ']), RE.lit 't', RE.lit 'e', RE.lit 'l', RE.lit 'e', RE.lit 'g', RE.lit 'r', RE.lit 'a', RE.lit 'm', RE.lit ' ', RE.opt true (RE.cat [RE.lit 'm', RE.lit 'e', RE.lit 's', RE.lit 's', RE.lit 'a', RE.lit 'g', RE.lit 'e', RE.lit ' ']), RE.lit 't', RE.lit 'o', RE.lit ' ', RE.grp 1 (RE.cat [RE.dot, RE.star false (RE.dot)]), RE.lit ' ', RE.lit 's', RE.lit 'a', RE.lit 'y', RE.lit 'i', RE.lit 'n', RE.lit 'g', RE.lit ' ', RE.grp 2 (RE.cat [RE.dot, RE.star true (RE.dot)])] }

/- pattern source: telegram (.+?) (?:saying|that) (.+) -/
def reP_telegram_send_1 : Pat := { anchored := false, ngroups := 2, re := RE.cat [RE.lit 't', RE.lit 'e', RE.lit 'l', RE.lit 'e', RE.lit 'g', RE.lit 'r', RE.lit 'a', RE.lit 'm', RE.lit ' ', RE.grp 1 (RE.cat [RE.dot, RE.star false (RE.dot)]), RE.lit ' ', RE.alt (RE.cat [RE.lit 's', RE.lit 'a', RE.lit 'y', RE.lit 'i', RE.lit 'n', RE.lit 'g']) (RE.cat [RE.lit 't', RE.lit 'h', RE.lit 'a', RE.lit 't']), RE.lit ' ', RE.grp 2 (RE.cat [RE.dot, RE.star true (RE.dot)])] }

/- pattern source: message (.+?) on telegram (.+) -/
def reP_telegram_send_2 : Pat := { anchored := false, ngroups := 2, re := RE.cat [RE.lit 'm', RE.lit 'e', RE.lit 's', RE.lit 's', RE.lit 'a', RE.lit 'g', RE.lit 'e', RE.lit ' ', RE.grp 1 (RE.cat [RE.dot, RE.star false (RE.dot)]), RE.lit ' ', RE.lit 'o', RE.lit 'n', RE.lit ' ', RE.lit 't', RE.lit 'e', RE.lit 'l', RE.lit 'e', RE.lit 'g', RE.lit 'r', RE.lit 'a', RE.lit 'm', RE.lit ' ', RE.grp 2 (RE.cat [RE.dot, RE.star true (RE.dot)])] }

/- pattern source: manda (?:un )?telegram a (.+?) (?:e )?(?:dicendo|che dice|di(?:gli|lle|mmi|ci|vi)) (.+) -/
def reP_telegram_send_3 : Pat := { anchored := false, ngroups := 2, re := RE.cat [RE.lit 'm', RE.lit 'a', RE.lit 'n', RE.lit 'd', RE.lit 'a', RE.lit ' ', RE.opt true (RE.cat [RE.lit 'u', RE.lit 'n', RE.lit ' ']), RE.lit 't', RE.lit 'e', RE.lit 'l', RE.lit 'e', RE.lit 'g', RE.lit 'r', RE.lit 'a', RE.lit 'm', RE.lit ' ', RE.lit 'a', RE.lit ' ', RE.grp 1 (RE.cat [RE.dot, RE.star false (RE.dot)]), RE.lit ' ', RE.opt true (RE.cat [RE.lit 'e', RE.lit ' ']), RE.alt (RE.cat [RE.lit 'd', RE.lit 'i', RE.lit 'c', RE.lit 'e', RE.lit 'n', RE.lit 'd', RE.lit 'o']) (RE.alt (RE.cat [RE.lit 'c', RE.lit 'h', RE.lit 'e', RE.lit ' ', RE.lit 'd', RE.lit 'i', RE.lit 'c', RE.lit 'e']) (RE.cat [RE.lit 'd', RE.lit 'i', RE.alt (RE.cat [RE.lit 'g', RE.lit 'l', RE.lit 'i']) (RE.alt (RE.cat [RE.lit 'l', RE.lit 'l', RE.lit 'e']) (RE.alt (RE.cat [RE.lit 'm', RE.lit 'm', RE.lit 'i']) (RE.alt (RE.cat [RE.lit 'c', RE.lit 'i']) (RE.cat [RE.lit 'v', RE.lit 'i']))))])), RE.lit ' ', RE.grp 2 (RE.cat [RE.dot, RE.star true (RE.dot)])] }

/- pattern source: invia messaggio telegram a (.+?) (?:e )?(?:dicendo|di(?:gli|lle|mmi|ci|vi))? (.+) -/
def reP_telegram_send_4 : Pat := { anchored := false, ngroups := 2, re := RE.cat [RE.lit 'i', RE.lit 'n', RE.lit 'v', RE.lit 'i', RE.lit 'a', RE.lit ' ', RE.lit 'm', RE.lit 'e', RE.lit 's', RE.lit 's', RE.lit 'a', RE.lit 'g', RE.lit 'g', RE.lit 'i', RE.lit 'o', RE.lit ' ', RE.lit 't', RE.lit 'e', RE.lit 'l', RE.lit 'e', RE.lit 'g', RE.lit 'r', RE.lit 'a', RE.lit 'm', RE.lit ' ', RE.lit 'a', RE.lit ' ', RE.grp 1 (RE.cat [RE.dot, RE.star false (RE.dot)]), RE.lit ' ', RE.opt true (RE.cat [RE.lit 'e', RE.lit ' ']), RE.opt true (RE.alt (RE.cat [RE.lit 'd', RE.lit 'i', RE.lit 'c', RE.lit 'e', RE.lit 'n', RE.lit 'd', RE.lit 'o']) (RE.cat [RE.lit 'd', RE.lit 'i', RE.alt (RE.cat [RE.lit 'g', RE.lit 'l', RE.lit 'i']) (RE.alt (RE.cat [RE.lit 'l', RE.lit 'l', RE.lit 'e']) (RE.alt (RE.cat [RE.lit 'm', RE.lit 'm', RE.lit 'i']) (RE.alt (RE.cat [RE.lit 'c', RE.lit 'i']) (RE.cat [RE.lit 'v', RE.lit 'i']))))])), RE.lit ' ', RE.grp 2 (RE.cat [RE.dot, RE.star true (RE.dot)])] }

/- pattern source: check (?:my )?(?:telegram|telegram messages?) -/
def reP_telegram_check_0 : Pat := { anchored := false, ngroups := 0, re := RE.cat [RE.lit 'c', RE.lit 'h', RE.lit 'e', RE.lit 'c', RE.lit 'k', RE.lit ' ', RE.opt true (RE.cat [RE.lit 'm', RE.lit 'y', RE.lit ' ']), RE.alt (RE.cat [RE.lit 't', RE.lit 'e', RE.lit 'l', RE.lit 'e', RE.lit 'g', RE.lit 'r', RE.lit 'a', RE.lit 'm']) (RE.cat [RE.lit 't', RE.lit 'e', RE.lit 'l', RE.lit 'e', RE.lit 'g', RE.lit 'r', RE.lit 'a', RE.lit 'm', RE.lit ' ', RE.lit 'm', RE.lit 'e', RE.lit 's', RE.lit 's', RE.lit 'a', RE.lit 'g', RE.lit 'e', RE.opt true (RE.lit 's')])] }

/- pattern source: (?:do i have |any )(?:new )?telegram messages? -/
def reP_telegram_check_1 : Pat := { anchored := false, ngroups := 0, re := RE.cat [RE.alt (RE.cat [RE.lit 'd', RE.lit 'o', RE.lit ' ', RE.lit 'i', RE.lit ' ', RE.lit 'h', RE.lit 'a', RE.lit 'v', RE.lit 'e', RE.lit ' ']) (RE.cat [RE.lit 'a', RE.lit 'n', RE.lit 'y', RE.lit ' ']), RE.opt true (RE.cat [RE.lit 'n', RE.lit 'e', RE.lit 'w', RE.lit ' ']), RE.lit 't', RE.lit 'e', RE.lit 'l', RE.lit 'e', RE.lit 'g', RE.lit 'r', RE.lit 'a', RE.lit 'm', RE.lit ' ', RE.lit 'm', RE.lit 'e', RE.lit 's', RE.lit 's', RE.lit 'a', RE.lit 'g', RE.lit 'e', RE.opt true (RE.lit 's')] }

/- pattern source: (?:ho |controlla )(?:nuovi )?messaggi (?:su )?telegram -/
def reP_telegram_check_2 : Pat := { anchored := false, ngroups := 0, re := RE.cat [RE.alt (RE.cat [RE.lit 'h', RE.lit 'o', RE.lit ' ']) (RE.cat [RE.lit 'c', RE.lit 'o', RE.lit 'n', RE.lit 't', RE.lit 'r', RE.lit 'o', RE.lit 'l', RE.lit 'l', RE.lit 'a', RE.lit ' ']), RE.opt true (RE.cat [RE.lit 'n', RE.lit 'u', RE.lit 'o', RE.lit 'v', RE.lit 'i', RE.lit ' ']), RE.lit 'm', RE.lit 'e', RE.lit 's', RE.lit 's', RE.lit 'a', RE.lit 'g', RE.lit 'g', RE.lit 'i', RE.lit ' ', RE.opt true (RE.cat [RE.lit 's', RE.lit 'u', RE.lit ' ']), RE.lit 't', RE.lit 'e', RE.lit 'l', RE.lit 'e', RE.lit 'g', RE.lit 'r', RE.lit 'a', RE.lit 'm'] }

/- pattern source: (?:ci sono )?messaggi (?:su )?telegram -/
def reP_telegram_check_3 : Pat := { anchored := false, ngroups := 0, re := RE.cat [RE.opt true (RE.cat [RE.lit 'c', RE.lit 'i', RE.lit ' ', RE.lit 's', RE.lit 'o', RE.lit 'n', RE.lit 'o', RE.lit ' ']), RE.lit 'm', RE.lit 'e', RE.lit 's', RE.lit 's', RE.lit 'a', RE.lit 'g', RE.lit 'g', RE.lit 'i', RE.lit ' ', RE.opt true (RE.cat [RE.lit 's', RE.lit 'u', RE.lit ' ']), RE.lit 't', RE.lit 'e', RE.lit 'l', RE.lit 'e', RE.lit 'g', RE.lit 'r', RE.lit 'a', RE.lit 'm'] }

/- pattern source: read (?:my )?(?:latest |last |recent )?telegram (?:messages?)?(?: from (.+))? -/
def reP_telegram_read_0 : Pat := { anchored := false, ngroups := 1, re := RE.cat [RE.lit 'r', RE.lit 'e', RE.lit 'a', RE.lit 'd', RE.lit ' ', RE.opt true (RE.cat [RE.lit 'm', RE.lit 'y', RE.lit ' ']), RE.opt true (RE.alt (RE.cat [RE.lit 'l', RE.lit 'a', RE.lit 't', RE.lit 'e', RE.lit 's', RE.lit 't', RE.lit ' ']) (RE.alt (RE.cat [RE.lit 'l', RE.lit 'a', RE.lit 's', RE.lit 't', RE.lit ' ']) (RE.cat [RE.lit 'r', RE.lit 'e', RE.lit 'c', RE.lit 'e', RE.lit 'n', RE.lit 't', RE.lit ' ']))), RE.lit 't', RE.lit 'e', RE.lit 'l', RE.lit 'e', RE.lit 'g', RE.lit 'r', RE.lit 'a', RE.lit 'm', RE.lit ' ', RE.opt true (RE.cat [RE.lit 'm', RE.lit 'e', RE.lit 's', RE.lit 's', RE.lit 'a', RE.lit 'g', RE.lit 'e', RE.opt true (RE.lit 's')]), RE.opt true (RE.cat [RE.lit ' ', RE.lit 'f', RE.lit 'r', RE.lit 'o', RE.lit 'm', RE.lit ' ', RE.grp 1 (RE.cat [RE.dot, RE.star true (RE.dot)])])] }

/- pattern source: show me telegram messages? from (.+) -/
def reP_telegram_read_1 : Pat := { anchored := false, ngroups := 1, re := RE.cat [RE.lit 's', RE.lit 'h', RE.lit 'o', RE.lit 'w', RE.lit ' ', RE.lit 'm', RE.lit 'e', RE.lit ' ', RE.lit 't', RE.lit 'e', RE.lit 'l', RE.lit 'e', RE.lit 'g', RE.lit 'r', RE.lit 'a', RE.lit 'm', RE.lit ' ', RE.lit 'm', RE.lit 'e', RE.lit 's', RE.lit 's', RE.lit 'a', RE.lit 'g', RE.lit 'e', RE.opt true (RE.lit 's'), RE.lit ' ', RE.lit 'f', RE.lit 'r', RE.lit 'o', RE.lit 'm', RE.lit ' ', RE.grp 1 (RE.cat [RE.dot, RE.star true (RE.dot)])] }

/- pattern source: leggi (?:i miei|gli )?(?:ultimi )?messaggi telegram(?: di (.+))? -/
def reP_telegram_read_2 : Pat := { anchored := false, ngroups := 1, re := RE.cat [RE.lit 'l', RE.lit 'e', RE.lit 'g', RE.lit 'g', RE.lit 'i', RE.lit ' ', RE.opt true (RE.alt (RE.cat [RE.lit 'i', RE.lit ' ', RE.lit 'm', RE.lit 'i', RE.lit 'e', RE.lit 'i']) (RE.cat [RE.lit 'g', RE.lit 'l', RE.lit 'i', RE.lit ' '])), RE.opt true (RE.cat [RE.lit 'u', RE.lit 'l', RE.lit 't', RE.lit 'i', RE.lit 'm', RE.lit 'i', RE.lit ' ']), RE.lit 'm', RE.lit 'e', RE.lit 's', RE.lit 's', RE.lit 'a', RE.lit 'g', RE.lit 'g', RE.lit 'i', RE.lit ' ', RE.lit 't', RE.lit 'e', RE.lit 'l', RE.lit 'e', RE.lit 'g', RE.lit 'r', RE.lit 'a', RE.lit 'm', RE.opt true (RE.cat [RE.lit ' ', RE.lit 'd', RE.lit 'i', RE.lit ' ', RE.grp 1 (RE.cat [RE.dot, RE.star true (RE.dot)])])] }

/- pattern source: mostrami (?:i )?messaggi telegram di (.+) -/
def reP_telegram_read_3 : Pat := { anchored := false, ngroups := 1, re := RE.cat [RE.lit 'm', RE.lit 'o', RE.lit 's', RE.lit 't', RE.lit 'r', RE.lit 'a', RE.lit 'm', RE.lit 'i', RE.lit ' ', RE.opt true (RE.cat [RE.lit 'i', RE.lit ' ']), RE.lit 'm', RE.lit 'e', RE.lit 's', RE.lit 's', RE.lit 'a', RE.lit 'g', RE.lit 'g', RE.lit 'i', RE.lit ' ', RE.lit 't', RE.lit 'e', RE.lit 'l', RE.lit 'e', RE.lit 'g', RE.lit 'r', RE.lit 'a', RE.lit 'm', RE.lit ' ', RE.lit 'd', RE.lit 'i', RE.lit ' ', RE.grp 1 (RE.cat [RE.dot, RE.star true (RE.dot)])] }

/- pattern source: send (?:a )?whatsapp (?:message )?to (.+?) saying (.+) -/
def reP_whatsapp_send_0 : Pat := { anchored := false, ngroups := 2, re := RE.cat [RE.lit 's', RE.lit 'e', RE.lit 'n', RE.lit 'd', RE.lit ' ', RE.opt true (RE.cat [RE.lit 'a', RE.lit ' ']), RE.lit 'w', RE.lit 'h', RE.lit 'a', RE.lit 't', RE.lit 's', RE.lit 'a', RE.lit 'p', RE.lit 'p', RE.lit ' ', RE.opt true (RE.cat [RE.lit 'm', RE.lit 'e', RE.lit 's', RE.lit 's', RE.lit 'a', RE.lit 'g', RE.lit 'e', RE.lit ' ']), RE.lit 't', RE.lit 'o', RE.lit ' ', RE.grp 1 (RE.cat [RE.dot, RE.star false (RE.dot)]), RE.lit ' ', RE.lit 's', RE.lit 'a', RE.lit 'y', RE.lit 'i', RE.lit 'n', RE.lit 'g', RE.lit ' ', RE.grp 2 (RE.cat [RE.dot, RE.star true (RE.dot)])] }

/- pattern source: whatsapp (.+?) (?:saying|that) (.+) -/
def reP_whatsapp_send_1 : Pat := { anchored := false, ngroups := 2, re := RE.cat [RE.lit 'w', RE.lit 'h', RE.lit 'a', RE.lit 't', RE.lit 's', RE.lit 'a', RE.lit 'p', RE.lit 'p', RE.lit ' ', RE.grp 1 (RE.cat [RE.dot, RE.star false (RE.dot)]), RE.lit ' ', RE.alt (RE.cat [RE.lit 's', RE.lit 'a', RE.lit 'y', RE.lit 'i', RE.lit 'n', RE.lit 'g']) (RE.cat [RE.lit 't', RE.lit 'h', RE.lit 'a', RE.lit 't']), RE.lit ' ', RE.grp 2 (RE.cat [RE.dot, RE.star true (RE.dot)])] }

/- pattern source: message (.+?) on whatsapp (.+) -/
def reP_whatsapp_send_2 : Pat := { anchored := false, ngroups := 2, re := RE.cat [RE.lit 'm', RE.lit 'e', RE.lit 's', RE.lit 's', RE.lit 'a', RE.lit 'g', RE.lit 'e', RE.lit ' ', RE.grp 1 (RE.cat [RE.dot, RE.star false (RE.dot)]), RE.lit ' ', RE.lit 'o', RE.lit 'n', RE.lit ' ', RE.lit 'w', RE.lit 'h', RE.lit 'a', RE.lit 't', RE.lit 's', RE.lit 'a', RE.lit 'p', RE.lit 'p', RE.lit ' ', RE.grp 2 (RE.cat [RE.dot, RE.star true (RE.dot)])] }

/- pattern source: manda (?:un )?whatsapp a (.+?) (?:e )?(?:dicendo|che dice|di(?:gli|lle|mmi|ci|vi)) (.+) -/
def reP_whatsapp_send_3 : Pat := { anchored := false, ngroups := 2, re := RE.cat [RE.lit 'm', RE.lit 'a', RE.lit 'n', RE.lit 'd', RE.lit 'a', RE.lit ' ', RE.opt true (RE.cat [RE.lit 'u', RE.lit 'n', RE.lit ' ']), RE.lit 'w', RE.lit 'h', RE.lit 'a', RE.lit 't', RE.lit 's', RE.lit 'a', RE.lit 'p', RE.lit 'p', RE.lit ' ', RE.lit 'a', RE.lit ' ', RE.grp 1 (RE.cat [RE.dot, RE.star false (RE.dot)]), RE.lit ' ', RE.opt true (RE.cat [RE.lit 'e', RE.lit ' ']), RE.alt (RE.cat [RE.lit 'd', RE.lit 'i', RE.lit 'c', RE.lit 'e', RE.lit 'n', RE.lit 'd', RE.lit 'o']) (RE.alt (RE.cat [RE.lit 'c', RE.lit 'h', RE.lit 'e', RE.lit ' ', RE.lit 'd', RE.lit 'i', RE.lit 'c', RE.lit 'e']) (RE.cat [RE.lit 'd', RE.lit 'i', RE.alt (RE.cat [RE.lit 'g', RE.lit 'l', RE.lit 'i']) (RE.alt (RE.cat [RE.lit 'l', RE.lit 'l', RE.lit 'e']) (RE.alt (RE.cat [RE.lit 'm', RE.lit 'm', RE.lit 'i']) (RE.alt (RE.cat [RE.lit 'c', RE.lit 'i']) (RE.cat [RE.lit 'v', RE.lit 'i']))))])), RE.lit ' ', RE.grp 2 (RE.cat [RE.dot, RE.star true (RE.dot)])] }

/- pattern source: invia messaggio whatsapp a (.+?) (?:e )?(?:dicendo|di(?:gli|lle|mmi|ci|vi))? (.+) -/
def reP_whatsapp_send_4 : Pat := { anchored := false, ngroups := 2, re := RE.cat [RE.lit 'i', RE.lit 'n', RE.lit 'v', RE.lit 'i', RE.lit 'a', RE.lit ' ', RE.lit 'm', RE.lit 'e', RE.lit 's', RE.lit 's', RE.lit 'a', RE.lit 'g', RE.lit 'g', RE.lit 'i', RE.lit 'o', RE.lit ' ', RE.lit 'w', RE.lit 'h', RE.lit 'a', RE.lit 't', RE.lit 's', RE.lit 'a', RE.lit 'p', RE.lit 'p', RE.lit ' ', RE.lit 'a', RE.lit ' ', RE.grp 1 (RE.cat [RE.dot, RE.star false (RE.dot)]), RE.lit ' ', RE.opt true (RE.cat [RE.lit 'e', RE.lit ' ']), RE.opt true (RE.alt (RE.cat [RE.lit 'd', RE.lit 'i', RE.lit 'c', RE.lit 'e', RE.lit 'n', RE.lit 'd', RE.lit 'o']) (RE.cat [RE.lit 'd', RE.lit 'i', RE.alt (RE.cat [RE.lit 'g', RE.lit 'l', RE.lit 'i']) (RE.alt (RE.cat [RE.lit 'l', RE.lit 'l', RE.lit 'e']) (RE.alt (RE.cat [RE.lit 'm', RE.lit 'm', RE.lit 'i']) (RE.alt (RE.cat [RE.lit 'c', RE.lit 'i']) (RE.cat [RE.lit 'v', RE.lit 'i']))))])), RE.lit ' ', RE.grp 2 (RE.cat [RE.dot, RE.star true (RE.dot)])] }

/- pattern source: check (?:my )?(?:whatsapp|whatsapp messages?) -/
def reP_whatsapp_check_0 : Pat := { anchored := false, ngroups := 0, re := RE.cat [RE.lit 'c', RE.lit 'h', RE.lit 'e', RE.lit 'c', RE.lit 'k', RE.lit ' ', RE.opt true (RE.cat [RE.lit 'm', RE.lit 'y', RE.lit ' ']), RE.alt (RE.cat [RE.lit 'w', RE.lit 'h', RE.lit 'a', RE.lit 't', RE.lit 's', RE.lit 'a', RE.lit 'p', RE.lit 'p']) (RE.cat [RE.lit 'w', RE.lit 'h', RE.lit 'a', RE.lit 't', RE.lit 's', RE.lit 'a', RE.lit 'p', RE.lit 'p', RE.lit ' ', RE.lit 'm', RE.lit 'e', RE.lit 's', RE.lit 's', RE.lit 'a', RE.lit 'g', RE.lit 'e', RE.opt true (RE.lit 's')])] }

/- pattern source: (?:do i have |any )(?:new )?whatsapp messages? -/
def reP_whatsapp_check_1 : Pat := { anchored := false, ngroups := 0, re := RE.cat [RE.alt (RE.cat [RE.lit 'd', RE.lit 'o', RE.lit ' ', RE.lit 'i', RE.lit ' ', RE.lit 'h', RE.lit 'a', RE.lit 'v', RE.lit 'e', RE.lit ' ']) (RE.cat [RE.lit 'a', RE.lit 'n', RE.lit 'y', RE.lit ' ']), RE.opt true (RE.cat [RE.lit 'n', RE.lit 'e', RE.lit 'w', RE.lit ' ']), RE.lit 'w', RE.lit 'h', RE.lit 'a', RE.lit 't', RE.lit 's', RE.lit 'a', RE.lit 'p', RE.lit 'p', RE.lit ' ', RE.lit 'm', RE.lit 'e', RE.lit 's', RE.lit 's', RE.lit 'a', RE.lit 'g', RE.lit 'e', RE.opt true (RE.lit 's')] }

/- pattern source: (?:ho |controlla )(?:nuovi )?messaggi (?:su )?whatsapp -/
def reP_whatsapp_check_2 : Pat := { anchored := false, ngroups := 0, re := RE.cat [RE.alt (RE.cat [RE.lit 'h', RE.lit 'o', RE.lit ' ']) (RE.cat [RE.lit 'c', RE.lit 'o', RE.lit 'n', RE.lit 't', RE.lit 'r', RE.lit 'o', RE.lit 'l', RE.lit 'l', RE.lit 'a', RE.lit ' ']), RE.opt true (RE.cat [RE.lit 'n', RE.lit 'u', RE.lit 'o', RE.lit 'v', RE.lit 'i', RE.lit ' ']), RE.lit 'm', RE.lit 'e', RE.lit 's', RE.lit 's', RE.lit 'a', RE.lit 'g', RE.lit 'g', RE.lit 'i', RE.lit ' ', RE.opt true (RE.cat [RE.lit 's', RE.lit 'u', RE.lit ' ']), RE.lit 'w', RE.lit 'h', RE.lit 'a', RE.lit 't', RE.lit 's', RE.lit 'a', RE.lit 'p', RE.lit 'p'] }

/- pattern source: (?:ci sono )?messaggi (?:su )?whatsapp -/
def reP_whatsapp_check_3 : Pat := { anchored := false, ngroups := 0, re := RE.cat [RE.opt true (RE.cat [RE.lit 'c', RE.lit 'i', RE.lit ' ', RE.lit 's', RE.lit 'o', RE.lit 'n', RE.lit 'o', RE.lit ' ']), RE.lit 'm', RE.lit 'e', RE.lit 's', RE.lit 's', RE.lit 'a', RE.lit 'g', RE.lit 'g', RE.lit 'i', RE.lit ' ', RE.opt true (RE.cat [RE.lit 's', RE.lit 'u', RE.lit ' ']), RE.lit 'w', RE.lit 'h', RE.lit 'a', RE.lit 't', RE.lit 's', RE.lit 'a', RE.lit 'p', RE.lit 'p'] }

/- pattern source: read (?:my )?(?:latest |last |recent )?whatsapp (?:messages?)?(?: from (.+))? -/
def reP_whatsapp_read_0 : Pat := { anchored := false, ngroups := 1, re := RE.cat [RE.lit 'r', RE.lit 'e', RE.lit 'a', RE.lit 'd', RE.lit ' ', RE.opt true (RE.cat [RE.lit 'm', RE.lit 'y', RE.lit ' ']), RE.opt true (RE.alt (RE.cat [RE.lit 'l', RE.lit 'a', RE.lit 't', RE.lit 'e', RE.lit 's', RE.lit 't', RE.lit ' ']) (RE.alt (RE.cat [RE.lit 'l', RE.lit 'a', RE.lit 's', RE.lit 't', RE.lit ' ']) (RE.cat [RE.lit 'r', RE.lit 'e', RE.lit 'c', RE.lit 'e', RE.lit 'n', RE.lit 't', RE.lit ' ']))), RE.lit 'w', RE.lit 'h', RE.lit 'a', RE.lit 't', RE.lit 's', RE.lit 'a', RE.lit 'p', RE.lit 'p', RE.lit ' ', RE.opt true (RE.cat [RE.lit 'm', RE.lit 'e', RE.lit 's', RE.lit 's', RE.lit 'a', RE.lit 'g', RE.lit 'e', RE.opt true (RE.lit 's')]), RE.opt true (RE.cat [RE.lit ' ', RE.lit 'f', RE.lit 'r', RE.lit 'o', RE.lit 'm', RE.lit ' ', RE.grp 1 (RE.cat [RE.dot, RE.star true (RE.dot)])])] }

/- pattern source: show me whatsapp messages? from (.+) -/
def reP_whatsapp_read_1 : Pat := { anchored := false, ngroups := 1, re := RE.cat [RE.lit 's', RE.lit 'h', RE.lit 'o', RE.lit 'w', RE.lit ' ', RE.lit 'm', RE.lit 'e', RE.lit ' ', RE.lit 'w', RE.lit 'h', RE.lit 'a', RE.lit 't', RE.lit 's', RE.lit 'a', RE.lit 'p', RE.lit 'p', RE.lit ' ', RE.lit 'm', RE.lit 'e', RE.lit 's', RE.lit 's', RE.lit 'a', RE.lit 'g', RE.lit 'e', RE.opt true (RE.lit 's'), RE.lit ' ', RE.lit 'f', RE.lit 'r', RE.lit 'o', RE.lit 'm', RE.lit ' ', RE.grp 1 (RE.cat [RE.dot, RE.star true (RE.dot)])] }

/- pattern source: leggi (?:i )?(?:ultimi )?messaggi whatsapp(?: di (.+))? -/
def reP_whatsapp_read_2 : Pat := { anchored := false, ngroups := 1, re := RE.cat [RE.lit 'l', RE.lit 'e', RE.lit 'g', RE.lit 'g', RE.lit 'i', RE.lit ' ', RE.opt true (RE.cat [RE.lit 'i', RE.lit ' ']), RE.opt true (RE.cat [RE.lit 'u', RE.lit 'l', RE.lit 't', RE.lit 'i', RE.lit 'm', RE.lit 'i', RE.lit ' ']), RE.lit 'm', RE.lit 'e', RE.lit 's', RE.lit 's', RE.lit 'a', RE.lit 'g', RE.lit 'g', RE.lit 'i', RE.lit ' ', RE.lit 'w', RE.lit 'h', RE.lit 'a', RE.lit 't', RE.lit 's', RE.lit 'a', RE.lit 'p', RE.lit 'p', RE.opt true (RE.cat [RE.lit ' ', RE.lit 'd', RE.lit 'i', RE.lit ' ', RE.grp 1 (RE.cat [RE.dot, RE.star true (RE.dot)])])] }

/- pattern source: mostrami (?:i )?messaggi whatsapp di (.+) -/
def reP_whatsapp_read_3 : Pat := { anchored := false, ngroups := 1, re := RE.cat [RE.lit 'm', RE.lit 'o', RE.lit 's', RE.lit 't', RE.lit 'r', RE.lit 'a', RE.lit 'm', RE.lit 'i', RE.lit ' ', RE.opt true (RE.cat [RE.lit 'i', RE.lit ' ']), RE.lit 'm', RE.lit 'e', RE.lit 's', RE.lit 's', RE.lit 'a', RE.lit 'g', RE.lit 'g', RE.lit 'i', RE.lit ' ', RE.lit 'w', RE.lit 'h', RE.lit 'a', RE.lit 't', RE.lit 's', RE.lit 'a', RE.lit 'p', RE.lit 'p', RE.lit ' ', RE.lit 'd', RE.lit 'i', RE.lit ' ', RE.grp 1 (RE.cat [RE.dot, RE.star true (RE.dot)])] }

/- pattern source: translate (.+?) (?:to|into) (\w+) -/
def reP_translate_0 : Pat := { anchored := false, ngroups := 2, re := RE.cat [RE.lit 't', RE.lit 'r', RE.lit 'a', RE.lit 'n', RE.lit 's', RE.lit 'l', RE.lit 'a', RE.lit 't', RE.lit 'e', RE.lit ' ', RE.grp 1 (RE.cat [RE.dot, RE.star false (RE.dot)]), RE.lit ' ', RE.alt (RE.cat [RE.lit 't', RE.lit 'o']) (RE.cat [RE.lit 'i', RE.lit 'n', RE.lit 't', RE.lit 'o']), RE.lit ' ', RE.grp 2 (RE.cat [RE.cls false [CItem.wcls], RE.star true (RE.cls false [CItem.wcls])])] }

/- pattern source: how do you say (.+?) in (\w+) -/
def reP_translate_1 : Pat := { anchored := false, ngroups := 2, re := RE.cat [RE.lit 'h', RE.lit 'o', RE.lit 'w', RE.lit ' ', RE.lit 'd', RE.lit 'o', RE.lit ' ', RE.lit 'y', RE.lit 'o', RE.lit 'u', RE.lit ' ', RE.lit 's', RE.lit 'a', RE.lit 'y', RE.lit ' ', RE.grp 1 (RE.cat [RE.dot, RE.star false (RE.dot)]), RE.lit ' ', RE.lit 'i', RE.lit 'n', RE.lit ' ', RE.grp 2 (RE.cat [RE.cls false [CItem.wcls], RE.star true (RE.cls false [CItem.wcls])])] }

/- pattern source: traduci (.+?) in (\w+) -/
def reP_translate_2 : Pat := { anchored := false, ngroups := 2, re := RE.cat [RE.lit 't', RE.lit 'r', RE.lit 'a', RE.lit 'd', RE.lit 'u', RE.lit 'c', RE.lit 'i', RE.lit ' ', RE.grp 1 (RE.cat [RE.dot, RE.star false (RE.dot)]), RE.lit ' ', RE.lit 'i', RE.lit 'n', RE.lit ' ', RE.grp 2 (RE.cat [RE.cls false [CItem.wcls], RE.star true (RE.cls false [CItem.wcls])])] }

/- pattern source: come si dice (.+?) in (\w+) -/
def reP_translate_3 : Pat := { anchored := false, ngroups := 2, re := RE.cat [RE.lit 'c', RE.lit 'o', RE.lit 'm', RE.lit 'e', RE.lit ' ', RE.lit 's', RE.lit 'i', RE.lit ' ', RE.lit 'd', RE.lit 'i', RE.lit 'c', RE.lit 'e', RE.lit ' ', RE.grp 1 (RE.cat [RE.dot, RE.star false (RE.dot)]), RE.lit ' ', RE.lit 'i', RE.lit 'n', RE.lit ' ', RE.grp 2 (RE.cat [RE.cls false [CItem.wcls], RE.star true (RE.cls false [CItem.wcls])])] }

/- pattern source: calculate (.+) -/
def reP_calculate_0 : Pat := { anchored := false, ngroups := 1, re := RE.cat [RE.lit 'c', RE.lit 'a', RE.lit 'l', RE.lit 'c', RE.lit 'u', RE.lit 'l', RE.lit 'a', RE.lit 't', RE.lit 'e', RE.lit ' ', RE.grp 1 (RE.cat [RE.dot, RE.star true (RE.dot)])] }

/- pattern source: compute (.+) -/
def reP_calculate_1 : Pat := { anchored := false, ngroups := 1, re := RE.cat [RE.lit 'c', RE.lit 'o', RE.lit 'm', RE.lit 'p', RE.lit 'u', RE.lit 't', RE.lit 'e', RE.lit ' ', RE.grp 1 (RE.cat [RE.dot, RE.star true (RE.dot)])] }

/- pattern source: what(?:'s| is) (\d+[\d\s\+\-\*\/\%\.]+) -/
def reP_calculate_2 : Pat := { anchored := false, ngroups := 1, re := RE.cat [RE.lit 'w', RE.lit 'h', RE.lit 'a', RE.lit 't', RE.alt (RE.cat [RE.lit apos, RE.lit 's']) (RE.cat [RE.lit ' ', RE.lit 'i', RE.lit 's']), RE.lit ' ', RE.grp 1 (RE.cat [RE.cat [RE.cls false [CItem.dcls], RE.star true (RE.cls false [CItem.dcls])], RE.cat [RE.cls false [CItem.dcls, CItem.scls, CItem.ch '+', CItem.ch '-', CItem.ch '*', CItem.ch '/', CItem.ch '%', CItem.ch '.'], RE.star true (RE.cls false [CItem.dcls, CItem.scls, CItem.ch '+', CItem.ch '-', CItem.ch '*', CItem.ch '/', CItem.ch '%', CItem.ch '.'])]])] }

/- pattern source: what(?:'s| is) (\d+)% of (.+) -/
def reP_calculate_3 : Pat := { anchored := false, ngroups := 2, re := RE.cat [RE.lit 'w', RE.lit 'h', RE.lit 'a', RE.lit 't', RE.alt (RE.cat [RE.lit apos, RE.lit 's']) (RE.cat [RE.lit ' ', RE.lit 'i', RE.lit 's']), RE.lit ' ', RE.grp 1 (RE.cat [RE.cls false [CItem.dcls], RE.star true (RE.cls false [CItem.dcls])]), RE.lit '%', RE.lit ' ', RE.lit 'o', RE.lit 'f', RE.lit ' ', RE.grp 2 (RE.cat [RE.dot, RE.star true (RE.dot)])] }

/- pattern source: calcola (.+) -/
def reP_calculate_4 : Pat := { anchored := false, ngroups := 1, re := RE.cat [RE.lit 'c', RE.lit 'a', RE.lit 'l', RE.lit 'c', RE.lit 'o', RE.lit 'l', RE.lit 'a', RE.lit ' ', RE.grp 1 (RE.cat [RE.dot, RE.star true (RE.dot)])] }

/- pattern source: quanto (?:fa|è) (.+) -/
def reP_calculate_5 : Pat := { anchored := false, ngroups := 1, re := RE.cat [RE.lit 'q', RE.lit 'u', RE.lit 'a', RE.lit 'n', RE.lit 't', RE.lit 'o', RE.lit ' ', RE.alt (RE.cat [RE.lit 'f', RE.lit 'a']) (RE.lit 'è'), RE.lit ' ', RE.grp 1 (RE.cat [RE.dot, RE.star true (RE.dot)])] }

/- pattern source: (?:il|la) (\d+(?:\.\d+)?)%\s*(?:di|del) (.+) -/
def reP_calculate_6 : Pat := { anchored := false, ngroups := 2, re := RE.cat [RE.alt (RE.cat [RE.lit 'i', RE.lit 'l']) (RE.cat [RE.lit 'l', RE.lit 'a']), RE.lit ' ', RE.grp 1 (RE.cat [RE.cat [RE.cls false [CItem.dcls], RE.star true (RE.cls false [CItem.dcls])], RE.opt true (RE.cat [RE.lit '.', RE.cat [RE.cls false [CItem.dcls], RE.star true (RE.cls false [CItem.dcls])]])]), RE.lit '%', RE.star true (RE.cls false [CItem.scls]), RE.alt (RE.cat [RE.lit 'd', RE.lit 'i']) (RE.cat [RE.lit 'd', RE.lit 'e', RE.lit 'l']), RE.lit ' ', RE.grp 2 (RE.cat [RE.dot, RE.star true (RE.dot)])] }

/- pattern source: ^(\d+(?:\.\d+)?\s*(?:più|meno|per|diviso)\s*\d+(?:\.\d+)?) -/
def reP_calculate_7 : Pat := { anchored := true, ngroups := 1, re := RE.grp 1 (RE.cat [RE.cat [RE.cls false [CItem.dcls], RE.star true (RE.cls false [CItem.dcls])], RE.opt true (RE.cat [RE.lit '.', RE.cat [RE.cls false [CItem.dcls], RE.star true (RE.cls false [CItem.dcls])]]), RE.star true (RE.cls false [CItem.scls]), RE.alt (RE.cat [RE.lit 'p', RE.lit 'i', RE.lit 'ù']) (RE.alt (RE.cat [RE.lit 'm', RE.lit 'e', RE.lit 'n', RE.lit 'o']) (RE.alt (RE.cat [RE.lit 'p', RE.lit 'e', RE.lit 'r']) (RE.cat [RE.lit 'd', RE.lit 'i', RE.lit 'v', RE.lit 'i', RE.lit 's', RE.lit 'o']))), RE.star true (RE.cls false [CItem.scls]), RE.cat [RE.cls false [CItem.dcls], RE.star true (RE.cls false [CItem.dcls])], RE.opt true (RE.cat [RE.lit '.', RE.cat [RE.cls false [CItem.dcls], RE.star true (RE.cls false [CItem.dcls])]])]) }

/- pattern source: ^([a-z]+\s+(?:plus|minus|times|over|divided by)\s+[a-z]+) -/
def reP_calculate_8 : Pat := { anchored := true, ngroups := 1, re := RE.grp 1 (RE.cat [RE.cat [RE.cls false [CItem.range 'a' 'z'], RE.star true (RE.cls false [CItem.range 'a' 'z'])], RE.cat [RE.cls false [CItem.scls], RE.star true (RE.cls false [CItem.scls])], RE.alt (RE.cat [RE.lit 'p', RE.lit 'l', RE.lit 'u', RE.lit 's']) (RE.alt (RE.cat [RE.lit 'm', RE.lit 'i', RE.lit 'n', RE.lit 'u', RE.lit 's']) (RE.alt (RE.cat [RE.lit 't', RE.lit 'i', RE.lit 'm', RE.lit 'e', RE.lit 's']) (RE.alt (RE.cat [RE.lit 'o', RE.lit 'v', RE.lit 'e', RE.lit 'r']) (RE.cat [RE.lit 'd', RE.lit 'i', RE.lit 'v', RE.lit 'i', RE.lit 'd', RE.lit 'e', RE.lit 'd', RE.lit ' ', RE.lit 'b', RE.lit 'y'])))), RE.cat [RE.cls false [CItem.scls], RE.star true (RE.cls false [CItem.scls])], RE.cat [RE.cls false [CItem.range 'a' 'z'], RE.star true (RE.cls false [CItem.range 'a' 'z'])]]) }

/- pattern source: ^(\d+(?:\.\d+)?\s+divided\s+by\s+\d+(?:\.\d+)?) -/
def reP_calculate_9 : Pat := { anchored := true, ngroups := 1, re := RE.grp 1 (RE.cat [RE.cat [RE.cls false [CItem.dcls], RE.star true (RE.cls false [CItem.dcls])], RE.opt true (RE.cat [RE.lit '.', RE.cat [RE.cls false [CItem.dcls], RE.star true (RE.cls false [CItem.dcls])]]), RE.cat [RE.cls false [CItem.scls], RE.star true (RE.cls false [CItem.scls])], RE.lit 'd', RE.lit 'i', RE.lit 'v', RE.lit 'i', RE.lit 'd', RE.lit 'e', RE.lit 'd', RE.cat [RE.cls false [CItem.scls], RE.star true (RE.cls false [CItem.scls])], RE.lit 'b', RE.lit 'y', RE.cat [RE.cls false [CItem.scls], RE.star true (RE.cls false [CItem.scls])], RE.cat [RE.cls false [CItem.dcls], RE.star true (RE.cls false [CItem.dcls])], RE.opt true (RE.cat [RE.lit '.', RE.cat [RE.cls false [CItem.dcls], RE.star true (RE.cls false [CItem.dcls])]])]) }

/- pattern source: ^(\d+[\d\s\+\-\*\/x×÷\%\.]+\d+) -/
def reP_calculate_10 : Pat := { anchored := true, ngroups := 1, re := RE.grp 1 (RE.cat [RE.cat [RE.cls false [CItem.dcls], RE.star true (RE.cls false [CItem.dcls])], RE.cat [RE.cls false [CItem.dcls, CItem.scls, CItem.ch '+', CItem.ch '-', CItem.ch '*', CItem.ch '/', CItem.ch 'x', CItem.ch '×', CItem.ch '÷', CItem.ch '%', CItem.ch '.'], RE.star true (RE.cls false [CItem.dcls, CItem.scls, CItem.ch '+', CItem.ch '-', CItem.ch '*', CItem.ch '/', CItem.ch 'x', CItem.ch '×', CItem.ch '÷', CItem.ch '%', CItem.ch '.'])], RE.cat [RE.cls false [CItem.dcls], RE.star true (RE.cls false [CItem.dcls])]]) }

/- pattern source: tell me a joke -/
def reP_joke_0 : Pat := { anchored := false, ngroups := 0, re := RE.cat [RE.lit 't', RE.lit 'e', RE.lit 'l', RE.lit 'l', RE.lit ' ', RE.lit 'm', RE.lit 'e', RE.lit ' ', RE.lit 'a', RE.lit ' ', RE.lit 'j', RE.lit 'o', RE.lit 'k', RE.lit 'e'] }

/- pattern source: make me laugh -/
def reP_joke_1 : Pat := { anchored := false, ngroups := 0, re := RE.cat [RE.lit 'm', RE.lit 'a', RE.lit 'k', RE.lit 'e', RE.lit ' ', RE.lit 'm', RE.lit 'e', RE.lit ' ', RE.lit 'l', RE.lit 'a', RE.lit 'u', RE.lit 'g', RE.lit 'h'] }

/- pattern source: (?:say )?something funny -/
def reP_joke_2 : Pat := { anchored := false, ngroups := 0, re := RE.cat [RE.opt true (RE.cat [RE.lit 's', RE.lit 'a', RE.lit 'y', RE.lit ' ']), RE.lit 's', RE.lit 'o', RE.lit 'm', RE.lit 'e', RE.lit 't', RE.lit 'h', RE.lit 'i', RE.lit 'n', RE.lit 'g', RE.lit ' ', RE.lit 'f', RE.lit 'u', RE.lit 'n', RE.lit 'n', RE.lit 'y'] }

/- pattern source: dimmi una battuta -/
def reP_joke_3 : Pat := { anchored := false, ngroups := 0, re := RE.cat [RE.lit 'd', RE.lit 'i', RE.lit 'm', RE.lit 'm', RE.lit 'i', RE.lit ' ', RE.lit 'u', RE.lit 'n', RE.lit 'a', RE.lit ' ', RE.lit 'b', RE.lit 'a', RE.lit 't', RE.lit 't', RE.lit 'u', RE.lit 't', RE.lit 'a'] }

/- pattern source: raccontami (?:una barzelletta|uno scherzo) -/
def reP_joke_4 : Pat := { anchored := false, ngroups := 0, re := RE.cat [RE.lit 'r', RE.lit 'a', RE.lit 'c', RE.lit 'c', RE.lit 'o', RE.lit 'n', RE.lit 't', RE.lit 'a', RE.lit 'm', RE.lit 'i', RE.lit ' ', RE.alt (RE.cat [RE.lit 'u', RE.lit 'n', RE.lit 'a', RE.lit ' ', RE.lit 'b', RE.lit 'a', RE.lit 'r', RE.lit 'z', RE.lit 'e', RE.lit 'l', RE.lit 'l', RE.lit 'e', RE.lit 't', RE.lit 't', RE.lit 'a']) (RE.cat [RE.lit 'u', RE.lit 'n', RE.lit 'o', RE.lit ' ', RE.lit 's', RE.lit 'c', RE.lit 'h', RE.lit 'e', RE.lit 'r', RE.lit 'z', RE.lit 'o'])] }

/- pattern source: fammi ridere -/
def reP_joke_5 : Pat := { anchored := false, ngroups := 0, re := RE.cat [RE.lit 'f', RE.lit 'a', RE.lit 'm', RE.lit 'm', RE.lit 'i', RE.lit ' ', RE.lit 'r', RE.lit 'i', RE.lit 'd', RE.lit 'e', RE.lit 'r', RE.lit 'e'] }

/- pattern source: what'?s? (?:the )?(?:latest )?news -/
def reP_news_0 : Pat := { anchored := false, ngroups := 0, re := RE.cat [RE.lit 'w', RE.lit 'h', RE.lit 'a', RE.lit 't', RE.opt true (RE.lit apos), RE.opt true (RE.lit 's'), RE.lit ' ', RE.opt true (RE.cat [RE.lit 't', RE.lit 'h', RE.lit 'e', RE.lit ' ']), RE.opt true (RE.cat [RE.lit 'l', RE.lit 'a', RE.lit 't', RE.lit 'e', RE.lit 's', RE.lit 't', RE.lit ' ']), RE.lit 'n', RE.lit 'e', RE.lit 'w', RE.lit 's'] }

/- pattern source: (?:give me |tell me )?(?:the )?(?:news|headlines) -/
def reP_news_1 : Pat := { anchored := false, ngroups := 0, re := RE.cat [RE.opt true (RE.alt (RE.cat [RE.lit 'g', RE.lit 'i', RE.lit 'v', RE.lit 'e', RE.lit ' ', RE.lit 'm', RE.lit 'e', RE.lit ' ']) (RE.cat [RE.lit 't', RE.lit 'e', RE.lit 'l', RE.lit 'l', RE.lit ' ', RE.lit 'm', RE.lit 'e', RE.lit ' '])), RE.opt true (RE.cat [RE.lit 't', RE.lit 'h', RE.lit 'e', RE.lit ' ']), RE.alt (RE.cat [RE.lit 'n', RE.lit 'e', RE.lit 'w', RE.lit 's']) (RE.cat [RE.lit 'h', RE.lit 'e', RE.lit 'a', RE.lit 'd', RE.lit 'l', RE.lit 'i', RE.lit 'n', RE.lit 'e', RE.lit 's'])] }

/- pattern source: any news -/
def reP_news_2 : Pat := { anchored := false, ngroups := 0, re := RE.cat [RE.lit 'a', RE.lit 'n', RE.lit 'y', RE.lit ' ', RE.lit 'n', RE.lit 'e', RE.lit 'w', RE.lit 's'] }

/- pattern source: (?:quali sono |dammi )?(?:le )?(?:ultime )?notizie -/
def reP_news_3 : Pat := { anchored := false, ngroups := 0, re := RE.cat [RE.opt true (RE.alt (RE.cat [RE.lit 'q', RE.lit 'u', RE.lit 'a', RE.lit 'l', RE.lit 'i', RE.lit ' ', RE.lit 's', RE.lit 'o', RE.lit 'n', RE.lit 'o', RE.lit ' ']) (RE.cat [RE.lit 'd', RE.lit 'a', RE.lit 'm', RE.lit 'm', RE.lit 'i', RE.lit ' '])), RE.opt true (RE.cat [RE.lit 'l', RE.lit 'e', RE.lit ' ']), RE.opt true (RE.cat [RE.lit 'u', RE.lit 'l', RE.lit 't', RE.lit 'i', RE.lit 'm', RE.lit 'e', RE.lit ' ']), RE.lit 'n', RE.lit 'o', RE.lit 't', RE.lit 'i', RE.lit 'z', RE.lit 'i', RE.lit 'e'] }

/- pattern source: che notizie ci sono -/
def reP_news_4 : Pat := { anchored := false, ngroups := 0, re := RE.cat [RE.lit 'c', RE.lit 'h', RE.lit 'e', RE.lit ' ', RE.lit 'n', RE.lit 'o', RE.lit 't', RE.lit 'i', RE.lit 'z', RE.lit 'i', RE.lit 'e', RE.lit ' ', RE.lit 'c', RE.lit 'i', RE.lit ' ', RE.lit 's', RE.lit 'o', RE.lit 'n', RE.lit 'o'] }

/- pattern source: novità -/
def reP_news_5 : Pat := { anchored := false, ngroups := 0, re := RE.cat [RE.lit 'n', RE.lit 'o', RE.lit 'v', RE.lit 'i', RE.lit 't', RE.lit 'à'] }

/- pattern source: (?:my )?(?:finance |financial )?watchlist -/
def reP_finance_0 : Pat := { anchored := false, ngroups := 0, re := RE.cat [RE.opt true (RE.cat [RE.lit 'm', RE.lit 'y', RE.lit ' ']), RE.opt true (RE.alt (RE.cat [RE.lit 'f', RE.lit 'i', RE.lit 'n', RE.lit 'a', RE.lit 'n', RE.lit 'c', RE.lit 'e', RE.lit ' ']) (RE.cat [RE.lit 'f', RE.lit 'i', RE.lit 'n', RE.lit 'a', RE.lit 'n', RE.lit 'c', RE.lit 'i', RE.lit 'a', RE.lit 'l', RE.lit ' '])), RE.lit 'w', RE.lit 'a', RE.lit 't', RE.lit 'c', RE.lit 'h', RE.lit 'l', RE.lit 'i', RE.lit 's', RE.lit 't'] }

/- pattern source: (?:check |show )?(?:my )?(?:stocks|investments|portfolio) -/
def reP_finance_1 : Pat := { anchored := false, ngroups := 0, re := RE.cat [RE.opt true (RE.alt (RE.cat [RE.lit 'c', RE.lit 'h', RE.lit 'e', RE.lit 'c', RE.lit 'k', RE.lit ' ']) (RE.cat [RE.lit 's', RE.lit 'h', RE.lit 'o', RE.lit 'w', RE.lit ' '])), RE.opt true (RE.cat [RE.lit 'm', RE.lit 'y', RE.lit ' ']), RE.alt (RE.cat [RE.lit 's', RE.lit 't', RE.lit 'o', RE.lit 'c', RE.lit 'k', RE.lit 's']) (RE.alt (RE.cat [RE.lit 'i', RE.lit 'n', RE.lit 'v', RE.lit 'e', RE.lit 's', RE.lit 't', RE.lit 'm', RE.lit 'e', RE.lit 'n', RE.lit 't', RE.lit 's']) (RE.cat [RE.lit 'p', RE.lit 'o', RE.lit 'r', RE.lit 't', RE.lit 'f', RE.lit 'o', RE.lit 'l', RE.lit 'i', RE.lit 'o']))] }

/- pattern source: how(?:'s| are) (?:my )?(?:stocks|investments) -/
def reP_finance_2 : Pat := { anchored := false, ngroups := 0, re := RE.cat [RE.lit 'h', RE.lit 'o', RE.lit 'w', RE.alt (RE.cat [RE.lit apos, RE.lit 's']) (RE.cat [RE.lit ' ', RE.lit 'a', RE.lit 'r', RE.lit 'e']), RE.lit ' ', RE.opt true (RE.cat [RE.lit 'm', RE.lit 'y', RE.lit ' ']), RE.alt (RE.cat [RE.lit 's', RE.lit 't', RE.lit 'o', RE.lit 'c', RE.lit 'k', RE.lit 's']) (RE.cat [RE.lit 'i', RE.lit 'n', RE.lit 'v', RE.lit 'e', RE.lit 's', RE.lit 't', RE.lit 'm', RE.lit 'e', RE.lit 'n', RE.lit 't', RE.lit 's'])] }

/- pattern source: market (?:update|summary) -/
def reP_finance_3 : Pat := { anchored := false, ngroups := 0, re := RE.cat [RE.lit 'm', RE.lit 'a', RE.lit 'r', RE.lit 'k', RE.lit 'e', RE.lit 't', RE.lit ' ', RE.alt (RE.cat [RE.lit 'u', RE.lit 'p', RE.lit 'd', RE.lit 'a', RE.lit 't', RE.lit 'e']) (RE.cat [RE.lit 's', RE.lit 'u', RE.lit 'm', RE.lit 'm', RE.lit 'a', RE.lit 'r', RE.lit 'y'])] }

/- pattern source: (?:i miei )?investimenti -/
def reP_finance_4 : Pat := { anchored := false, ngroups := 0, re := RE.cat [RE.opt true (RE.cat [RE.lit 'i', RE.lit ' ', RE.lit 'm', RE.lit 'i', RE.lit 'e', RE.lit 'i', RE.lit ' ']), RE.lit 'i', RE.lit 'n', RE.lit 'v', RE.lit 'e', RE.lit 's', RE.lit 't', RE.lit 'i', RE.lit 'm', RE.lit 'e', RE.lit 'n', RE.lit 't', RE.lit 'i'] }

/- pattern source: (?:le mie )?azioni -/
def reP_finance_5 : Pat := { anchored := false, ngroups := 0, re := RE.cat [RE.opt true (RE.cat [RE.lit 'l', RE.lit 'e', RE.lit ' ', RE.lit 'm', RE.lit 'i', RE.lit 'e', RE.lit ' ']), RE.lit 'a', RE.lit 'z', RE.lit 'i', RE.lit 'o', RE.lit 'n', RE.lit 'i'] }

/- pattern source: come vanno (?:le azioni|gli investimenti) -/
def reP_finance_6 : Pat := { anchored := false, ngroups := 0, re := RE.cat [RE.lit 'c', RE.lit 'o', RE.lit 'm', RE.lit 'e', RE.lit ' ', RE.lit 'v', RE.lit 'a', RE.lit 'n', RE.lit 'n', RE.lit 'o', RE.lit ' ', RE.alt (RE.cat [RE.lit 'l', RE.lit 'e', RE.lit ' ', RE.lit 'a', RE.lit 'z', RE.lit 'i', RE.lit 'o', RE.lit 'n', RE.lit 'i']) (RE.cat [RE.lit 'g', RE.lit 'l', RE.lit 'i', RE.lit ' ', RE.lit 'i', RE.lit 'n', RE.lit 'v', RE.lit 'e', RE.lit 's', RE.lit 't', RE.lit 'i', RE.lit 'm', RE.lit 'e', RE.lit 'n', RE.lit 't', RE.lit 'i'])] }

/- pattern source: mercati -/
def reP_finance_7 : Pat := { anchored := false, ngroups := 0, re := RE.cat [RE.lit 'm', RE.lit 'e', RE.lit 'r', RE.lit 'c', RE.lit 'a', RE.lit 't', RE.lit 'i'] }

/- pattern source: (?:find |search |show me )?(?:a )?recipe(?:s)? (?:for |with )?(.+) -/
def reP_recipe_search_0 : Pat := { anchored := false, ngroups := 1, re := RE.cat [RE.opt true (RE.alt (RE.cat [RE.lit 'f', RE.lit 'i', RE.lit 'n', RE.lit 'd', RE.lit ' ']) (RE.alt (RE.cat [RE.lit 's', RE.lit 'e', RE.lit 'a', RE.lit 'r', RE.lit 'c', RE.lit 'h', RE.lit ' ']) (RE.cat [RE.lit 's', RE.lit 'h', RE.lit 'o', RE.lit 'w', RE.lit ' ', RE.lit 'm', RE.lit 'e', RE.lit ' ']))), RE.opt true (RE.cat [RE.lit 'a', RE.lit ' ']), RE.lit 'r', RE.lit 'e', RE.lit 'c', RE.lit 'i', RE.lit 'p', RE.lit 'e', RE.opt true (RE.lit 's'), RE.lit ' ', RE.opt true (RE.alt (RE.cat [RE.lit 'f', RE.lit 'o', RE.lit 'r', RE.lit ' ']) (RE.cat [RE.lit 'w', RE.lit 'i', RE.lit 't', RE.lit 'h', RE.lit ' '])), RE.grp 1 (RE.cat [RE.dot, RE.star true (RE.dot)])] }

/- pattern source: how (?:do i |to )?(?:make|cook) (.+) -/
def reP_recipe_search_1 : Pat := { anchored := false, ngroups := 1, re := RE.cat [RE.lit 'h', RE.lit 'o', RE.lit 'w', RE.lit ' ', RE.opt true (RE.alt (RE.cat [RE.lit 'd', RE.lit 'o', RE.lit ' ', RE.lit 'i', RE.lit ' ']) (RE.cat [RE.lit 't', RE.lit 'o', RE.lit ' '])), RE.alt (RE.cat [RE.lit 'm', RE.lit 'a', RE.lit 'k', RE.lit 'e']) (RE.cat [RE.lit 'c', RE.lit 'o', RE.lit 'o', RE.lit 'k']), RE.lit ' ', RE.grp 1 (RE.cat [RE.dot, RE.star true (RE.dot)])] }

/- pattern source: (?:i want to |i'll )(?:make|cook) (.+) -/
def reP_recipe_search_2 : Pat := { anchored := false, ngroups := 1, re := RE.cat [RE.alt (RE.cat [RE.lit 'i', RE.lit ' ', RE.lit 'w', RE.lit 'a', RE.lit 'n', RE.lit 't', RE.lit ' ', RE.lit 't', RE.lit 'o', RE.lit ' ']) (RE.cat [RE.lit 'i', RE.lit apos, RE.lit 'l', RE.lit 'l', RE.lit ' ']), RE.alt (RE.cat [RE.lit 'm', RE.lit 'a', RE.lit 'k', RE.lit 'e']) (RE.cat [RE.lit 'c', RE.lit 'o', RE.lit 'o', RE.lit 'k']), RE.lit ' ', RE.grp 1 (RE.cat [RE.dot, RE.star true (RE.dot)])] }

/- pattern source: (?:cerca |trova |mostrami )?(?:una )?ricetta (?:per |di |con )?(.+) -/
def reP_recipe_search_3 : Pat := { anchored := false, ngroups := 1, re := RE.cat [RE.opt true (RE.alt (RE.cat [RE.lit 'c', RE.lit 'e', RE.lit 'r', RE.lit 'c', RE.lit 'a', RE.lit ' ']) (RE.alt (RE.cat [RE.lit 't', RE.lit 'r', RE.lit 'o', RE.lit 'v', RE.lit 'a', RE.lit ' ']) (RE.cat [RE.lit 'm', RE.lit 'o', RE.lit 's', RE.lit 't', RE.lit 'r', RE.lit 'a', RE.lit 'm', RE.lit 'i', RE.lit ' ']))), RE.opt true (RE.cat [RE.lit 'u', RE.lit 'n', RE.lit 'a', RE.lit ' ']), RE.lit 'r', RE.lit 'i', RE.lit 'c', RE.lit 'e', RE.lit 't', RE.lit 't', RE.lit 'a', RE.lit ' ', RE.opt true (RE.alt (RE.cat [RE.lit 'p', RE.lit 'e', RE.lit 'r', RE.lit ' ']) (RE.alt (RE.cat [RE.lit 'd', RE.lit 'i', RE.lit ' ']) (RE.cat [RE.lit 'c', RE.lit 'o', RE.lit 'n', RE.lit ' ']))), RE.grp 1 (RE.cat [RE.dot, RE.star true (RE.dot)])] }

/- pattern source: come (?:si )?(?:fa|cucina|prepara) (.+) -/
def reP_recipe_search_4 : Pat := { anchored := false, ngroups := 1, re := RE.cat [RE.lit 'c', RE.lit 'o', RE.lit 'm', RE.lit 'e', RE.lit ' ', RE.opt true (RE.cat [RE.lit 's', RE.lit 'i', RE.lit ' ']), RE.alt (RE.cat [RE.lit 'f', RE.lit 'a']) (RE.alt (RE.cat [RE.lit 'c', RE.lit 'u', RE.lit 'c', RE.lit 'i', RE.lit 'n', RE.lit 'a']) (RE.cat [RE.lit 'p', RE.lit 'r', RE.lit 'e', RE.lit 'p', RE.lit 'a', RE.lit 'r', RE.lit 'a'])), RE.lit ' ', RE.grp 1 (RE.cat [RE.dot, RE.star true (RE.dot)])] }

/- pattern source: voglio (?:fare|cucinare|preparare) (.+) -/
def reP_recipe_search_5 : Pat := { anchored := false, ngroups := 1, re := RE.cat [RE.lit 'v', RE.lit 'o', RE.lit 'g', RE.lit 'l', RE.lit 'i', RE.lit 'o', RE.lit ' ', RE.alt (RE.cat [RE.lit 'f', RE.lit 'a', RE.lit 'r', RE.lit 'e']) (RE.alt (RE.cat [RE.lit 'c', RE.lit 'u', RE.lit 'c', RE.lit 'i', RE.lit 'n', RE.lit 'a', RE.lit 'r', RE.lit 'e']) (RE.cat [RE.lit 'p', RE.lit 'r', RE.lit 'e', RE.lit 'p', RE.lit 'a', RE.lit 'r', RE.lit 'a', RE.lit 'r', RE.lit 'e'])), RE.lit ' ', RE.grp 1 (RE.cat [RE.dot, RE.star true (RE.dot)])] }

/- pattern source: (?:give me |suggest |show me )?(?:a )?random recipe -/
def reP_recipe_random_0 : Pat := { anchored := false, ngroups := 0, re := RE.cat [RE.opt true (RE.alt (RE.cat [RE.lit 'g', RE.lit 'i', RE.lit 'v', RE.lit 'e', RE.lit ' ', RE.lit 'm', RE.lit 'e', RE.lit ' ']) (RE.alt (RE.cat [RE.lit 's', RE.lit 'u', RE.lit 'g', RE.lit 'g', RE.lit 'e', RE.lit 's', RE.lit 't', RE.lit ' ']) (RE.cat [RE.lit 's', RE.lit 'h', RE.lit 'o', RE.lit 'w', RE.lit ' ', RE.lit 'm', RE.lit 'e', RE.lit ' ']))), RE.opt true (RE.cat [RE.lit 'a', RE.lit ' ']), RE.lit 'r', RE.lit 'a', RE.lit 'n', RE.lit 'd', RE.lit 'o', RE.lit 'm', RE.lit ' ', RE.lit 'r', RE.lit 'e', RE.lit 'c', RE.lit 'i', RE.lit 'p', RE.lit 'e'] }

/- pattern source: (?:what|something) (?:should i |can i |to )(?:cook|make|eat) -/
def reP_recipe_random_1 : Pat := { anchored := false, ngroups := 0, re := RE.cat [RE.alt (RE.cat [RE.lit 'w', RE.lit 'h', RE.lit 'a', RE.lit 't']) (RE.cat [RE.lit 's', RE.lit 'o', RE.lit 'm', RE.lit 'e', RE.lit 't', RE.lit 'h', RE.lit 'i', RE.lit 'n', RE.lit 'g']), RE.lit ' ', RE.alt (RE.cat [RE.lit 's', RE.lit 'h', RE.lit 'o', RE.lit 'u', RE.lit 'l', RE.lit 'd', RE.lit ' ', RE.lit 'i', RE.lit ' ']) (RE.alt (RE.cat [RE.lit 'c', RE.lit 'a', RE.lit 'n', RE.lit ' ', RE.lit 'i', RE.lit ' ']) (RE.cat [RE.lit 't', RE.lit 'o', RE.lit ' '])), RE.alt (RE.cat [RE.lit 'c', RE.lit 'o', RE.lit 'o', RE.lit 'k']) (RE.alt (RE.cat [RE.lit 'm', RE.lit 'a', RE.lit 'k', RE.lit 'e']) (RE.cat [RE.lit 'e', RE.lit 'a', RE.lit 't']))] }

/- pattern source: recipe idea -/
def reP_recipe_random_2 : Pat := { anchored := false, ngroups := 0, re := RE.cat [RE.lit 'r', RE.lit 'e', RE.lit 'c', RE.lit 'i', RE.lit 'p', RE.lit 'e', RE.lit ' ', RE.lit 'i', RE.lit 'd', RE.lit 'e', RE.lit 'a'] }

/- pattern source: ricetta (?:a )?caso -/
def reP_recipe_random_3 : Pat := { anchored := false, ngroups := 0, re := RE.cat [RE.lit 'r', RE.lit 'i', RE.lit 'c', RE.lit 'e', RE.lit 't', RE.lit 't', RE.lit 'a', RE.lit ' ', RE.opt true (RE.cat [RE.lit 'a', RE.lit ' ']), RE.lit 'c', RE.lit 'a', RE.lit 's', RE.lit 'o'] }

/- pattern source: (?:cosa |che cosa )?(?:posso |dovrei )?(?:cucinare|preparare|mangiare) -/
def reP_recipe_random_4 : Pat := { anchored := false, ngroups := 0, re := RE.cat [RE.opt true (RE.alt (RE.cat [RE.lit 'c', RE.lit 'o', RE.lit 's', RE.lit 'a', RE.lit ' ']) (RE.cat [RE.lit 'c', RE.lit 'h', RE.lit 'e', RE.lit ' ', RE.lit 'c', RE.lit 'o', RE.lit 's', RE.lit 'a', RE.lit ' '])), RE.opt true (RE.alt (RE.cat [RE.lit 'p', RE.lit 'o', RE.lit 's', RE.lit 's', RE.lit 'o', RE.lit ' ']) (RE.cat [RE.lit 'd', RE.lit 'o', RE.lit 'v', RE.lit 'r', RE.lit 'e', RE.lit 'i', RE.lit ' '])), RE.alt (RE.cat [RE.lit 'c', RE.lit 'u', RE.lit 'c', RE.lit 'i', RE.lit 'n', RE.lit 'a', RE.lit 'r', RE.lit 'e']) (RE.alt (RE.cat [RE.lit 'p', RE.lit 'r', RE.lit 'e', RE.lit 'p', RE.lit 'a', RE.lit 'r', RE.lit 'a', RE.lit 'r', RE.lit 'e']) (RE.cat [RE.lit 'm', RE.lit 'a', RE.lit 'n', RE.lit 'g', RE.lit 'i', RE.lit 'a', RE.lit 'r', RE.lit 'e']))] }

/- pattern source: suggerimento ricetta -/
def reP_recipe_random_5 : Pat := { anchored := false, ngroups := 0, re := RE.cat [RE.lit 's', RE.lit 'u', RE.lit 'g', RE.lit 'g', RE.lit 'e', RE.lit 'r', RE.lit 'i', RE.lit 'm', RE.lit 'e', RE.lit 'n', RE.lit 't', RE.lit 'o', RE.lit ' ', RE.lit 'r', RE.lit 'i', RE.lit 'c', RE.lit 'e', RE.lit 't', RE.lit 't', RE.lit 'a'] }

/- pattern source: (?:get to|arrive at) (.+?) (?:by|at) (\d{1,2}(?::\d{2})?(?: ?(?:am|pm))?)(?: by car)? -/
def reP_transport_car_0 : Pat := { anchored := false, ngroups := 2, re := RE.cat [RE.alt (RE.cat [RE.lit 'g', RE.lit 'e', RE.lit 't', RE.lit ' ', RE.lit 't', RE.lit 'o']) (RE.cat [RE.lit 'a', RE.lit 'r', RE.lit 'r', RE.lit 'i', RE.lit 'v', RE.lit 'e', RE.lit ' ', RE.lit 'a', RE.lit 't']), RE.lit ' ', RE.grp 1 (RE.cat [RE.dot, RE.star false (RE.dot)]), RE.lit ' ', RE.alt (RE.cat [RE.lit 'b', RE.lit 'y']) (RE.cat [RE.lit 'a', RE.lit 't']), RE.lit ' ', RE.grp 2 (RE.cat [RE.cat [RE.cls false [CItem.dcls], RE.opt true (RE.cat [RE.cls false [CItem.dcls], RE.eps])], RE.opt true (RE.cat [RE.lit ':', RE.cat [RE.cls false [CItem.dcls], RE.cat [RE.cls false [CItem.dcls], RE.eps]]]), RE.opt true (RE.cat [RE.opt true (RE.lit ' '), RE.alt (RE.cat [RE.lit 'a', RE.lit 'm']) (RE.cat [RE.lit 'p', RE.lit 'm'])])]), RE.opt true (RE.cat [RE.lit ' ', RE.lit 'b', RE.lit 'y', RE.lit ' ', RE.lit 'c', RE.lit 'a', RE.lit 'r'])] }

/- pattern source: traffic to (.+?) (?:to arrive )?(?:by|at) (\d{1,2}(?::\d{2})?(?: ?(?:am|pm))?) -/
def reP_transport_car_1 : Pat := { anchored := false, ngroups := 2, re := RE.cat [RE.lit 't', RE.lit 'r', RE.lit 'a', RE.lit 'f', RE.lit 'f', RE.lit 'i', RE.lit 'c', RE.lit ' ', RE.lit 't', RE.lit 'o', RE.lit ' ', RE.grp 1 (RE.cat [RE.dot, RE.star false (RE.dot)]), RE.lit ' ', RE.opt true (RE.cat [RE.lit 't', RE.lit 'o', RE.lit ' ', RE.lit 'a', RE.lit 'r', RE.lit 'r', RE.lit 'i', RE.lit 'v', RE.lit 'e', RE.lit ' ']), RE.alt (RE.cat [RE.lit 'b', RE.lit 'y']) (RE.cat [RE.lit 'a', RE.lit 't']), RE.lit ' ', RE.grp 2 (RE.cat [RE.cat [RE.cls false [CItem.dcls], RE.opt true (RE.cat [RE.cls false [CItem.dcls], RE.eps])], RE.opt true (RE.cat [RE.lit ':', RE.cat [RE.cls false [CItem.dcls], RE.cat [RE.cls false [CItem.dcls], RE.eps]]]), RE.opt true (RE.cat [RE.opt true (RE.lit ' '), RE.alt (RE.cat [RE.lit 'a', RE.lit 'm']) (RE.cat [RE.lit 'p', RE.lit 'm'])])])] }

/- pattern source: how long (?:to get )?to (.+?) (?:by car)? -/
def reP_transport_car_2 : Pat := { anchored := false, ngroups := 1, re := RE.cat [RE.lit 'h', RE.lit 'o', RE.lit 'w', RE.lit ' ', RE.lit 'l', RE.lit 'o', RE.lit 'n', RE.lit 'g', RE.lit ' ', RE.opt true (RE.cat [RE.lit 't', RE.lit 'o', RE.lit ' ', RE.lit 'g', RE.lit 'e', RE.lit 't', RE.lit ' ']), RE.lit 't', RE.lit 'o', RE.lit ' ', RE.grp 1 (RE.cat [RE.dot, RE.star false (RE.dot)]), RE.lit ' ', RE.opt true (RE.cat [RE.lit 'b', RE.lit 'y', RE.lit ' ', RE.lit 'c', RE.lit 'a', RE.lit 'r'])] }

/- pattern source: (?:driving )?(?:time|traffic) to (.+) -/
def reP_transport_car_3 : Pat := { anchored := false, ngroups := 1, re := RE.cat [RE.opt true (RE.cat [RE.lit 'd', RE.lit 'r', RE.lit 'i', RE.lit 'v', RE.lit 'i', RE.lit 'n', RE.lit 'g', RE.lit ' ']), RE.alt (RE.cat [RE.lit 't', RE.lit 'i', RE.lit 'm', RE.lit 'e']) (RE.cat [RE.lit 't', RE.lit 'r', RE.lit 'a', RE.lit 'f', RE.lit 'f', RE.lit 'i', RE.lit 'c']), RE.lit ' ', RE.lit 't', RE.lit 'o', RE.lit ' ', RE.grp 1 (RE.cat [RE.dot, RE.star true (RE.dot)])] }

/- pattern source: how's (?:the )?traffic to (.+) -/
def reP_transport_car_4 : Pat := { anchored := false, ngroups := 1, re := RE.cat [RE.lit 'h', RE.lit 'o', RE.lit 'w', RE.lit apos, RE.lit 's', RE.lit ' ', RE.opt true (RE.cat [RE.lit 't', RE.lit 'h', RE.lit 'e', RE.lit ' ']), RE.lit 't', RE.lit 'r', RE.lit 'a', RE.lit 'f', RE.lit 'f', RE.lit 'i', RE.lit 'c', RE.lit ' ', RE.lit 't', RE.lit 'o', RE.lit ' ', RE.grp 1 (RE.cat [RE.dot, RE.star true (RE.dot)])] }

/- pattern source: route to (.+) -/
def reP_transport_car_5 : Pat := { anchored := false, ngroups := 1, re := RE.cat [RE.lit 'r', RE.lit 'o', RE.lit 'u', RE.lit 't', RE.lit 'e', RE.lit ' ', RE.lit 't', RE.lit 'o', RE.lit ' ', RE.grp 1 (RE.cat [RE.dot, RE.star true (RE.dot)])] }

/- pattern source: arrivare a (.+?) (?:alle|per le) (\d{1,2}(?::\d{2})?)(?: in macchina)? -/
def reP_transport_car_6 : Pat := { anchored := false, ngroups := 2, re := RE.cat [RE.lit 'a', RE.lit 'r', RE.lit 'r', RE.lit 'i', RE.lit 'v', RE.lit 'a', RE.lit 'r', RE.lit 'e', RE.lit ' ', RE.lit 'a', RE.lit ' ', RE.grp 1 (RE.cat [RE.dot, RE.star false (RE.dot)]), RE.lit ' ', RE.alt (RE.cat [RE.lit 'a', RE.lit 'l', RE.lit 'l', RE.lit 'e']) (RE.cat [RE.lit 'p', RE.lit 'e', RE.lit 'r', RE.lit ' ', RE.lit 'l', RE.lit 'e']), RE.lit ' ', RE.grp 2 (RE.cat [RE.cat [RE.cls false [CItem.dcls], RE.opt true (RE.cat [RE.cls false [CItem.dcls], RE.eps])], RE.opt true (RE.cat [RE.lit ':', RE.cat [RE.cls false [CItem.dcls], RE.cat [RE.cls false [CItem.dcls], RE.eps]]])]), RE.opt true (RE.cat [RE.lit ' ', RE.lit 'i', RE.lit 'n', RE.lit ' ', RE.lit 'm', RE.lit 'a', RE.lit 'c', RE.lit 'c', RE.lit 'h', RE.lit 'i', RE.lit 'n', RE.lit 'a'])] }

/- pattern source: traffico (?:per |verso )?(.+?) per arrivare alle (\d{1,2}(?::\d{2})?) -/
def reP_transport_car_7 : Pat := { anchored := false, ngroups := 2, re := RE.cat [RE.lit 't', RE.lit 'r', RE.lit 'a', RE.lit 'f', RE.lit 'f', RE.lit 'i', RE.lit 'c', RE.lit 'o', RE.lit ' ', RE.opt true (RE.alt (RE.cat [RE.lit 'p', RE.lit 'e', RE.lit 'r', RE.lit ' ']) (RE.cat [RE.lit 'v', RE.lit 'e', RE.lit 'r', RE.lit 's', RE.lit 'o', RE.lit ' '])), RE.grp 1 (RE.cat [RE.dot, RE.star false (RE.dot)]), RE.lit ' ', RE.lit 'p', RE.lit 'e', RE.lit 'r', RE.lit ' ', RE.lit 'a', RE.lit 'r', RE.lit 'r', RE.lit 'i', RE.lit 'v', RE.lit 'a', RE.lit 'r', RE.lit 'e', RE.lit ' ', RE.lit 'a', RE.lit 'l', RE.lit 'l', RE.lit 'e', RE.lit ' ', RE.grp 2 (RE.cat [RE.cat [RE.cls false [CItem.dcls], RE.opt true (RE.cat [RE.cls false [CItem.dcls], RE.eps])], RE.opt true (RE.cat [RE.lit ':', RE.cat [RE.cls false [CItem.dcls], RE.cat [RE.cls false [CItem.dcls], RE.eps]]])])] }

/- pattern source: quanto (?:ci vuole|tempo) per (?:andare a |arrivare a )?(.+?)(?: in macchina)? -/
def reP_transport_car_8 : Pat := { anchored := false, ngroups := 1, re := RE.cat [RE.lit 'q', RE.lit 'u', RE.lit 'a', RE.lit 'n', RE.lit 't', RE.lit 'o', RE.lit ' ', RE.alt (RE.cat [RE.lit 'c', RE.lit 'i', RE.lit ' ', RE.lit 'v', RE.lit 'u', RE.lit 'o', RE.lit 'l', RE.lit 'e']) (RE.cat [RE.lit 't', RE.lit 'e', RE.lit 'm', RE.lit 'p', RE.lit 'o']), RE.lit ' ', RE.lit 'p', RE.lit 'e', RE.lit 'r', RE.lit ' ', RE.opt true (RE.alt (RE.cat [RE.lit 'a', RE.lit 'n', RE.lit 'd', RE.lit 'a', RE.lit 'r', RE.lit 'e', RE.lit ' ', RE.lit 'a', RE.lit ' ']) (RE.cat [RE.lit 'a', RE.lit 'r', RE.lit 'r', RE.lit 'i', RE.lit 'v', RE.lit 'a', RE.lit 'r', RE.lit 'e', RE.lit ' ', RE.lit 'a', RE.lit ' '])), RE.grp 1 (RE.cat [RE.dot, RE.star false (RE.dot)]), RE.opt true (RE.cat [RE.lit ' ', RE.lit 'i', RE.lit 'n', RE.lit ' ', RE.lit 'm', RE.lit 'a', RE.lit 'c', RE.lit 'c', RE.lit 'h', RE.lit 'i', RE.lit 'n', RE.lit 'a'])] }

/- pattern source: traffico (?:per |verso )?(.+) -/
def reP_transport_car_9 : Pat := { anchored := false, ngroups := 1, re := RE.cat [RE.lit 't', RE.lit 'r', RE.lit 'a', RE.lit 'f', RE.lit 'f', RE.lit 'i', RE.lit 'c', RE.lit 'o', RE.lit ' ', RE.opt true (RE.alt (RE.cat [RE.lit 'p', RE.lit 'e', RE.lit 'r', RE.lit ' ']) (RE.cat [RE.lit 'v', RE.lit 'e', RE.lit 'r', RE.lit 's', RE.lit 'o', RE.lit ' '])), RE.grp 1 (RE.cat [RE.dot, RE.star true (RE.dot)])] }

/- pattern source: strada per (.+) -/
def reP_transport_car_10 : Pat := { anchored := false, ngroups := 1, re := RE.cat [RE.lit 's', RE.lit 't', RE.lit 'r', RE.lit 'a', RE.lit 'd', RE.lit 'a', RE.lit ' ', RE.lit 'p', RE.lit 'e', RE.lit 'r', RE.lit ' ', RE.grp 1 (RE.cat [RE.dot, RE.star true (RE.dot)])] }

/- pattern source: (?:get to|arrive at) (.+?) (?:by|at) (\d{1,2}(?::\d{2})?(?: ?(?:am|pm))?) (?:by )?(?:bus|train|public (?:transit|transport)) -/
def reP_transport_public_0 : Pat := { anchored := false, ngroups := 2, re := RE.cat [RE.alt (RE.cat [RE.lit 'g', RE.lit 'e', RE.lit 't', RE.lit ' ', RE.lit 't', RE.lit 'o']) (RE.cat [RE.lit 'a', RE.lit 'r', RE.lit 'r', RE.lit 'i', RE.lit 'v', RE.lit 'e', RE.lit ' ', RE.lit 'a', RE.lit 't']), RE.lit ' ', RE.grp 1 (RE.cat [RE.dot, RE.star false (RE.dot)]), RE.lit ' ', RE.alt (RE.cat [RE.lit 'b', RE.lit 'y']) (RE.cat [RE.lit 'a', RE.lit 't']), RE.lit ' ', RE.grp 2 (RE.cat [RE.cat [RE.cls false [CItem.dcls], RE.opt true (RE.cat [RE.cls false [CItem.dcls], RE.eps])], RE.opt true (RE.cat [RE.lit ':', RE.cat [RE.cls false [CItem.dcls], RE.cat [RE.cls false [CItem.dcls], RE.eps]]]), RE.opt true (RE.cat [RE.opt true (RE.lit ' '), RE.alt (RE.cat [RE.lit 'a', RE.lit 'm']) (RE.cat [RE.lit 'p', RE.lit 'm'])])]), RE.lit ' ', RE.opt true (RE.cat [RE.lit 'b', RE.lit 'y', RE.lit ' ']), RE.alt (RE.cat [RE.lit 'b', RE.lit 'u', RE.lit 's']) (RE.alt (RE.cat [RE.lit 't', RE.lit 'r', RE.lit 'a', RE.lit 'i', RE.lit 'n']) (RE.cat [RE.lit 'p', RE.lit 'u', RE.lit 'b', RE.lit 'l', RE.lit 'i', RE.lit 'c', RE.lit ' ', RE.alt (RE.cat [RE.lit 't', RE.lit 'r', RE.lit 'a', RE.lit 'n', RE.lit 's', RE.lit 'i', RE.lit 't']) (RE.cat [RE.lit 't', RE.lit 'r', RE.lit 'a', RE.lit 'n', RE.lit 's', RE.lit 'p', RE.lit 'o', RE.lit 'r', RE.lit 't'])]))] }

/- pattern source: when (?:should i |do i need to |to )leave (?:for |to get to )?(.+?) (?:by|at) (\d{1,2}(?::\d{2})?(?: ?(?:am|pm))?) -/
def reP_transport_public_1 : Pat := { anchored := false, ngroups := 2, re := RE.cat [RE.lit 'w', RE.lit 'h', RE.lit 'e', RE.lit 'n', RE.lit ' ', RE.alt (RE.cat [RE.lit 's', RE.lit 'h', RE.lit 'o', RE.lit 'u', RE.lit 'l', RE.lit 'd', RE.lit ' ', RE.lit 'i', RE.lit ' ']) (RE.alt (RE.cat [RE.lit 'd', RE.lit 'o', RE.lit ' ', RE.lit 'i', RE.lit ' ', RE.lit 'n', RE.lit 'e', RE.lit 'e', RE.lit 'd', RE.lit ' ', RE.lit 't', RE.lit 'o', RE.lit ' ']) (RE.cat [RE.lit 't', RE.lit 'o', RE.lit ' '])), RE.lit 'l', RE.lit 'e', RE.lit 'a', RE.lit 'v', RE.lit 'e', RE.lit ' ', RE.opt true (RE.alt (RE.cat [RE.lit 'f', RE.lit 'o', RE.lit 'r', RE.lit ' ']) (RE.cat [RE.lit 't', RE.lit 'o', RE.lit ' ', RE.lit 'g', RE.lit 'e', RE.lit 't', RE.lit ' ', RE.lit 't', RE.lit 'o', RE.lit ' '])), RE.grp 1 (RE.cat [RE.dot, RE.star false (RE.dot)]), RE.lit ' ', RE.alt (RE.cat [RE.lit 'b', RE.lit 'y']) (RE.cat [RE.lit 'a', RE.lit 't']), RE.lit ' ', RE.grp 2 (RE.cat [RE.cat [RE.cls false [CItem.dcls], RE.opt true (RE.cat [RE.cls false [CItem.dcls], RE.eps])], RE.opt true (RE.cat [RE.lit ':', RE.cat [RE.cls false [CItem.dcls], RE.cat [RE.cls false [CItem.dcls], RE.eps]]]), RE.opt true (RE.cat [RE.opt true (RE.lit ' '), RE.alt (RE.cat [RE.lit 'a', RE.lit 'm']) (RE.cat [RE.lit 'p', RE.lit 'm'])])])] }

/- pattern source: (?:public )?(?:transit|transport|bus|train) to (.+?) (?:by|at) (\d{1,2}(?::\d{2})?(?: ?(?:am|pm))?) -/
def reP_transport_public_2 : Pat := { anchored := false, ngroups := 2, re := RE.cat [RE.opt true (RE.cat [RE.lit 'p', RE.lit 'u', RE.lit 'b', RE.lit 'l', RE.lit 'i', RE.lit 'c', RE.lit ' ']), RE.alt (RE.cat [RE.lit 't', RE.lit 'r', RE.lit 'a', RE.lit 'n', RE.lit 's', RE.lit 'i', RE.lit 't']) (RE.alt (RE.cat [RE.lit 't', RE.lit 'r', RE.lit 'a', RE.lit 'n', RE.lit 's', RE.lit 'p', RE.lit 'o', RE.lit 'r', RE.lit 't']) (RE.alt (RE.cat [RE.lit 'b', RE.lit 'u', RE.lit 's']) (RE.cat [RE.lit 't', RE.lit 'r', RE.lit 'a', RE.lit 'i', RE.lit 'n']))), RE.lit ' ', RE.lit 't', RE.lit 'o', RE.lit ' ', RE.grp 1 (RE.cat [RE.dot, RE.star false (RE.dot)]), RE.lit ' ', RE.alt (RE.cat [RE.lit 'b', RE.lit 'y']) (RE.cat [RE.lit 'a', RE.lit 't']), RE.lit ' ', RE.grp 2 (RE.cat [RE.cat [RE.cls false [CItem.dcls], RE.opt true (RE.cat [RE.cls false [CItem.dcls], RE.eps])], RE.opt true (RE.cat [RE.lit ':', RE.cat [RE.cls false [CItem.dcls], RE.cat [RE.cls false [CItem.dcls], RE.eps]]]), RE.opt true (RE.cat [RE.opt true (RE.lit ' '), RE.alt (RE.cat [RE.lit 'a', RE.lit 'm']) (RE.cat [RE.lit 'p', RE.lit 'm'])])])] }

/- pattern source: (?:public )?(?:transit|transport|bus|train) to (.+) -/
def reP_transport_public_3 : Pat := { anchored := false, ngroups := 1, re := RE.cat [RE.opt true (RE.cat [RE.lit 'p', RE.lit 'u', RE.lit 'b', RE.lit 'l', RE.lit 'i', RE.lit 'c', RE.lit ' ']), RE.alt (RE.cat [RE.lit 't', RE.lit 'r', RE.lit 'a', RE.lit 'n', RE.lit 's', RE.lit 'i', RE.lit 't']) (RE.alt (RE.cat [RE.lit 't', RE.lit 'r', RE.lit 'a', RE.lit 'n', RE.lit 's', RE.lit 'p', RE.lit 'o', RE.lit 'r', RE.lit 't']) (RE.alt (RE.cat [RE.lit 'b', RE.lit 'u', RE.lit 's']) (RE.cat [RE.lit 't', RE.lit 'r', RE.lit 'a', RE.lit 'i', RE.lit 'n']))), RE.lit ' ', RE.lit 't', RE.lit 'o', RE.lit ' ', RE.grp 1 (RE.cat [RE.dot, RE.star true (RE.dot)])] }

/- pattern source: how (?:do i |can i |to )get to (.+?)(?: by (?:bus|train|public transport))? -/
def reP_transport_public_4 : Pat := { anchored := false, ngroups := 1, re := RE.cat [RE.lit 'h', RE.lit 'o', RE.lit 'w', RE.lit ' ', RE.alt (RE.cat [RE.lit 'd', RE.lit 'o', RE.lit ' ', RE.lit 'i', RE.lit ' ']) (RE.alt (RE.cat [RE.lit 'c', RE.lit 'a', RE.lit 'n', RE.lit ' ', RE.lit 'i', RE.lit ' ']) (RE.cat [RE.lit 't', RE.lit 'o', RE.lit ' '])), RE.lit 'g', RE.lit 'e', RE.lit 't', RE.lit ' ', RE.lit 't', RE.lit 'o', RE.lit ' ', RE.grp 1 (RE.cat [RE.dot, RE.star false (RE.dot)]), RE.opt true (RE.cat [RE.lit ' ', RE.lit 'b', RE.lit 'y', RE.lit ' ', RE.alt (RE.cat [RE.lit 'b', RE.lit 'u', RE.lit 's']) (RE.alt (RE.cat [RE.lit 't', RE.lit 'r', RE.lit 'a', RE.lit 'i', RE.lit 'n']) (RE.cat [RE.lit 'p', RE.lit 'u', RE.lit 'b', RE.lit 'l', RE.lit 'i', RE.lit 'c', RE.lit ' ', RE.lit 't', RE.lit 'r', RE.lit 'a', RE.lit 'n', RE.lit 's', RE.lit 'p', RE.lit 'o', RE.lit 'r', RE.lit 't']))])] }

/- pattern source: when (?:should i |do i need to )leave (?:for |to get to )?(.+?)(?:\?)?$ -/
def reP_transport_public_5 : Pat := { anchored := false, ngroups := 1, re := RE.cat [RE.lit 'w', RE.lit 'h', RE.lit 'e', RE.lit 'n', RE.lit ' ', RE.alt (RE.cat [RE.lit 's', RE.lit 'h', RE.lit 'o', RE.lit 'u', RE.lit 'l', RE.lit 'd', RE.lit ' ', RE.lit 'i', RE.lit ' ']) (RE.cat [RE.lit 'd', RE.lit 'o', RE.lit ' ', RE.lit 'i', RE.lit ' ', RE.lit 'n', RE.lit 'e', RE.lit 'e', RE.lit 'd', RE.lit ' ', RE.lit 't', RE.lit 'o', RE.lit ' ']), RE.lit 'l', RE.lit 'e', RE.lit 'a', RE.lit 'v', RE.lit 'e', RE.lit ' ', RE.opt true (RE.alt (RE.cat [RE.lit 'f', RE.lit 'o', RE.lit 'r', RE.lit ' ']) (RE.cat [RE.lit 't', RE.lit 'o', RE.lit ' ', RE.lit 'g', RE.lit 'e', RE.lit 't', RE.lit ' ', RE.lit 't', RE.lit 'o', RE.lit ' '])), RE.grp 1 (RE.cat [RE.dot, RE.star false (RE.dot)]), RE.opt true (RE.lit '?'), RE.eol] }

/- pattern source: quando devo partire per (?:andare a )?(.+?) per arrivare alle (\d{1,2}(?::\d{2})?) -/
def reP_transport_public_6 : Pat := { anchored := false, ngroups := 2, re := RE.cat [RE.lit 'q', RE.lit 'u', RE.lit 'a', RE.lit 'n', RE.lit 'd', RE.lit 'o', RE.lit ' ', RE.lit 'd', RE.lit 'e', RE.lit 'v', RE.lit 'o', RE.lit ' ', RE.lit 'p', RE.lit 'a', RE.lit 'r', RE.lit 't', RE.lit 'i', RE.lit 'r', RE.lit 'e', RE.lit ' ', RE.lit 'p', RE.lit 'e', RE.lit 'r', RE.lit ' ', RE.opt true (RE.cat [RE.lit 'a', RE.lit 'n', RE.lit 'd', RE.lit 'a', RE.lit 'r', RE.lit 'e', RE.lit ' ', RE.lit 'a', RE.lit ' ']), RE.grp 1 (RE.cat [RE.dot, RE.star false (RE.dot)]), RE.lit ' ', RE.lit 'p', RE.lit 'e', RE.lit 'r', RE.lit ' ', RE.lit 'a', RE.lit 'r', RE.lit 'r', RE.lit 'i', RE.lit 'v', RE.lit 'a', RE.lit 'r', RE.lit 'e', RE.lit ' ', RE.lit 'a', RE.lit 'l', RE.lit 'l', RE.lit 'e', RE.lit ' ', RE.grp 2 (RE.cat [RE.cat [RE.cls false [CItem.dcls], RE.opt true (RE.cat [RE.cls false [CItem.dcls], RE.eps])], RE.opt true (RE.cat [RE.lit ':', RE.cat [RE.cls false [CItem.dcls], RE.cat [RE.cls false [CItem.dcls], RE.eps]]])])] }

/- pattern source: mezzi (?:pubblici )?(?:per |verso )?(.+?) per arrivare alle (\d{1,2}(?::\d{2})?) -/
def reP_transport_public_7 : Pat := { anchored := false, ngroups := 2, re := RE.cat [RE.lit 'm', RE.lit 'e', RE.lit 'z', RE.lit 'z', RE.lit 'i', RE.lit ' ', RE.opt true (RE.cat [RE.lit 'p', RE.lit 'u', RE.lit 'b', RE.lit 'b', RE.lit 'l', RE.lit 'i', RE.lit 'c', RE.lit 'i', RE.lit ' ']), RE.opt true (RE.alt (RE.cat [RE.lit 'p', RE.lit 'e', RE.lit 'r', RE.lit ' ']) (RE.cat [RE.lit 'v', RE.lit 'e', RE.lit 'r', RE.lit 's', RE.lit 'o', RE.lit ' '])), RE.grp 1 (RE.cat [RE.dot, RE.star false (RE.dot)]), RE.lit ' ', RE.lit 'p', RE.lit 'e', RE.lit 'r', RE.lit ' ', RE.lit 'a', RE.lit 'r', RE.lit 'r', RE.lit 'i', RE.lit 'v', RE.lit 'a', RE.lit 'r', RE.lit 'e', RE.lit ' ', RE.lit 'a', RE.lit 'l', RE.lit 'l', RE.lit 'e', RE.lit ' ', RE.grp 2 (RE.cat [RE.cat [RE.cls false [CItem.dcls], RE.opt true (RE.cat [RE.cls false [CItem.dcls], RE.eps])], RE.opt true (RE.cat [RE.lit ':', RE.cat [RE.cls false [CItem.dcls], RE.cat [RE.cls false [CItem.dcls], RE.eps]]])])] }

/- pattern source: come arrivo a (.+?) alle (\d{1,2}(?::\d{2})?)(?: (?:con i mezzi|in bus|in treno))? -/
def reP_transport_public_8 : Pat := { anchored := false, ngroups := 2, re := RE.cat [RE.lit 'c', RE.lit 'o', RE.lit 'm', RE.lit 'e', RE.lit ' ', RE.lit 'a', RE.lit 'r', RE.lit 'r', RE.lit 'i', RE.lit 'v', RE.lit 'o', RE.lit ' ', RE.lit 'a', RE.lit ' ', RE.grp 1 (RE.cat [RE.dot, RE.star false (RE.dot)]), RE.lit ' ', RE.lit 'a', RE.lit 'l', RE.lit 'l', RE.lit 'e', RE.lit ' ', RE.grp 2 (RE.cat [RE.cat [RE.cls false [CItem.dcls], RE.opt true (RE.cat [RE.cls false [CItem.dcls], RE.eps])], RE.opt true (RE.cat [RE.lit ':', RE.cat [RE.cls false [CItem.dcls], RE.cat [RE.cls false [CItem.dcls], RE.eps]]])]), RE.opt true (RE.cat [RE.lit ' ', RE.alt (RE.cat [RE.lit 'c', RE.lit 'o', RE.lit 'n', RE.lit ' ', RE.lit 'i', RE.lit ' ', RE.lit 'm', RE.lit 'e', RE.lit 'z', RE.lit 'z', RE.lit 'i']) (RE.alt (RE.cat [RE.lit 'i', RE.lit 'n', RE.lit ' ', RE.lit 'b', RE.lit 'u', RE.lit 's']) (RE.cat [RE.lit 'i', RE.lit 'n', RE.lit ' ', RE.lit 't', RE.lit 'r', RE.lit 'e', RE.lit 'n', RE.lit 'o']))])] }

/- pattern source: mezzi (?:pubblici )?(?:per |verso )?(.+?)(?:\?)?$ -/
def reP_transport_public_9 : Pat := { anchored := false, ngroups := 1, re := RE.cat [RE.lit 'm', RE.lit 'e', RE.lit 'z', RE.lit 'z', RE.lit 'i', RE.lit ' ', RE.opt true (RE.cat [RE.lit 'p', RE.lit 'u', RE.lit 'b', RE.lit 'b', RE.lit 'l', RE.lit 'i', RE.lit 'c', RE.lit 'i', RE.lit ' ']), RE.opt true (RE.alt (RE.cat [RE.lit 'p', RE.lit 'e', RE.lit 'r', RE.lit ' ']) (RE.cat [RE.lit 'v', RE.lit 'e', RE.lit 'r', RE.lit 's', RE.lit 'o', RE.lit ' '])), RE.grp 1 (RE.cat [RE.dot, RE.star false (RE.dot)]), RE.opt true (RE.lit '?'), RE.eol] }

/- pattern source: come arrivo a (.+?)(?: (?:con i mezzi|in bus|in treno))?(?:\?)?$ -/
def reP_transport_public_10 : Pat := { anchored := false, ngroups := 1, re := RE.cat [RE.lit 'c', RE.lit 'o', RE.lit 'm', RE.lit 'e', RE.lit ' ', RE.lit 'a', RE.lit 'r', RE.lit 'r', RE.lit 'i', RE.lit 'v', RE.lit 'o', RE.lit ' ', RE.lit 'a', RE.lit ' ', RE.grp 1 (RE.cat [RE.dot, RE.star false (RE.dot)]), RE.opt true (RE.cat [RE.lit ' ', RE.alt (RE.cat [RE.lit 'c', RE.lit 'o', RE.lit 'n', RE.lit ' ', RE.lit 'i', RE.lit ' ', RE.lit 'm', RE.lit 'e', RE.lit 'z', RE.lit 'z', RE.lit 'i']) (RE.alt (RE.cat [RE.lit 'i', RE.lit 'n', RE.lit ' ', RE.lit 'b', RE.lit 'u', RE.lit 's']) (RE.cat [RE.lit 'i', RE.lit 'n', RE.lit ' ', RE.lit 't', RE.lit 'r', RE.lit 'e', RE.lit 'n', RE.lit 'o']))]), RE.opt true (RE.lit '?'), RE.eol] }

/- pattern source: quando devo partire per (.+?)(?:\?)?$ -/
def reP_transport_public_11 : Pat := { anchored := false, ngroups := 1, re := RE.cat [RE.lit 'q', RE.lit 'u', RE.lit 'a', RE.lit 'n', RE.lit 'd', RE.lit 'o', RE.lit ' ', RE.lit 'd', RE.lit 'e', RE.lit 'v', RE.lit 'o', RE.lit ' ', RE.lit 'p', RE.lit 'a', RE.lit 'r', RE.lit 't', RE.lit 'i', RE.lit 'r', RE.lit 'e', RE.lit ' ', RE.lit 'p', RE.lit 'e', RE.lit 'r', RE.lit ' ', RE.grp 1 (RE.cat [RE.dot, RE.star false (RE.dot)]), RE.opt true (RE.lit '?'), RE.eol] }

/- the ordered rule table of IntentParser._compile_patterns; dict insertion
   order of the source is kept as list order -/
def compile_patterns : List (String × List (Pat × Language × IntentType)) := [
  ("time", [(reP_time_0, Language.english, IntentType.time),
    (reP_time_1, Language.english, IntentType.time),
    (reP_time_2, Language.english, IntentType.time),
    (reP_time_3, Language.italian, IntentType.time),
    (reP_time_4, Language.italian, IntentType.time)]),
  ("date", [(reP_date_0, Language.english, IntentType.date),
    (reP_date_1, Language.english, IntentType.date),
    (reP_date_2, Language.italian, IntentType.date),
    (reP_date_3, Language.italian, IntentType.date)]),
  ("weather", [(reP_weather_0, Language.english, IntentType.weather),
    (reP_weather_1, Language.english, IntentType.weather),
    (reP_weather_2, Language.english, IntentType.weather),
    (reP_weather_3, Language.english, IntentType.weather),
    (reP_weather_4, Language.italian, IntentType.weather),
    (reP_weather_5, Language.italian, IntentType.weather),
    (reP_weather_6, Language.italian, IntentType.weather),
    (reP_weather_7, Language.italian, IntentType.weather)]),
  ("email_send", [(reP_email_send_0, Language.english, IntentType.email_send),
    (reP_email_send_1, Language.english, IntentType.email_send),
    (reP_email_send_2, Language.english, IntentType.email_send),
    (reP_email_send_3, Language.italian, IntentType.email_send),
    (reP_email_send_4, Language.italian, IntentType.email_send)]),
  ("email_search", [(reP_email_search_0, Language.english, IntentType.email_search),
    (reP_email_search_1, Language.english, IntentType.email_search),
    (reP_email_search_2, Language.italian, IntentType.email_search),
    (reP_email_search_3, Language.italian, IntentType.email_search)]),
  ("email_read", [(reP_email_read_0, Language.english, IntentType.email_read),
    (reP_email_read_1, Language.english, IntentType.email_read),
    (reP_email_read_2, Language.italian, IntentType.email_read),
    (reP_email_read_3, Language.italian, IntentType.email_read)]),
  ("email_check", [(reP_email_check_0, Language.english, IntentType.email_check),
    (reP_email_check_1, Language.english, IntentType.email_check),
    (reP_email_check_2, Language.italian, IntentType.email_check),
    (reP_email_check_3, Language.italian, IntentType.email_check)]),
  ("email_list", [(reP_email_list_0, Language.english, IntentType.email_list),
    (reP_email_list_1, Language.english, IntentType.email_list),
    (reP_email_list_2, Language.english, IntentType.email_list),
    (reP_email_list_3, Language.italian, IntentType.email_list),
    (reP_email_list_4, Language.italian, IntentType.email_list),
    (reP_email_list_5, Language.italian, IntentType.email_list)]),
  ("calendar_week", [(reP_calendar_week_0, Language.english, IntentType.calendar_week),
    (reP_calendar_week_1, Language.english, IntentType.calendar_week),
    (reP_calendar_week_2, Language.italian, IntentType.calendar_week),
    (reP_calendar_week_3, Language.italian, IntentType.calendar_week)]),
  ("calendar_create", [(reP_calendar_create_0, Language.english, IntentType.calendar_create),
    (reP_calendar_create_1, Language.english, IntentType.calendar_create),
    (reP_calendar_create_2, Language.english, IntentType.calendar_create),
    (reP_calendar_create_3, Language.italian, IntentType.calendar_create),
    (reP_calendar_create_4, Language.italian, IntentType.calendar_create)]),
  ("calendar_next", [(reP_calendar_next_0, Language.english, IntentType.calendar_next),
    (reP_calendar_next_1, Language.english, IntentType.calendar_next),
    (reP_calendar_next_2, Language.italian, IntentType.calendar_next)]),
  ("calendar_today", [(reP_calendar_today_0, Language.english, IntentType.calendar_today),
    (reP_calendar_today_1, Language.english, IntentType.calendar_today),
    (reP_calendar_today_2, Language.english, IntentType.calendar_today),
    (reP_calendar_today_3, Language.english, IntentType.calendar_today),
    (reP_calendar_today_4, Language.italian, IntentType.calendar_today),
    (reP_calendar_today_5, Language.italian, IntentType.calendar_today),
    (reP_calendar_today_6, Language.italian, IntentType.calendar_today)]),
  ("calendar_yesterday", [(reP_calendar_yesterday_0, Language.english, IntentType.calendar_yesterday),
    (reP_calendar_yesterday_1, Language.english, IntentType.calendar_yesterday),
    (reP_calendar_yesterday_2, Language.english, IntentType.calendar_yesterday),
    (reP_calendar_yesterday_3, Language.english, IntentType.calendar_yesterday),
    (reP_calendar_yesterday_4, Language.italian, IntentType.calendar_yesterday),
    (reP_calendar_yesterday_5, Language.italian, IntentType.calendar_yesterday),
    (reP_calendar_yesterday_6, Language.italian, IntentType.calendar_yesterday)]),
  ("calendar_tomorrow", [(reP_calendar_tomorrow_0, Language.english, IntentType.calendar_tomorrow),
    (reP_calendar_tomorrow_1, Language.english, IntentType.calendar_tomorrow),
    (reP_calendar_tomorrow_2, Language.english, IntentType.calendar_tomorrow),
    (reP_calendar_tomorrow_3, Language.english, IntentType.calendar_tomorrow),
    (reP_calendar_tomorrow_4, Language.italian, IntentType.calendar_tomorrow),
    (reP_calendar_tomorrow_5, Language.italian, IntentType.calendar_tomorrow),
    (reP_calendar_tomorrow_6, Language.italian, IntentType.calendar_tomorrow)]),
  ("calendar_specific", [(reP_calendar_specific_0, Language.english, IntentType.calendar_specific),
    (reP_calendar_specific_1, Language.english, IntentType.calendar_specific),
    (reP_calendar_specific_2, Language.english, IntentType.calendar_specific),
    (reP_calendar_specific_3, Language.english, IntentType.calendar_specific),
    (reP_calendar_specific_4, Language.italian, IntentType.calendar_specific),
    (reP_calendar_specific_5, Language.italian, IntentType.calendar_specific),
    (reP_calendar_specific_6, Language.italian, IntentType.calendar_specific),
    (reP_calendar_specific_7, Language.italian, IntentType.calendar_specific)]),
  ("system_shutdown", [(reP_system_shutdown_0, Language.english, IntentType.system_shutdown),
    (reP_system_shutdown_1, Language.english, IntentType.system_shutdown),
    (reP_system_shutdown_2, Language.english, IntentType.system_shutdown),
    (reP_system_shutdown_3, Language.italian, IntentType.system_shutdown),
    (reP_system_shutdown_4, Language.italian, IntentType.system_shutdown)]),
  ("system_status", [(reP_system_status_0, Language.english, IntentType.system_status),
    (reP_system_status_1, Language.english, IntentType.system_status),
    (reP_system_status_2, Language.english, IntentType.system_status),
    (reP_system_status_3, Language.italian, IntentType.system_status),
    (reP_system_status_4, Language.italian, IntentType.system_status)]),
  ("volume_set", [(reP_volume_set_0, Language.english, IntentType.volume_set),
    (reP_volume_set_1, Language.english, IntentType.volume_set),
    (reP_volume_set_2, Language.italian, IntentType.volume_set),
    (reP_volume_set_3, Language.italian, IntentType.volume_set)]),
  ("volume_up", [(reP_volume_up_0, Language.english, IntentType.volume_up),
    (reP_volume_up_1, Language.english, IntentType.volume_up),
    (reP_volume_up_2, Language.english, IntentType.volume_up),
    (reP_volume_up_3, Language.english, IntentType.volume_up),
    (reP_volume_up_4, Language.italian, IntentType.volume_up),
    (reP_volume_up_5, Language.italian, IntentType.volume_up),
    (reP_volume_up_6, Language.italian, IntentType.volume_up)]),
  ("volume_down", [(reP_volume_down_0, Language.english, IntentType.volume_down),
    (reP_volume_down_1, Language.english, IntentType.volume_down),
    (reP_volume_down_2, Language.english, IntentType.volume_down),
    (reP_volume_down_3, Language.english, IntentType.volume_down),
    (reP_volume_down_4, Language.italian, IntentType.volume_down),
    (reP_volume_down_5, Language.italian, IntentType.volume_down),
    (reP_volume_down_6, Language.italian, IntentType.volume_down)]),
  ("mac_close_app", [(reP_mac_close_app_0, Language.english, IntentType.mac_close_app),
    (reP_mac_close_app_1, Language.english, IntentType.mac_close_app),
    (reP_mac_close_app_2, Language.english, IntentType.mac_close_app),
    (reP_mac_close_app_3, Language.italian, IntentType.mac_close_app),
    (reP_mac_close_app_4, Language.italian, IntentType.mac_close_app)]),
  ("mac_open_app", [(reP_mac_open_app_0, Language.english, IntentType.mac_open_app),
    (reP_mac_open_app_1, Language.english, IntentType.mac_open_app),
    (reP_mac_open_app_2, Language.english, IntentType.mac_open_app),
    (reP_mac_open_app_3, Language.italian, IntentType.mac_open_app),
    (reP_mac_open_app_4, Language.italian, IntentType.mac_open_app)]),
  ("mac_volume", [(reP_mac_volume_0, Language.english, IntentType.mac_volume),
    (reP_mac_volume_1, Language.english, IntentType.mac_volume),
    (reP_mac_volume_2, Language.english, IntentType.mac_volume),
    (reP_mac_volume_3, Language.italian, IntentType.mac_volume),
    (reP_mac_volume_4, Language.italian, IntentType.mac_volume)]),
  ("mac_sleep", [(reP_mac_sleep_0, Language.english, IntentType.mac_sleep),
    (reP_mac_sleep_1, Language.english, IntentType.mac_sleep),
    (reP_mac_sleep_2, Language.italian, IntentType.mac_sleep),
    (reP_mac_sleep_3, Language.italian, IntentType.mac_sleep)]),
  ("mac_lock", [(reP_mac_lock_0, Language.english, IntentType.mac_lock),
    (reP_mac_lock_1, Language.english, IntentType.mac_lock),
    (reP_mac_lock_2, Language.italian, IntentType.mac_lock),
    (reP_mac_lock_3, Language.italian, IntentType.mac_lock)]),
  ("telegram_send", [(reP_telegram_send_0, Language.english, IntentType.telegram_send),
    (reP_telegram_send_1, Language.english, IntentType.telegram_send),
    (reP_telegram_send_2, Language.english, IntentType.telegram_send),
    (reP_telegram_send_3, Language.italian, IntentType.telegram_send),
    (reP_telegram_send_4, Language.italian, IntentType.telegram_send)]),
  ("telegram_check", [(reP_telegram_check_0, Language.english, IntentType.telegram_check),
    (reP_telegram_check_1, Language.english, IntentType.telegram_check),
    (reP_telegram_check_2, Language.italian, IntentType.telegram_check),
    (reP_telegram_check_3, Language.italian, IntentType.telegram_check)]),
  ("telegram_read", [(reP_telegram_read_0, Language.english, IntentType.telegram_read),
    (reP_telegram_read_1, Language.english, IntentType.telegram_read),
    (reP_telegram_read_2, Language.italian, IntentType.telegram_read),
    (reP_telegram_read_3, Language.italian, IntentType.telegram_read)]),
  ("whatsapp_send", [(reP_whatsapp_send_0, Language.english, IntentType.whatsapp_send),
    (reP_whatsapp_send_1, Language.english, IntentType.whatsapp_send),
    (reP_whatsapp_send_2, Language.english, IntentType.whatsapp_send),
    (reP_whatsapp_send_3, Language.italian, IntentType.whatsapp_send),
    (reP_whatsapp_send_4, Language.italian, IntentType.whatsapp_send)]),
  ("whatsapp_check", [(reP_whatsapp_check_0, Language.english, IntentType.whatsapp_check),
    (reP_whatsapp_check_1, Language.english, IntentType.whatsapp_check),
    (reP_whatsapp_check_2, Language.italian, IntentType.whatsapp_check),
    (reP_whatsapp_check_3, Language.italian, IntentType.whatsapp_check)]),
  ("whatsapp_read", [(reP_whatsapp_read_0, Language.english, IntentType.whatsapp_read),
    (reP_whatsapp_read_1, Language.english, IntentType.whatsapp_read),
    (reP_whatsapp_read_2, Language.italian, IntentType.whatsapp_read),
    (reP_whatsapp_read_3, Language.italian, IntentType.whatsapp_read)]),
  ("translate", [(reP_translate_0, Language.english, IntentType.translate),
    (reP_translate_1, Language.english, IntentType.translate),
    (reP_translate_2, Language.italian, IntentType.translate),
    (reP_translate_3, Language.italian, IntentType.translate)]),
  ("calculate", [(reP_calculate_0, Language.english, IntentType.calculate),
    (reP_calculate_1, Language.english, IntentType.calculate),
    (reP_calculate_2, Language.english, IntentType.calculate),
    (reP_calculate_3, Language.english, IntentType.calculate),
    (reP_calculate_4, Language.italian, IntentType.calculate),
    (reP_calculate_5, Language.italian, IntentType.calculate),
    (reP_calculate_6, Language.italian, IntentType.calculate),
    (reP_calculate_7, Language.italian, IntentType.calculate),
    (reP_calculate_8, Language.english, IntentType.calculate),
    (reP_calculate_9, Language.english, IntentType.calculate),
    (reP_calculate_10, Language.english, IntentType.calculate)]),
  ("joke", [(reP_joke_0, Language.english, IntentType.joke),
    (reP_joke_1, Language.english, IntentType.joke),
    (reP_joke_2, Language.english, IntentType.joke),
    (reP_joke_3, Language.italian, IntentType.joke),
    (reP_joke_4, Language.italian, IntentType.joke),
    (reP_joke_5, Language.italian, IntentType.joke)]),
  ("news", [(reP_news_0, Language.english, IntentType.news),
    (reP_news_1, Language.english, IntentType.news),
    (reP_news_2, Language.english, IntentType.news),
    (reP_news_3, Language.italian, IntentType.news),
    (reP_news_4, Language.italian, IntentType.news),
    (reP_news_5, Language.italian, IntentType.news)]),
  ("finance", [(reP_finance_0, Language.english, IntentType.finance_watchlist),
    (reP_finance_1, Language.english, IntentType.finance_watchlist),
    (reP_finance_2, Language.english, IntentType.finance_watchlist),
    (reP_finance_3, Language.english, IntentType.finance_watchlist),
    (reP_finance_4, Language.italian, IntentType.finance_watchlist),
    (reP_finance_5, Language.italian, IntentType.finance_watchlist),
    (reP_finance_6, Language.italian, IntentType.finance_watchlist),
    (reP_finance_7, Language.italian, IntentType.finance_watchlist)]),
  ("recipe_search", [(reP_recipe_search_0, Language.english, IntentType.recipe_search),
    (reP_recipe_search_1, Language.english, IntentType.recipe_search),
    (reP_recipe_search_2, Language.english, IntentType.recipe_search),
    (reP_recipe_search_3, Language.italian, IntentType.recipe_search),
    (reP_recipe_search_4, Language.italian, IntentType.recipe_search),
    (reP_recipe_search_5, Language.italian, IntentType.recipe_search)]),
  ("recipe_random", [(reP_recipe_random_0, Language.english, IntentType.recipe_random),
    (reP_recipe_random_1, Language.english, IntentType.recipe_random),
    (reP_recipe_random_2, Language.english, IntentType.recipe_random),
    (reP_recipe_random_3, Language.italian, IntentType.recipe_random),
    (reP_recipe_random_4, Language.italian, IntentType.recipe_random),
    (reP_recipe_random_5, Language.italian, IntentType.recipe_random)]),
  ("transport_car", [(reP_transport_car_0, Language.english, IntentType.transport_car),
    (reP_transport_car_1, Language.english, IntentType.transport_car),
    (reP_transport_car_2, Language.english, IntentType.transport_car),
    (reP_transport_car_3, Language.english, IntentType.transport_car),
    (reP_transport_car_4, Language.english, IntentType.transport_car),
    (reP_transport_car_5, Language.english, IntentType.transport_car),
    (reP_transport_car_6, Language.italian, IntentType.transport_car),
    (reP_transport_car_7, Language.italian, IntentType.transport_car),
    (reP_transport_car_8, Language.italian, IntentType.transport_car),
    (reP_transport_car_9, Language.italian, IntentType.transport_car),
    (reP_transport_car_10, Language.italian, IntentType.transport_car)]),
  ("transport_public", [(reP_transport_public_0, Language.english, IntentType.transport_public),
    (reP_transport_public_1, Language.english, IntentType.transport_public),
    (reP_transport_public_2, Language.english, IntentType.transport_public),
    (reP_transport_public_3, Language.english, IntentType.transport_public),
    (reP_transport_public_4, Language.english, IntentType.transport_public),
    (reP_transport_public_5, Language.english, IntentType.transport_public),
    (reP_transport_public_6, Language.italian, IntentType.transport_public),
    (reP_transport_public_7, Language.italian, IntentType.transport_public),
    (reP_transport_public_8, Language.italian, IntentType.transport_public),
    (reP_transport_public_9, Language.italian, IntentType.transport_public),
    (reP_transport_public_10, Language.italian, IntentType.transport_public),
    (reP_transport_public_11, Language.italian, IntentType.transport_public)])
]

/-! ### `src/intents.py`: parameter extraction and `IntentParser.parse` -/

/-- A parameter value (the source stores strings and, for the volume
intents, integers). -/
inductive PValue where
  | s : String → PValue
  | n : Int → PValue
deriving DecidableEq

/-- Embeds `from config import DEFAULT_LOCATION`: `config.py` is not in the
repository (git-ignored), so the module-level parser instance falls back to
the `ImportError` default of `src/intents.py`. -/
def DEFAULT_LOCATION : String := "Santhia"

/-- The punctuation set of the source `rstrip(".,!?;:")` calls. -/
def trailPunct : List Char := ['.', ',', '!', '?', ';', ':']

/-- Embeds `IntentParser.extract_parameters`, translated case by case.  The
extracted parameter dictionary is modelled as an association list in
insertion order. -/
def extract_parameters (default_location : String) (text : List Char)
    (intent_type : IntentType) (match_groups : List (Option (List Char))) :
    List (String × PValue) :=
  -- groups = [g.strip() if g else None for g in match_groups if g]
  let groups : List (List Char) := match_groups.filterMap (fun g =>
    match g with
    | none => none
    | some cs => if cs.isEmpty then none else some (pyStrip cs))
  match intent_type with
  | .weather =>
    [("location", PValue.s (String.mk (groups.headD default_location.data)))]
  | .email_send =>
    match groups with
    | g0 :: g1 :: _ => [("recipient", .s (String.mk g0)), ("message", .s (String.mk g1))]
    | [g0] => [("recipient", .s (String.mk g0))]
    | [] => []
  | .email_read =>
    match groups with
    | g0 :: _ => [("sender", .s (String.mk g0))]
    | [] => []
  | .email_search =>
    match groups with
    | g0 :: _ => [("keyword", .s (String.mk g0))]
    | [] => []
  | .calendar_create =>
    match groups with
    | g0 :: _ => [("event_description", .s (String.mk g0))]
    | [] => []
  | .calendar_specific =>
    match groups with
    | g0 :: _ =>
      [("calendar_name", .s (String.mk (pyCapitalize (rstripChars trailPunct (pyStrip g0)))))]
    | [] => []
  | .mac_open_app =>
    match groups with
    | g0 :: _ => [("app_name", .s (String.mk (rstripChars trailPunct g0)))]
    | [] => []
  | .mac_close_app =>
    match groups with
    | g0 :: _ => [("app_name", .s (String.mk (rstripChars trailPunct g0)))]
    | [] => []
  | .telegram_read =>
    match groups with
    | g0 :: _ => [("sender", .s (String.mk g0))]
    | [] => []
  | .whatsapp_read =>
    match groups with
    | g0 :: _ => [("sender", .s (String.mk g0))]
    | [] => []
  | .telegram_check => []
  | .whatsapp_check => []
  | .volume_set =>
    match groups with
    | g0 :: _ =>
      match pyInt g0 with
      | some v => [("level", .n v)]
      | none => []
    | [] => []
  | .volume_up =>
    match groups with
    | g0 :: _ =>
      if !g0.isEmpty then
        match pyInt g0 with
        | some v => [("amount", .n v)]
        | none => [("amount", .n 10)]
      else [("amount", .n 10)]
    | [] => [("amount", .n 10)]
  | .volume_down =>
    match groups with
    | g0 :: _ =>
      if !g0.isEmpty then
        match pyInt g0 with
        | some v => [("amount", .n v)]
        | none => [("amount", .n 10)]
      else [("amount", .n 10)]
    | [] => [("amount", .n 10)]
  | .mac_volume =>
    match groups with
    | g0 :: _ =>
      match pyInt g0 with
      | some v => [("level", .n v)]
      | none =>
        if containsSub "louder".data text || containsSub "alza".data text then
          [("action", .s "increase")]
        else if containsSub "quieter".data text || containsSub "abbassa".data text then
          [("action", .s "decrease")]
        else if containsSub "mute".data text || containsSub "silenzia".data text then
          [("action", .s "mute")]
        else []
    | [] => []
  | .telegram_send =>
    match groups with
    | g0 :: g1 :: _ => [("recipient", .s (String.mk g0)), ("message", .s (String.mk g1))]
    | _ => []
  | .whatsapp_send =>
    match groups with
    | g0 :: g1 :: _ => [("recipient", .s (String.mk g0)), ("message", .s (String.mk g1))]
    | _ => []
  | .translate =>
    match groups with
    | g0 :: g1 :: _ => [("text", .s (String.mk g0)), ("target_language", .s (String.mk g1))]
    | _ => []
  | .calculate =>
    match groups with
    | [] => []
    | gs =>
      [("expression",
        .s (String.mk (List.intercalate [' '] (gs.filter (fun g => !g.isEmpty)))))]
  | .recipe_search =>
    match groups with
    | g0 :: _ => [("query", .s (String.mk (rstripChars trailPunct g0)))]
    | [] => []
  | .transport_car =>
    match groups with
    | g0 :: rest =>
      [("destination", .s (String.mk (rstripChars trailPunct g0)))] ++
      (match rest with
       | g1 :: _ => if !g1.isEmpty then [("arrival_time", .s (String.mk (pyStrip g1)))] else []
       | [] => [])
    | [] => []
  | .transport_public =>
    match groups with
    | g0 :: rest =>
      [("destination", .s (String.mk (rstripChars trailPunct g0)))] ++
      (match rest with
       | g1 :: _ => if !g1.isEmpty then [("arrival_time", .s (String.mk (pyStrip g1)))] else []
       | [] => [])
    | [] => []
  | _ => []

/-- Embeds `IntentParser._requires_pin`: membership in the fixed sensitive set. -/
def sensitive_intents : List IntentType :=
  [.email_send, .system_shutdown, .telegram_send, .whatsapp_send, .calendar_create]

def requires_pin (intent_type : IntentType) : Bool :=
  sensitive_intents.contains intent_type

/-- The dictionary returned by `IntentParser.parse`. -/
structure ParseResult where
  intent : String
  language : String
  parameters : List (String × PValue)
  confidence : ℚ
  original_text : String
  requires_pin : Bool
deriving DecidableEq

/-- The pattern loop of `IntentParser.parse`: walk the categories in table
order and within each category the rules in order; return the first rule
whose regex matches (`re.search`, IGNORECASE) together with its groups. -/
def firstMatch (text_clean : List Char) :
    Option (Language × IntentType × List (Option (List Char))) :=
  compile_patterns.findSome? (fun cat =>
    cat.2.findSome? (fun rule =>
      (reSearch true rule.1 text_clean).map (fun gs => (rule.2.1, rule.2.2, gs))))

/-- The normalisation at the top of `IntentParser.parse`:
`text.strip().lower()` followed by `rstrip(".,!?;:")`. -/
def clean_text (text : String) : List Char :=
  rstripChars trailPunct (lowerChars (pyStrip text.data))

/-- Embeds `IntentParser.parse`. -/
def parse (default_location : String) (text : String) : ParseResult :=
  let text_clean := clean_text text
  let language := detect_language text_clean
  match firstMatch text_clean with
  | some (lang, intent_type, gs) =>
    { intent := intent_type.value
      language := lang.value
      parameters := extract_parameters default_location text_clean intent_type gs
      confidence := 0.9
      original_text := text
      requires_pin := requires_pin intent_type }
  | none =>
    { intent := IntentType.general_chat.value
      language := language.value
      parameters := [("query", PValue.s text)]
      confidence := 0.5
      original_text := text
      requires_pin := false }

/-- Whether some rule of the table matches the normalised text (the
condition separating the two branches of `parse`). -/
def matchedPattern (text : String) : Bool :=
  (firstMatch (clean_text text)).isSome

/-- Embeds `parse_intent`, the module-level convenience function (its parser
instance is built with the default location). -/
def parse_intent (text : String) : ParseResult := parse DEFAULT_LOCATION text

/-! ### `src/functions/simple_concatenation_parser.py` -/

/-- The regex `\s+`. -/
def wsPlus : RE :=
  RE.seq (RE.cls false [CItem.scls]) (RE.star true (RE.cls false [CItem.scls]))

/-- The split pattern `r"\s+WORD\s+"` for one connective word. -/
def connectivePat (w : String) : RE :=
  RE.cat [wsPlus, RE.cat (w.data.map RE.lit), wsPlus]

/-- Italian split patterns: `" e "`, `" anche "`, `" poi "`, `" inoltre "`. -/
def itSplitPatterns : List RE :=
  (["e", "anche", "poi", "inoltre"]).map connectivePat

/-- English split patterns: `" and "`, `" also "`, `" then "`, `" plus "`. -/
def enSplitPatterns : List RE :=
  (["and", "also", "then", "plus"]).map connectivePat

/-- Embeds `SimpleConcatenationParser.split_patterns` (a two-key dict). -/
def split_patterns : List (String × List RE) :=
  [("it", itSplitPatterns), ("en", enSplitPatterns)]

/-- Embeds `self.split_patterns.get(language, self.split_patterns["en"])`. -/
def getSplitPatterns (language : String) : List RE :=
  (split_patterns.lookup language).getD enSplitPatterns

/-- Embeds `SimpleConcatenationParser.has_concatenation`: search each pattern in the
lower-cased query (no IGNORECASE flag there — the query is lowered first). -/
def has_concatenation (query : String) (language : String) : Bool :=
  let patterns := getSplitPatterns language
  let query_lower := lowerChars query.data
  patterns.any (fun p => (reSearchSpan false p query_lower).isSome)

/-- Python `[part.strip() for part in parts if part.strip()]`. -/
def cleanParts (parts : List (List Char)) : List (List Char) :=
  parts.filterMap (fun part =>
    let t := pyStrip part
    if t.isEmpty then none else some t)

/-- The pattern loop of `split_query`: the first pattern whose `re.split`
(IGNORECASE, on the original query) produces more than one part wins. -/
def splitLoop (query : List Char) : List RE → Option (List (List Char))
  | [] => none
  | p :: ps =>
    let parts := reSplit true p query
    if parts.length > 1 then some (cleanParts parts) else splitLoop query ps

/-- Embeds `SimpleConcatenationParser.split_query`. -/
def split_query (query : String) (language : String) : List String :=
  if !(has_concatenation query language) then [query]
  else
    match splitLoop query.data (getSplitPatterns language) with
    | some cleaned => cleaned.map String.mk
    | none => [query]

/-! ### `src/functions/complex_query_parser.py`: the escalation gate -/

/-- The multi-part keyword list of `is_complex_query` (both languages mixed,
checked by plain substring containment). -/
def multiPartKeywords : List String :=
  ["and", "also", "then", "after that", "plus",
   "e", "anche", "poi", "dopo", "inoltre"]

/-- The decision-question keyword list of `is_complex_query`. -/
def decisionKeywords : List String :=
  ["should i", "can i", "what should", "when should",
   "devo", "posso", "cosa dovrei", "quando dovrei"]

/-- Embeds `ComplexQueryParser.is_complex_query`. -/
def is_complex_query (intent : String) (query : String) (confidence : ℚ) : Bool :=
  if intent == "general_chat" && decide (confidence < 0.7) then
    if multiPartKeywords.any (fun kw => containsSub kw.data (lowerChars query.data)) then
      true
    else if decisionKeywords.any (fun kw => containsSub kw.data (lowerChars query.data)) then
      true
    else
      false
  else
    false

/-! ### `src/functions/context_manager.py`

`time.time()` is modelled by an explicit `now : Int` argument (the source
reads the clock several times inside one call; all reads of one call are
modelled as the same instant).  Parameter values are modelled as strings:
the keys this module reads — `location`, `destination`, `arrival_time`,
`query` — always carry strings in this codebase. -/

/-- Embeds `ConversationTurn` (dataclass). -/
structure ConversationTurn where
  timestamp : Int
  command : String
  intent : String
  language : String
  parameters : List (String × String)
  response : String
  success : Bool
deriving DecidableEq

/-- The state of a `ContextManager` instance. -/
structure ContextManager where
  timeout : Int
  max_history : Nat
  history : List ConversationTurn
  current_location : Option String
  current_destination : Option String
  current_time_reference : Option String
  current_topic : Option String
  last_entity : Option String
  preferences : List (String × String)
  last_activity : Int
  session_start : Int
deriving DecidableEq

/-- Embeds `ContextManager.__init__` at instant `now`. -/
def ContextManager.init (timeout : Int) (max_history : Nat) (now : Int) :
    ContextManager :=
  { timeout := timeout
    max_history := max_history
    history := []
    current_location := none
    current_destination := none
    current_time_reference := none
    current_topic := none
    last_entity := none
    preferences := []
    last_activity := now
    session_start := now }

/-- Python dict assignment `d[k] = v`: overwrite in place or append. -/
def dictSet (k v : String) (d : List (String × String)) : List (String × String) :=
  if d.any (fun p => p.1 == k) then d.map (fun p => if p.1 == k then (k, v) else p)
  else d ++ [(k, v)]

/-- Embeds `ContextManager.is_active`. -/
def is_active (now : Int) (cm : ContextManager) : Bool :=
  decide (now - cm.last_activity < cm.timeout)

/-- Embeds `ContextManager.reset`: clears history and the scalar context fields,
refreshes `last_activity`, leaves `preferences` (and `session_start`)
untouched. -/
def reset (now : Int) (cm : ContextManager) : ContextManager :=
  { cm with
    history := []
    current_location := none
    current_destination := none
    current_time_reference := none
    current_topic := none
    last_entity := none
    last_activity := now }

/-- The `topic_map` of `ContextManager._infer_topic`. -/
def topic_map : List (String × String) :=
  [("weather", "weather"), ("transport_car", "transport"),
   ("transport_public", "transport"), ("recipe_search", "food"),
   ("recipe_random", "food"), ("news", "news"), ("finance", "finance"),
   ("finance_watchlist", "finance"), ("calculate", "math")]

def infer_topic (intent : String) : String :=
  (topic_map.lookup intent).getD "general"

/-- Embeds `ContextManager._update_context_from_turn`. -/
def update_context_from_turn (cm : ContextManager) (turn : ConversationTurn) :
    ContextManager :=
  let cm :=
    match turn.parameters.lookup "location" with
    | some v => { cm with current_location := some v }
    | none => cm
  let cm :=
    match turn.parameters.lookup "destination" with
    | some v => { cm with current_destination := some v, last_entity := some v }
    | none => cm
  let cm :=
    match turn.parameters.lookup "arrival_time" with
    | some v => { cm with current_time_reference := some v }
    | none => cm
  let cm := { cm with current_topic := some (infer_topic turn.intent) }
  if turn.intent == "recipe_search" || turn.intent == "recipe_random" then
    match turn.parameters.lookup "query" with
    | some q => { cm with last_entity := some q }
    | none => cm
  else cm

/-- Embeds `ContextManager.add_turn`: lazy expiry reset, append, FIFO eviction
(`pop(0)` when the bound is exceeded), context update, activity refresh. -/
def add_turn (now : Int) (cm : ContextManager) (command intent language : String)
    (parameters : List (String × String)) (response : String) (success : Bool) :
    ContextManager :=
  let cm := if !(is_active now cm) then reset now cm else cm
  let turn : ConversationTurn :=
    { timestamp := now, command := command, intent := intent,
      language := language, parameters := parameters,
      response := response, success := success }
  let history := cm.history ++ [turn]
  let history := if history.length > cm.max_history then history.drop 1 else history
  let cm := { cm with history := history }
  let cm := update_context_from_turn cm turn
  { cm with last_activity := now }

/-- Embeds `ContextManager.get_last_turn`. -/
def get_last_turn (cm : ContextManager) : Option ConversationTurn :=
  cm.history.getLast?

/-- Embeds `ContextManager.get_last_n_turns` (`history[-n:]`). -/
def get_last_n_turns (cm : ContextManager) (n : Nat) : List ConversationTurn :=
  cm.history.drop (cm.history.length - n)

/-- Embeds `ContextManager.resolve_pronoun`.  The buffered `text_lower` is computed
once, so the later conditions test the ORIGINAL text while the replacements
chain on the evolving text, exactly as in the source.  Python truthiness of
`last_entity` / `current_destination` makes the empty string behave like
`None`. -/
def resolve_pronoun (now : Int) (cm : ContextManager) (text : String) : String :=
  if !(is_active now cm) then text
  else
    let text_lower := lowerChars text.data
    let t0 := text.data
    let t1 :=
      match cm.last_entity with
      | some e =>
        if !e.isEmpty then
          let ta :=
            if containsSub " it ".data text_lower
                || ("it ".data).isPrefixOf text_lower
                || (" it".data).isSuffixOf text_lower then
              replaceAll "It ".data (pyCapitalize e.data ++ [' '])
                (replaceAll " it ".data ([' '] ++ e.data ++ [' ']) t0)
            else t0
          if containsSub " that ".data text_lower
              || ("that ".data).isPrefixOf text_lower then
            replaceAll "That ".data (pyCapitalize e.data ++ [' '])
              (replaceAll " that ".data ([' '] ++ e.data ++ [' ']) ta)
          else ta
        else t0
      | none => t0
    let t2 :=
      match cm.current_destination with
      | some d =>
        if !d.isEmpty && containsSub " there".data text_lower then
          replaceAll " there".data ([' '] ++ d.data) t1
        else t1
      | none => t1
    String.mk t2

/-- Embeds `ContextManager.handle_follow_up`. -/
def handle_follow_up (now : Int) (cm : ContextManager) (command : String)
    (current_intent : String) : String × List (String × String) :=
  if !(is_active now cm) || cm.history.isEmpty then (command, [])
  else
    let command_lower := lowerChars command.data
    let ap : List (String × String) := []
    let ap :=
      if containsSub "tomorrow".data command_lower
          || containsSub "what about".data command_lower then
        match get_last_turn cm with
        | some _ =>
          let ap :=
            match cm.current_location with
            | some l =>
              if !l.isEmpty && !(ap.any (fun p => p.1 == "location")) then
                dictSet "location" l ap
              else ap
            | none => ap
          let ap :=
            match cm.current_destination with
            | some d =>
              if !d.isEmpty && !(ap.any (fun p => p.1 == "destination")) then
                dictSet "destination" d ap
              else ap
            | none => ap
          ap
        | none => ap
      else ap
    let ap :=
      match cm.current_destination with
      | some d =>
        if (containsSub "how long".data command_lower
              || containsSub "will it take".data command_lower) && !d.isEmpty then
          dictSet "destination" d ap
        else ap
      | none => ap
    let ap :=
      match cm.current_destination with
      | some d =>
        if containsSub "traffic".data command_lower && !d.isEmpty
            && !(containsSub "to".data command_lower) then
          dictSet "destination" d ap
        else ap
      | none => ap
    (resolve_pronoun now cm command, ap)

/-- Embeds `ContextManager.set_preference`. -/
def set_preference (cm : ContextManager) (key value : String) : ContextManager :=
  { cm with preferences := dictSet key value cm.preferences }

/-- Embeds `ContextManager.get_preference`. -/
def get_preference (cm : ContextManager) (key : String) (default : String) : String :=
  (cm.preferences.lookup key).getD default

/-- One mutating-or-reading call on a `ContextManager`, for stating
invariants over arbitrary call sequences.  `resolve_pronoun`,
`handle_follow_up` and `get_preference` read but never write the state, so
their state transition is the identity. -/
inductive CMOp where
  | addTurn (now : Int) (command intent language : String)
      (parameters : List (String × String)) (response : String) (success : Bool)
  | doReset (now : Int)
  | setPref (key value : String)
  | resolvePronoun (now : Int) (text : String)
  | followUp (now : Int) (command current_intent : String)

def applyOp (cm : ContextManager) : CMOp → ContextManager
  | .addTurn now c i l p r s => add_turn now cm c i l p r s
  | .doReset now => reset now cm
  | .setPref k v => set_preference cm k v
  | .resolvePronoun _ _ => cm
  | .followUp _ _ _ => cm

/-! ## Theorems -/

/-- C1: `IntentParser.parse` is a total function — every input string yields
exactly one result (totality of the embedding models "never raises") — and
its `confidence` field is exactly 0.9 precisely when some pattern rule
matched and exactly 0.5 in the no-match fallback; no other confidence value
is ever produced. -/
theorem parse_confidence_exactly_two_values (default_location text : String) :
    ((parse default_location text).confidence = 0.9 ∨
      (parse default_location text).confidence = 0.5) ∧
    ((parse default_location text).confidence = 0.9 ↔ matchedPattern text = true) ∧
    ((parse default_location text).confidence = 0.5 ↔ matchedPattern text = false) := by
  simp only [parse, matchedPattern]
  rcases h : firstMatch (clean_text text) with _ | ⟨lang, it, gs⟩ <;>
    simp [h] <;> norm_num

/-- C2: `requires_pin` is true exactly on the five sensitive intent kinds,
for every possible intent kind; it is a function of the intent kind alone,
and the `general_chat` fallback of `parse` always carries
`requires_pin = false`. -/
theorem requires_pin_iff_sensitive :
    (∀ it : IntentType, requires_pin it = true ↔
      (it = .email_send ∨ it = .system_shutdown ∨ it = .telegram_send ∨
       it = .whatsapp_send ∨ it = .calendar_create)) ∧
    (∀ default_location text : String, matchedPattern text = false →
      (parse default_location text).requires_pin = false) := by
  constructor
  · intro it
    cases it <;> decide
  · intro dl text h
    simp only [parse]
    rcases hm : firstMatch (clean_text text) with _ | r
    · simp [hm]
    · rw [matchedPattern, hm] at h
      simp at h

/-- Witness for C2: a concrete utterance that matches no rule is classified
with `requires_pin = false`. -/
theorem requires_pin_iff_sensitive_witness :
    matchedPattern "zzz" = false ∧ (parse "Santhia" "zzz").requires_pin = false :=
  ⟨by rfl, requires_pin_iff_sensitive.2 "Santhia" "zzz" (by rfl)⟩

/-! ### C3: the escalation gate against its specified trigger -/

/-- Worker for `wsTokens` (current token reversed in `run`). -/
def wsTokensGo : List Char → List Char → List (List Char)
  | run, [] => if run.isEmpty then [] else [run.reverse]
  | run, c :: t =>
    if isPySpace c then
      if run.isEmpty then wsTokensGo [] t else run.reverse :: wsTokensGo [] t
    else wsTokensGo (c :: run) t

/-- The whitespace-delimited tokens of a string. -/
def wsTokens (s : List Char) : List (List Char) := wsTokensGo [] s

/-- Modelled from the claim text (for comparison with the code): the
language-specific connective lists of the Concatenation Splitter. -/
def claimConnectives (lang : String) : List String :=
  if lang == "it" then ["e", "anche", "poi", "inoltre"]
  else ["and", "also", "then", "plus"]

/-- Modelled from the claim text: the language-specific decision-question
markers. -/
def claimMarkers (lang : String) : List String :=
  if lang == "it" then ["devo", "posso", "cosa dovrei", "quando dovrei"]
  else ["should i", "can i", "what should", "when should"]

/-- Modelled from the claim text: the trigger condition as the claim states
it — base intent `general_chat`, confidence strictly below 0.70, and the
utterance contains a connective of the language-specific list as a
whole-word whitespace-delimited token, or a decision-question marker. -/
def claimComplexTrigger (lang intent query : String) (confidence : ℚ) : Bool :=
  intent == "general_chat" && decide (confidence < 0.7) &&
    ((claimConnectives lang).any
        (fun w => (wsTokens (lowerChars query.data)).contains w.data) ||
      (claimMarkers lang).any
        (fun m => containsSub m.data (lowerChars query.data)))

/-- Counterexample to C3: on the utterance "hello" (base intent
`general_chat`, confidence 0.5) the code triggers — the keyword `"e"` is
checked by plain substring containment and occurs inside "hello" — while the
claimed whole-word trigger condition is false in both languages. -/
theorem is_complex_query_cex :
    is_complex_query "general_chat" "hello" 0.5 = true ∧
    claimComplexTrigger "en" "general_chat" "hello" 0.5 = false ∧
    claimComplexTrigger "it" "general_chat" "hello" 0.5 = false := by
  have h57 : ((0.5 : ℚ) < 0.7) := by norm_num
  refine ⟨?_, ?_, ?_⟩ <;> simp [is_complex_query, claimComplexTrigger, h57] <;> decide

/-- C3 (amended): the gate triggers iff the base intent is `general_chat`,
the confidence is below 0.7, and the lower-cased utterance contains — as a
plain substring, not a whole-word token, and regardless of the language —
one of the ten multi-part keywords (`and`, `also`, `then`, `after that`,
`plus`, `e`, `anche`, `poi`, `dopo`, `inoltre`) or one of the eight
decision-question markers. -/
theorem is_complex_query_characterisation (intent query : String) (confidence : ℚ) :
    is_complex_query intent query confidence = true ↔
      (intent = "general_chat" ∧ confidence < 0.7 ∧
        ∃ kw ∈ multiPartKeywords ++ decisionKeywords,
          containsSub kw.data (lowerChars query.data) = true) := by
  by_cases hi : intent = "general_chat"
  · by_cases hc : confidence < 0.7
    · have hA : (intent == "general_chat" && decide (confidence < 0.7)) = true := by
        simp [hi, hc]
      simp [is_complex_query, hA, hi, hc, List.any_eq_true, List.mem_append]
      constructor
      · rintro (⟨kw, hm, hk⟩ | ⟨kw, hm, hk⟩)
        · exact ⟨kw, Or.inl hm, hk⟩
        · exact ⟨kw, Or.inr hm, hk⟩
      · rintro ⟨kw, hm | hm, hk⟩
        · exact Or.inl ⟨kw, hm, hk⟩
        · exact Or.inr ⟨kw, hm, hk⟩
    · have hA : (intent == "general_chat" && decide (confidence < 0.7)) = false := by
        simp [hc]
      simp [is_complex_query, hA, hc]
  · have hA : (intent == "general_chat" && decide (confidence < 0.7)) = false := by
      simp [hi]
    simp [is_complex_query, hA, hi]

/-- Witness for the amended C3: the theorem applied at the concrete triggering
utterance "what should I do" with confidence 0.5. -/
theorem is_complex_query_characterisation_witness :
    is_complex_query "general_chat" "what should I do" 0.5 = true :=
  (is_complex_query_characterisation "general_chat" "what should I do" 0.5).mpr
    ⟨rfl, by norm_num, "what should", by decide, by decide⟩

/-! ### Frame lemmas for `update_context_from_turn` -/

theorem update_history (cm : ContextManager) (t : ConversationTurn) :
    (update_context_from_turn cm t).history = cm.history := by
  unfold update_context_from_turn
  repeat' split
  all_goals simp

theorem update_preferences_eq (cm : ContextManager) (t : ConversationTurn) :
    (update_context_from_turn cm t).preferences = cm.preferences := by
  unfold update_context_from_turn
  repeat' split
  all_goals simp

theorem update_max_history (cm : ContextManager) (t : ConversationTurn) :
    (update_context_from_turn cm t).max_history = cm.max_history := by
  unfold update_context_from_turn
  repeat' split
  all_goals simp

theorem update_timeout (cm : ContextManager) (t : ConversationTurn) :
    (update_context_from_turn cm t).timeout = cm.timeout := by
  unfold update_context_from_turn
  repeat' split
  all_goals simp

theorem update_dest_of_lookup_none (cm : ContextManager) (t : ConversationTurn)
    (h : t.parameters.lookup "destination" = none) :
    (update_context_from_turn cm t).current_destination = cm.current_destination := by
  unfold update_context_from_turn
  simp only [h]
  repeat' split
  all_goals simp

/-- C4: on a manager with `timeout = 300` (and the constructor default
`max_history = 10`) whose `last_activity` lies 301 seconds in the past, a
single `add_turn` whose parameters set no destination leaves exactly one
turn in the history and no `current_destination`, and the `preferences`
map is exactly what it was before the call: the implicit expiry `reset`
never touches preferences. -/
theorem add_turn_timeout_frame (cm : ContextManager) (now : Int)
    (command intent language response : String)
    (parameters : List (String × String)) (success : Bool)
    (htimeout : cm.timeout = 300) (hmax : cm.max_history = 10)
    (hlast : cm.last_activity = now - 301)
    (hdest : parameters.lookup "destination" = none) :
    (add_turn now cm command intent language parameters response success).history.length = 1 ∧
    (add_turn now cm command intent language parameters response success).current_destination = none ∧
    (add_turn now cm command intent language parameters response success).preferences
      = cm.preferences := by
  have hact : is_active now cm = false := by
    simp only [is_active, hlast, htimeout, decide_eq_false_iff_not]
    omega
  refine ⟨?_, ?_, ?_⟩
  · simp [add_turn, hact, update_history, reset, hmax]
  · simp only [add_turn, hact, Bool.not_false, if_true]
    rw [update_dest_of_lookup_none]
    · simp [reset]
    · simpa using hdest
  · simp [add_turn, hact, update_preferences_eq, reset]

/-- Witness for C4 at a concrete state and turn. -/
theorem add_turn_timeout_frame_witness :
    (add_turn 301 (set_preference (ContextManager.init 300 10 0) "unit" "metric")
        "what time is it" "time" "en" [] "resp" true).history.length = 1 ∧
    (add_turn 301 (set_preference (ContextManager.init 300 10 0) "unit" "metric")
        "what time is it" "time" "en" [] "resp" true).current_destination = none ∧
    (add_turn 301 (set_preference (ContextManager.init 300 10 0) "unit" "metric")
        "what time is it" "time" "en" [] "resp" true).preferences
      = (set_preference (ContextManager.init 300 10 0) "unit" "metric").preferences :=
  add_turn_timeout_frame _ 301 _ _ _ _ _ _ (by rfl) (by rfl) (by decide) (by rfl)

/-! ### C5: the history bound is an invariant -/

theorem applyOp_preserves_bound (cm : ContextManager) (op : CMOp)
    (h : cm.history.length ≤ cm.max_history) :
    (applyOp cm op).history.length ≤ (applyOp cm op).max_history := by
  cases op with
  | addTurn now c i l p r s =>
    simp only [applyOp, add_turn, update_history, update_max_history]
    split <;> split <;>
      simp_all [reset, List.length_drop, List.length_append] <;> omega
  | doReset now => simp [applyOp, reset]
  | setPref k v => simpa [applyOp, set_preference] using h
  | resolvePronoun now text => simpa [applyOp] using h
  | followUp now c i => simpa [applyOp] using h

/-- C5: for every manager whose history respects the bound, the history
length still respects the bound after any sequence of `add_turn`, `reset`,
`set_preference`, `resolve_pronoun` and `handle_follow_up` calls (the last
two never write the state; `add_turn` appends one turn and evicts the
oldest when the bound would be exceeded). -/
theorem history_never_exceeds_bound (cm : ContextManager) (ops : List CMOp)
    (h : cm.history.length ≤ cm.max_history) :
    (ops.foldl applyOp cm).history.length ≤ (ops.foldl applyOp cm).max_history := by
  induction ops generalizing cm with
  | nil => exact h
  | cons op rest ih => exact ih (applyOp cm op) (applyOp_preserves_bound cm op h)

/-- Witness for C5 on a concrete initial state and call sequence. -/
theorem history_never_exceeds_bound_witness :
    (([CMOp.addTurn 1 "hi" "general_chat" "en" [] "r" true,
       CMOp.setPref "unit" "metric",
       CMOp.addTurn 2 "news" "news" "en" [] "r" true,
       CMOp.doReset 3].foldl applyOp (ContextManager.init 300 10 0)).history.length ≤
      ([CMOp.addTurn 1 "hi" "general_chat" "en" [] "r" true,
        CMOp.setPref "unit" "metric",
        CMOp.addTurn 2 "news" "news" "en" [] "r" true,
        CMOp.doReset 3].foldl applyOp (ContextManager.init 300 10 0)).max_history) :=
  history_never_exceeds_bound (ContextManager.init 300 10 0) _ (by decide)

/-! ### C8: pronoun resolution -/

/-- An Active manager whose `last_entity` is "Vercelli" while no
`current_destination` is set. -/
def cmC8 : ContextManager :=
  { timeout := 300, max_history := 10, history := []
    current_location := none, current_destination := none
    current_time_reference := none, current_topic := none
    last_entity := some "Vercelli", preferences := []
    last_activity := 0, session_start := 0 }

/-- Counterexample to C8: with only `last_entity = "Vercelli"` set (no
`current_destination`), `resolve_pronoun` returns "How long to get there?"
unchanged — the " there" substitution is driven by `current_destination`,
not by `last_entity`. -/
theorem resolve_pronoun_cex :
    resolve_pronoun 0 cmC8 "How long to get there?" = "How long to get there?" ∧
    ("How long to get there?" : String) ≠ "How long to get Vercelli?" :=
  ⟨by rfl, by decide⟩

/-- C8 (amended): on an Active manager, the trailing " there" of
"How long to get there?" is replaced through `current_destination` — which
equals "Vercelli" exactly in the spec scenario, where the destination
parameter set `last_entity` and `current_destination` together — and
whenever neither `last_entity` nor `current_destination` is set,
`resolve_pronoun` returns its input unchanged. -/
theorem resolve_pronoun_behaviour :
    (∀ (now : Int) (cm : ContextManager), is_active now cm = true →
      cm.last_entity = some "Vercelli" → cm.current_destination = some "Vercelli" →
      resolve_pronoun now cm "How long to get there?" = "How long to get Vercelli?") ∧
    (∀ (now : Int) (cm : ContextManager) (text : String),
      cm.last_entity = none → cm.current_destination = none →
      resolve_pronoun now cm text = text) := by
  constructor
  · intro now cm hact hle hdest
    simp only [resolve_pronoun, hact, hle, hdest]
    rfl
  · intro now cm text hle hdest
    cases hact : is_active now cm <;> simp [resolve_pronoun, hact, hle, hdest]

/-- Witness for the amended C8 at a concrete state. -/
theorem resolve_pronoun_behaviour_witness :
    resolve_pronoun 0
      { cmC8 with current_destination := some "Vercelli" }
      "How long to get there?" = "How long to get Vercelli?" ∧
    resolve_pronoun 0 { cmC8 with last_entity := none } "How long to get it?"
      = "How long to get it?" :=
  ⟨resolve_pronoun_behaviour.1 0 _ (by rfl) (by rfl) (by rfl),
   resolve_pronoun_behaviour.2 0 _ _ (by rfl) (by rfl)⟩

/-! ### C9: recipe turns set `last_entity` to the query -/

/-- C9: an `add_turn` on an Active manager whose turn is a recipe intent
with a `query` parameter leaves `last_entity` equal to that query,
overriding any `last_entity` derived from a destination parameter of the
same turn. -/
theorem add_turn_recipe_last_entity (cm : ContextManager) (now : Int)
    (command intent language response : String)
    (parameters : List (String × String)) (success : Bool) (q : String)
    (hact : is_active now cm = true)
    (hint : intent = "recipe_search" ∨ intent = "recipe_random")
    (hq : parameters.lookup "query" = some q) :
    (add_turn now cm command intent language parameters response success).last_entity
      = some q := by
  have hcond : (intent == "recipe_search" || intent == "recipe_random") = true := by
    rcases hint with h | h <;> simp [h]
  simp only [add_turn, hact, Bool.not_true, Bool.false_eq_true, if_false,
    update_context_from_turn, hcond, hq]
  repeat' split
  all_goals simp_all

/-- Witness for C9: a recipe turn with both a destination and a query ends
with `last_entity` equal to the query. -/
theorem add_turn_recipe_last_entity_witness :
    (add_turn 1 (ContextManager.init 300 10 0) "how to make carbonara"
      "recipe_search" "en" [("destination", "Rome"), ("query", "carbonara")]
      "resp" true).last_entity = some "carbonara" :=
  add_turn_recipe_last_entity _ 1 _ _ _ _ _ _ "carbonara"
    (by rfl) (Or.inl rfl) (by rfl)

/-! ### C6: `split_query` -/

theorem splitLoop_eq_findSome (q : List Char) (ps : List RE) :
    splitLoop q ps = ps.findSome? (fun p =>
      let parts := reSplit true p q
      if parts.length > 1 then some (cleanParts parts) else none) := by
  induction ps with
  | nil => rfl
  | cons p ps ih =>
    by_cases h : (reSplit true p q).length > 1
    · simp [splitLoop, List.findSome?_cons, h]
    · simp [splitLoop, List.findSome?_cons, h, ih]

/-- The first connective pattern (in list order) that splits the query into
more than one raw part determines the result: its parts, trimmed, with the
empty ones dropped; if no pattern splits, the query itself. -/
def firstRawSplit (query language : String) : List String :=
  match (getSplitPatterns language).findSome? (fun p =>
    let parts := reSplit true p query.data
    if parts.length > 1 then some (cleanParts parts) else none) with
  | some cleaned => cleaned.map String.mk
  | none => [query]

/-- Counterexample to C6: on `"a and "` no connective pattern yields more
than one non-empty trimmed segment, so the claim requires the original text
back unchanged; the code instead accepts the raw two-part split
`["a", ""]` of the `" and "` pattern and cleans it to the single segment
`["a"]`, which is not the original text. -/
theorem split_query_cex :
    split_query "a and " "en" = ["a"] ∧ (["a"] : List String) ≠ ["a and "] :=
  ⟨by decide, by decide⟩

/-- C6 (amended): `split_query` tries the language's connective patterns in
list order; the first whose `re.split` yields more than one RAW part wins,
and the result is that split's trimmed non-empty segments — possibly fewer
than two.  If `has_concatenation` is false, or no pattern produces a
multi-part raw split, the original text is returned as a single-element
list. -/
theorem split_query_characterisation (query language : String) :
    (has_concatenation query language = false → split_query query language = [query]) ∧
    (has_concatenation query language = true →
      split_query query language = firstRawSplit query language) := by
  constructor
  · intro h
    simp [split_query, h]
  · intro h
    simp only [split_query, h, Bool.not_true, Bool.false_eq_true, if_false]
    rw [splitLoop_eq_findSome]
    rfl

/-- Witness for the amended C6 on a concrete concatenated query. -/
theorem split_query_characterisation_witness :
    has_concatenation "the weather and the news" "en" = true ∧
    split_query "the weather and the news" "en"
      = firstRawSplit "the weather and the news" "en" ∧
    split_query "the weather and the news" "en" = ["the weather", "the news"] :=
  ⟨by decide, (split_query_characterisation _ _).2 (by decide), by decide⟩

/-! ### C7: "Che tempo fa a Torino?" -/

/-- Counterexample to C7: `parse` lower-cases the utterance before matching,
so the extracted location is `"torino"`, not the claimed `"Torino"`. -/
theorem parse_torino_cex :
    (parse_intent "Che tempo fa a Torino?").parameters.lookup "location"
      = some (PValue.s "torino") ∧
    some (PValue.s "torino") ≠ some (PValue.s "Torino") :=
  ⟨by decide, by decide⟩

/-- C7 (amended): parsing "Che tempo fa a Torino?" yields intent `weather`,
language `it`, and a `location` parameter equal to the lower-cased
`"torino"`. -/
theorem parse_torino :
    (parse_intent "Che tempo fa a Torino?").intent = "weather" ∧
    (parse_intent "Che tempo fa a Torino?").language = "it" ∧
    (parse_intent "Che tempo fa a Torino?").parameters.lookup "location"
      = some (PValue.s "torino") :=
  ⟨by rfl, by rfl, by decide⟩

/-! ### C10: unknown language codes fall back to English -/

theorem getSplitPatterns_of_ne_it (language : String) (h : language ≠ "it") :
    getSplitPatterns language = enSplitPatterns := by
  have h1 : (language == "it") = false := beq_eq_false_iff_ne.mpr h
  cases h2 : (language == "en") <;>
    simp [getSplitPatterns, split_patterns, List.lookup, h1, h2]

/-- C10: for every query, `has_concatenation` and `split_query` behave for
any language code other than `"it"` exactly as for `"en"`: the dict lookup
`split_patterns.get(language, split_patterns["en"])` yields the English
connective list for `"en"` and for every unknown code alike. -/
theorem concat_language_fallback (query language : String) (h : language ≠ "it") :
    has_concatenation query language = has_concatenation query "en" ∧
    split_query query language = split_query query "en" := by
  have hp : getSplitPatterns language = getSplitPatterns "en" := by
    rw [getSplitPatterns_of_ne_it language h]
    rfl
  constructor
  · simp only [has_concatenation, hp]
  · simp only [split_query, has_concatenation, hp]

/-- Witness for C10 with the unknown language code `"fr"`. -/
theorem concat_language_fallback_witness :
    has_concatenation "tea and biscuits" "fr" = has_concatenation "tea and biscuits" "en" ∧
    split_query "tea and biscuits" "fr" = split_query "tea and biscuits" "en" :=
  concat_language_fallback "tea and biscuits" "fr" (by decide)

end Alfred
